import Mathlib

/-!
R24dvd radar UART protocol engine.

A shallow embedding of `src/esphome/R24dvd.h`: the frame checksum, the
byte-at-a-time frame decoder `R24_split_data_frame`, the command dispatcher
`R24_parse_data_frame` with its five family decoders, the query builders and
the two scheduler entry points `loop` and `update`.

Conventions of the embedding.

* The file-level `static` variables and the members of the two component
  classes are the fields of one record `State`; every C function becomes a
  function from `State` to `State`.
* `uint8_t` and `uint32_t` values are natural numbers; every place where the
  C code truncates to the width of the destination is an explicit `%`.
* `sg_start_query_data` is a C `int` and is an `Int` here.
* Everything the code hands to a collaborator (telemetry sinks, the UART
  transmitter, the dispatcher entry) is appended to a log field of `State`, so
  that what was published, sent or dispatched can be stated as a property of
  the final state.
-/

namespace R24dvd

/-! ## Constants -/

def FRAME_BUF_MAX_SIZE : Nat := 128
def PRODUCT_BUF_MAX_SIZE : Nat := 32

def FRAME_HEADER1_VALUE : Nat := 0x53
def FRAME_HEADER2_VALUE : Nat := 0x59
def FRAME_TAIL1_VALUE : Nat := 0x54
def FRAME_TAIL2_VALUE : Nat := 0x43

def FRAME_CONTROL_WORD_INDEX : Nat := 2
def FRAME_COMMAND_WORD_INDEX : Nat := 3
def FRAME_DATA_INDEX : Nat := 6

/-! Decoder states (first anonymous `enum`). -/

def FRAME_IDLE : Nat := 0
def FRAME_HEADER2 : Nat := 1
def FRAME_CTL_WORLD : Nat := 2
def FRAME_CMD_WORLD : Nat := 3
def FRAME_DATA_LEN_H : Nat := 4
def FRAME_DATA_LEN_L : Nat := 5
def FRAME_DATA_BYTES : Nat := 6
def FRAME_DATA_CRC : Nat := 7
def FRAME_TAIL1 : Nat := 8
def FRAME_TAIL2 : Nat := 9

/-! Query cursor values (second anonymous `enum`). -/

def STANDARD_FUNCTION_QUERY_PRODUCT_MODE : Int := 0
def STANDARD_FUNCTION_QUERY_PRODUCT_ID : Int := 1
def STANDARD_FUNCTION_QUERY_FIRMWARE_VERDION : Int := 2
def STANDARD_FUNCTION_QUERY_HARDWARE_MODE : Int := 3
def STANDARD_FUNCTION_QUERY_PROTOCOL_TYPE : Int := 4
def STANDARD_FUNCTION_QUERY_HUMAN_STATUS : Int := 5
def STANDARD_FUNCTION_QUERY_SCENE_MODE : Int := 6
def STANDARD_FUNCTION_QUERY_SENSITIVITY : Int := 7
def STANDARD_FUNCTION_QUERY_RADAR_INIT_STATUS : Int := 8
def STANDARD_FUNCTION_QUERY_MOV_TARGET_DETECTION_MAX_DISTANCE : Int := 9
def STANDARD_FUNCTION_QUERY_STATIC_TARGET_DETECTION_MAX_DISTANCE : Int := 10
def STANDARD_FUNCTION_QUERY_UNMANNED_TIME : Int := 11
def STANDARD_FUNCTION_QUERY_RADAR_OUITPUT_INFORMATION_SWITCH : Int := 12
def STANDARD_FUNCTION_MAX : Int := 13
def CUSTOM_FUNCTION_QUERY_RADAR_OUITPUT_INFORMATION_SWITCH : Int := 14
def CUSTOM_FUNCTION_QUERY_PRESENCE_OF_DETECTION_RANGE : Int := 15
def CUSTOM_FUNCTION_QUERY_JUDGMENT_THRESHOLD_EXISTS : Int := 16
def CUSTOM_FUNCTION_QUERY_MOTION_AMPLITUDE_TRIGGER_THRESHOLD : Int := 17
def CUSTOM_FUNCTION_QUERY_PRESENCE_OF_PERCEPTION_BOUNDARY : Int := 18
def CUSTOM_FUNCTION_QUERY_MOTION_TRIGGER_BOUNDARY : Int := 19
def CUSTOM_FUNCTION_QUERY_MOTION_TRIGGER_TIME : Int := 20
def CUSTOM_FUNCTION_QUERY_MOVEMENT_TO_REST_TIME : Int := 21
def CUSTOM_FUNCTION_QUERY_TIME_OF_ENTER_UNMANNED : Int := 22
def CUSTOM_FUNCTION_MAX : Int := 23

/-! Dialect flag values (third anonymous `enum`). -/

def OUTPUT_SWITCH_INIT : Nat := 0
def OUTPUT_SWTICH_ON : Nat := 1
def OUTPUT_SWTICH_OFF : Nat := 2

/-! String tables. -/

def s_heartbeat_str : List String := ["Abnormal", "Normal"]
def s_scene_str : List String := ["Living room", "Area detection", "Washroom", "Bedroom"]
def s_someoneExists_str : List String := ["Nobody", "Someone"]
def s_motion_status_str : List String := ["None", "Stationary", "Active"]
def s_keep_away_str : List String := ["None", "Close", "Away"]
def s_unmanned_time_str : List String :=
  ["None", "10s", "30s", "1min", "2min", "5min", "10min", "30min", "1hour"]
def s_motion_trig_boundary_str : List String :=
  ["0.5m", "1.0m", "1.5m", "2.0m", "2.5m", "3.0m", "3.5m", "4.0m", "4.5m", "5.0m"]
def s_presence_of_perception_boundary_str : List String :=
  ["0.5m", "1.0m", "1.5m", "2.0m", "2.5m", "3.0m", "3.5m", "4.0m", "4.5m", "5.0m"]
def s_presence_of_detection_range_str : List String :=
  ["Nobody", "0.5m", "1.0m", "1.5m", "2.0m", "2.5m", "3.0m"]

/-! ## Telemetry sinks and the state record -/

/-- The telemetry entities the code publishes to, named as in the source
(`this->Heartbeat`, `this->inited`, `id(scene_mode)`, ...). -/
inductive Sink where
  | Heartbeat
  | inited
  | movementSigns
  | scene_mode
  | sensitivity
  | someoneExists
  | motion_status
  | unmanned_time
  | keep_away
  | moving_target_detection_max_distance
  | static_target_detection_max_distance
  | product_mode
  | product_id
  | hardware_model
  | firmware_version
  | protocol_type
  | output_info_switch
  | custom_spatial_static_value
  | custom_static_distance
  | custom_spatial_motion_value
  | custom_motion_distance
  | custom_motion_speed
  | custom_judgment_threshold_exists
  | custom_motion_amplitude_trigger_threshold
  | custom_presence_of_perception_boundary
  | custom_motion_trigger_boundary
  | custom_motion_trigger_time
  | custom_movement_to_rest_time
  | custom_time_of_enter_unmanned
  | custom_presence_of_detection
  deriving DecidableEq, Repr

/-- The argument of one `publish_state` call, before the sink converts it.
`num n` is an integer expression, `half n` is the C expression `n * 0.5`,
`text s` is a string literal or an entry of a string table, `cstr bs` is a
NUL-terminated `char` buffer holding the bytes `bs`, and `outside i` is the
result of reading a string table at an index `i` beyond its last entry (the C
code reads whatever memory follows the table). -/
inductive Value where
  | num (n : Int)
  | half (n : Int)
  | text (s : String)
  | cstr (bs : List Nat)
  | outside (i : Nat)
  deriving DecidableEq, Repr

/-- All mutable state of the translation unit, followed by the size of the
three `select` entities the decoders query with `has_index`, followed by the
observation logs. -/
structure State where
  s_output_info_switch_flag : Nat
  sg_recv_data_state : Nat
  sg_frame_len : Nat
  sg_data_len : Nat
  sg_frame_buf : List Nat
  sg_frame_prase_buf : List Nat
  sg_init_flag : Bool
  sg_start_query_data : Int
  sg_movementSigns_bak : Nat
  sg_motion_trigger_time_bak : Nat
  sg_move_to_rest_time_bak : Nat
  sg_enter_unmanned_time_bak : Nat
  sg_spatial_static_value_bak : Nat
  sg_static_distance_bak : Nat
  sg_spatial_motion_value_bak : Nat
  sg_motion_distance_bak : Nat
  sg_motion_speed_bak : Nat
  sg_heartbeat_flag : Nat
  c_product_mode : List Nat
  c_product_id : List Nat
  c_hardware_model : List Nat
  c_firmware_version : List Nat
  u_protocol_type : Nat
  /-- Number of options of `id(scene_mode)`. -/
  scene_mode_size : Nat
  /-- Number of options of `id(custom_presence_of_perception_boundary)`. -/
  perception_boundary_size : Nat
  /-- Number of options of `id(custom_motion_trigger_boundary)`. -/
  motion_trigger_boundary_size : Nat
  /-- Every `publish_state` call, oldest first. -/
  published : List (Sink × Value)
  /-- Every call of `R24_parse_data_frame`, oldest first: the bytes
  `data[0 .. len-1]` it was called with. -/
  dispatched : List (List Nat)
  /-- Every call of `send_query`, oldest first: the bytes written. -/
  sent : List (List Nat)
  /-- The index of every indexed store `sg_frame_buf[i] = ...`, oldest
  first. -/
  frame_buf_writes : List Nat
  deriving DecidableEq, Repr

/-- The state after static initialisation: the `static` variables hold their
initialisers (zero where none is written), the `char` members are taken as
zero, the logs are empty. The arguments are the option counts of the three
`select` entities. -/
def initState (scene perception trigger : Nat) : State :=
  { s_output_info_switch_flag := OUTPUT_SWITCH_INIT
    sg_recv_data_state := FRAME_IDLE
    sg_frame_len := 0
    sg_data_len := 0
    sg_frame_buf := List.replicate FRAME_BUF_MAX_SIZE 0
    sg_frame_prase_buf := List.replicate FRAME_BUF_MAX_SIZE 0
    sg_init_flag := false
    sg_start_query_data := -1
    sg_movementSigns_bak := 0
    sg_motion_trigger_time_bak := 0
    sg_move_to_rest_time_bak := 0
    sg_enter_unmanned_time_bak := 0
    sg_spatial_static_value_bak := 0
    sg_static_distance_bak := 0
    sg_spatial_motion_value_bak := 0
    sg_motion_distance_bak := 0
    sg_motion_speed_bak := 0
    sg_heartbeat_flag := 255
    c_product_mode := List.replicate (PRODUCT_BUF_MAX_SIZE + 1) 0
    c_product_id := List.replicate (PRODUCT_BUF_MAX_SIZE + 1) 0
    c_hardware_model := List.replicate (PRODUCT_BUF_MAX_SIZE + 1) 0
    c_firmware_version := List.replicate (PRODUCT_BUF_MAX_SIZE + 1) 0
    u_protocol_type := 0
    scene_mode_size := scene
    perception_boundary_size := perception
    motion_trigger_boundary_size := trigger
    published := []
    dispatched := []
    sent := []
    frame_buf_writes := [] }

/-! ## Checksum -/

/-- The read `data[i]` of a byte array; an index past the end of the modelled
array reads 0. -/
def rd (data : List Nat) (i : Nat) : Nat := data.getD i 0

/-- C: `get_frame_crc_sum`. The loop `for (i = 0; i < len - 3; i++)` adds
`data[i]` into an `unsigned int` (arithmetic modulo 2^32); the result is
`crc_sum & 0xff`. For `len < 3` the loop body does not run. -/
def get_frame_crc_sum (data : List Nat) (len : Nat) : Nat :=
  ((List.range (len - 3)).foldl (fun crc_sum i => (crc_sum + rd data i) % 2 ^ 32) 0) &&& 0xff

/-- C: `get_frame_check_status`; returns 1 when `data[len - 3]` equals the
checksum and 0 otherwise. (The callers pass `len >= 3`.) -/
def get_frame_check_status (data : List Nat) (len : Nat) : Nat :=
  let crc_sum := get_frame_crc_sum data len
  let verified := rd data (len - 3)
  if verified = crc_sum then 1 else 0

/-! ## Collaborator interfaces -/

/-- One `publish_state` call on the sink `k` with argument `v`. -/
def publish (s : State) (k : Sink) (v : Value) : State :=
  { s with published := s.published ++ [(k, v)] }

/-- The C expression `table[i]` for a string table: the entry when `i` is
inside the table, `Value.outside i` when it is not. -/
def table_entry (table : List String) (i : Nat) : Value :=
  match table[i]? with
  | some str => Value.text str
  | none => Value.outside i

/-- The ESPHome call `Select::has_index(size_t index)` on a select with `size`
options: `index < size`. The C code passes the `int` expression
`data[FRAME_DATA_INDEX]-1`; the value -1 converts to the largest `size_t`,
which is not below any option count. -/
def has_index (size : Nat) (index : Int) : Bool :=
  decide (0 ≤ index ∧ index.toNat < size)

/-- C: `memset(buf, 0, n)`. -/
def memset0 (buf : List Nat) (n : Nat) : List Nat :=
  List.replicate n 0 ++ buf.drop n

/-- C: `memcpy(dst, src, n)`. -/
def memcpy (dst src : List Nat) (n : Nat) : List Nat :=
  src.take n ++ dst.drop n

/-- The C string held by a `char` buffer: the bytes before the first NUL. -/
def c_str (buf : List Nat) : List Nat :=
  buf.takeWhile (fun b => b != 0)

/-! ## Command dispatcher -/

/-- C: `R24_frame_parse_work_status`. -/
def R24_frame_parse_work_status (s : State) (data : List Nat) : State :=
  if rd data FRAME_COMMAND_WORD_INDEX = 0x01 then
    publish s Sink.inited (Value.num (rd data FRAME_DATA_INDEX))
  else if rd data FRAME_COMMAND_WORD_INDEX = 0x07 then
    if has_index s.scene_mode_size ((rd data FRAME_DATA_INDEX : Int) - 1) then
      publish s Sink.scene_mode
        (table_entry s_scene_str ((rd data FRAME_DATA_INDEX : Int) - 1).toNat)
    else s
  else if rd data FRAME_COMMAND_WORD_INDEX = 0x08 then
    publish s Sink.sensitivity (Value.num (rd data FRAME_DATA_INDEX))
  else if rd data FRAME_COMMAND_WORD_INDEX = 0x81 then
    publish s Sink.inited (Value.num (rd data FRAME_DATA_INDEX))
  else if rd data FRAME_COMMAND_WORD_INDEX = 0x87 then
    if has_index s.scene_mode_size ((rd data FRAME_DATA_INDEX : Int) - 1) then
      publish s Sink.scene_mode
        (table_entry s_scene_str ((rd data FRAME_DATA_INDEX : Int) - 1).toNat)
    else s
  else if rd data FRAME_COMMAND_WORD_INDEX = 0x88 then
    publish s Sink.sensitivity (Value.num (rd data FRAME_DATA_INDEX))
  else s

/-- The body shared verbatim by the four body-movement branches (Human 0x03
and 0x83, OpenInfo 0x07 and 0x87): publish and store when the value differs
from `sg_movementSigns_bak`. -/
def movementSigns_report (s : State) (data : List Nat) : State :=
  if s.sg_movementSigns_bak ≠ rd data FRAME_DATA_INDEX then
    { publish s Sink.movementSigns (Value.num (rd data FRAME_DATA_INDEX)) with
      sg_movementSigns_bak := rd data FRAME_DATA_INDEX }
  else s

/-- C: `R24_frame_parse_human_information`. The test `data[6] >= 0` of the
source is always true for a `uint8_t`. -/
def R24_frame_parse_human_information (s : State) (data : List Nat) : State :=
  if rd data FRAME_COMMAND_WORD_INDEX = 0x01 then
    publish s Sink.someoneExists (table_entry s_someoneExists_str (rd data FRAME_DATA_INDEX))
  else if rd data FRAME_COMMAND_WORD_INDEX = 0x02 then
    if rd data FRAME_DATA_INDEX < 3 ∧ rd data FRAME_DATA_INDEX ≥ 0 then
      publish s Sink.motion_status (table_entry s_motion_status_str (rd data FRAME_DATA_INDEX))
    else s
  else if rd data FRAME_COMMAND_WORD_INDEX = 0x03 then
    movementSigns_report s data
  else if rd data FRAME_COMMAND_WORD_INDEX = 0x0A then
    if rd data FRAME_DATA_INDEX < 9 ∧ rd data FRAME_DATA_INDEX ≥ 0 then
      publish s Sink.unmanned_time (table_entry s_unmanned_time_str (rd data FRAME_DATA_INDEX))
    else s
  else if rd data FRAME_COMMAND_WORD_INDEX = 0x0B then
    if rd data FRAME_DATA_INDEX < 3 ∧ rd data FRAME_DATA_INDEX ≥ 0 then
      publish s Sink.keep_away (table_entry s_keep_away_str (rd data FRAME_DATA_INDEX))
    else s
  else if rd data FRAME_COMMAND_WORD_INDEX = 0x81 then
    publish s Sink.someoneExists (table_entry s_someoneExists_str (rd data FRAME_DATA_INDEX))
  else if rd data FRAME_COMMAND_WORD_INDEX = 0x82 then
    if rd data FRAME_DATA_INDEX < 3 ∧ rd data FRAME_DATA_INDEX ≥ 0 then
      publish s Sink.motion_status (table_entry s_motion_status_str (rd data FRAME_DATA_INDEX))
    else s
  else if rd data FRAME_COMMAND_WORD_INDEX = 0x83 then
    movementSigns_report s data
  else if rd data FRAME_COMMAND_WORD_INDEX = 0x8A then
    if rd data FRAME_DATA_INDEX < 9 ∧ rd data FRAME_DATA_INDEX ≥ 0 then
      publish s Sink.unmanned_time (table_entry s_unmanned_time_str (rd data FRAME_DATA_INDEX))
    else s
  else if rd data FRAME_COMMAND_WORD_INDEX = 0x8B then
    if rd data FRAME_DATA_INDEX < 3 ∧ rd data FRAME_DATA_INDEX ≥ 0 then
      publish s Sink.keep_away (table_entry s_keep_away_str (rd data FRAME_DATA_INDEX))
    else s
  else s

/-- The 16-bit distance `data[6]*256 + data[7]` of the detection-range
replies (computed in `int`). -/
def detection_distance (data : List Nat) : Int :=
  (rd data FRAME_DATA_INDEX : Int) * 256 + (rd data (FRAME_DATA_INDEX + 1) : Int)

/-- C: `R24_frame_parse_detection_range`. -/
def R24_frame_parse_detection_range (s : State) (data : List Nat) : State :=
  if rd data FRAME_COMMAND_WORD_INDEX = 0x01 then
    publish s Sink.moving_target_detection_max_distance (Value.num (detection_distance data))
  else if rd data FRAME_COMMAND_WORD_INDEX = 0x04 then
    publish s Sink.static_target_detection_max_distance (Value.num (detection_distance data))
  else if rd data FRAME_COMMAND_WORD_INDEX = 0x81 then
    publish s Sink.moving_target_detection_max_distance (Value.num (detection_distance data))
  else if rd data FRAME_COMMAND_WORD_INDEX = 0x84 then
    publish s Sink.static_target_detection_max_distance (Value.num (detection_distance data))
  else s

/-- The `uint8_t product_len` of the product-information replies:
`data[4]*256 + data[5]` truncated to eight bits. -/
def product_len (data : List Nat) : Nat :=
  (rd data (FRAME_COMMAND_WORD_INDEX + 1) * 256 + rd data (FRAME_COMMAND_WORD_INDEX + 2)) % 256

/-- The `memset` followed by the `memcpy` of the product-information
branches, applied to one of the four `char` members. -/
def product_copy (member data : List Nat) : List Nat :=
  memcpy (memset0 member PRODUCT_BUF_MAX_SIZE) (data.drop FRAME_DATA_INDEX) (product_len data)

/-- C: `R24_frame_parse_product_Information`. -/
def R24_frame_parse_product_Information (s : State) (data : List Nat) : State :=
  if rd data FRAME_COMMAND_WORD_INDEX = 0xA1 then
    if product_len data < PRODUCT_BUF_MAX_SIZE then
      let s := { s with c_product_mode := product_copy s.c_product_mode data }
      publish s Sink.product_mode (Value.cstr (c_str s.c_product_mode))
    else s
  else if rd data FRAME_COMMAND_WORD_INDEX = 0xA2 then
    if product_len data < PRODUCT_BUF_MAX_SIZE then
      let s := { s with c_product_id := product_copy s.c_product_id data }
      publish s Sink.product_id (Value.cstr (c_str s.c_product_id))
    else s
  else if rd data FRAME_COMMAND_WORD_INDEX = 0xA3 then
    if product_len data < PRODUCT_BUF_MAX_SIZE then
      let s := { s with c_hardware_model := product_copy s.c_hardware_model data }
      publish s Sink.hardware_model (Value.cstr (c_str s.c_hardware_model))
    else s
  else if rd data FRAME_COMMAND_WORD_INDEX = 0xA4 then
    if product_len data < PRODUCT_BUF_MAX_SIZE then
      let s := { s with c_firmware_version := product_copy s.c_firmware_version data }
      publish s Sink.firmware_version (Value.cstr (c_str s.c_firmware_version))
    else s
  else if rd data FRAME_COMMAND_WORD_INDEX = 0xA5 then
    let s := { s with u_protocol_type := rd data FRAME_DATA_INDEX }
    if s.u_protocol_type = 0x01 then
      publish s Sink.protocol_type (Value.text "Common protocols")
    else if s.u_protocol_type = 0x03 then
      publish s Sink.protocol_type (Value.text "Tuya WIFI protocol")
    else
      publish s Sink.protocol_type (Value.text "Unknown agreement type")
  else s

/-- The 32-bit timer value of the OpenInfo timer replies:
`(uint32_t)(data[6] << 24) + (uint32_t)(data[7] << 16) + (uint32_t)(data[8] << 8) + data[9]`
in `uint32_t` arithmetic. -/
def timer_value (data : List Nat) : Nat :=
  ((rd data FRAME_DATA_INDEX <<< 24) % 2 ^ 32
    + (rd data (FRAME_DATA_INDEX + 1) <<< 16) % 2 ^ 32
    + (rd data (FRAME_DATA_INDEX + 2) <<< 8) % 2 ^ 32
    + rd data (FRAME_DATA_INDEX + 3)) % 2 ^ 32

/-- The output-switch branches (commands 0x00 and 0x80): publish
`data[6]` and set the dialect flag from it. -/
def output_switch_reply (s : State) (data : List Nat) : State :=
  let s := publish s Sink.output_info_switch (Value.num (rd data FRAME_DATA_INDEX))
  if rd data FRAME_DATA_INDEX ≠ 0 then
    { s with s_output_info_switch_flag := OUTPUT_SWTICH_ON }
  else
    { s with s_output_info_switch_flag := OUTPUT_SWTICH_OFF }

/-- The first field of the radar information report: the spatial static
value, published and stored when it differs from its backup. -/
def report_spatial_static_value (s : State) (v : Nat) : State :=
  if s.sg_spatial_static_value_bak ≠ v then
    let s := { s with sg_spatial_static_value_bak := v }
    publish s Sink.custom_spatial_static_value (Value.num s.sg_spatial_static_value_bak)
  else s

/-- The static distance field: `sg_static_distance_bak * 0.5` is published. -/
def report_static_distance (s : State) (v : Nat) : State :=
  if s.sg_static_distance_bak ≠ v then
    let s := { s with sg_static_distance_bak := v }
    publish s Sink.custom_static_distance (Value.half s.sg_static_distance_bak)
  else s

/-- The spatial motion value field. -/
def report_spatial_motion_value (s : State) (v : Nat) : State :=
  if s.sg_spatial_motion_value_bak ≠ v then
    let s := { s with sg_spatial_motion_value_bak := v }
    publish s Sink.custom_spatial_motion_value (Value.num s.sg_spatial_motion_value_bak)
  else s

/-- The motion distance field (also the body of command 0x84):
`sg_motion_distance_bak * 0.5` is published. -/
def report_motion_distance (s : State) (v : Nat) : State :=
  if s.sg_motion_distance_bak ≠ v then
    let s := { s with sg_motion_distance_bak := v }
    publish s Sink.custom_motion_distance (Value.half s.sg_motion_distance_bak)
  else s

/-- The motion speed field (also the body of command 0x85):
`(sg_motion_speed_bak - 10) * 0.5` is published; the subtraction is done in
`int` after the integer promotion of the `uint8_t`. -/
def report_motion_speed (s : State) (v : Nat) : State :=
  if s.sg_motion_speed_bak ≠ v then
    let s := { s with sg_motion_speed_bak := v }
    publish s Sink.custom_motion_speed (Value.half ((s.sg_motion_speed_bak : Int) - 10))
  else s

/-- The radar information report (command 0x01): five consecutive `if`
statements on `data[6]` .. `data[10]`. -/
def radar_report (s : State) (data : List Nat) : State :=
  let s := report_spatial_static_value s (rd data FRAME_DATA_INDEX)
  let s := report_static_distance s (rd data (FRAME_DATA_INDEX + 1))
  let s := report_spatial_motion_value s (rd data (FRAME_DATA_INDEX + 2))
  let s := report_motion_distance s (rd data (FRAME_DATA_INDEX + 3))
  report_motion_speed s (rd data (FRAME_DATA_INDEX + 4))

/-- The perception-boundary branches (commands 0x0a and 0x8a). -/
def perception_boundary_reply (s : State) (data : List Nat) : State :=
  if has_index s.perception_boundary_size ((rd data FRAME_DATA_INDEX : Int) - 1) then
    publish s Sink.custom_presence_of_perception_boundary
      (table_entry s_presence_of_perception_boundary_str
        ((rd data FRAME_DATA_INDEX : Int) - 1).toNat)
  else s

/-- The motion-trigger-boundary branches (commands 0x0b and 0x8b). -/
def motion_trigger_boundary_reply (s : State) (data : List Nat) : State :=
  if has_index s.motion_trigger_boundary_size ((rd data FRAME_DATA_INDEX : Int) - 1) then
    publish s Sink.custom_motion_trigger_boundary
      (table_entry s_motion_trig_boundary_str ((rd data FRAME_DATA_INDEX : Int) - 1).toNat)
  else s

/-- The motion-trigger-time branches (commands 0x0c and 0x8c). -/
def motion_trigger_time_reply (s : State) (data : List Nat) : State :=
  let motion_trigger_time := timer_value data
  if s.sg_motion_trigger_time_bak ≠ motion_trigger_time then
    { publish s Sink.custom_motion_trigger_time (Value.num motion_trigger_time) with
      sg_motion_trigger_time_bak := motion_trigger_time }
  else s

/-- The movement-to-rest-time branches (commands 0x0d and 0x8d). -/
def move_to_rest_time_reply (s : State) (data : List Nat) : State :=
  let move_to_rest_time := timer_value data
  if s.sg_move_to_rest_time_bak ≠ move_to_rest_time then
    { publish s Sink.custom_movement_to_rest_time (Value.num move_to_rest_time) with
      sg_move_to_rest_time_bak := move_to_rest_time }
  else s

/-- The enter-unmanned-time branches (commands 0x0e and 0x8e). -/
def enter_unmanned_time_reply (s : State) (data : List Nat) : State :=
  let enter_unmanned_time := timer_value data
  if s.sg_enter_unmanned_time_bak ≠ enter_unmanned_time then
    { publish s Sink.custom_time_of_enter_unmanned (Value.num enter_unmanned_time) with
      sg_enter_unmanned_time_bak := enter_unmanned_time }
  else s

/-- C: `R24_frame_parse_open_underlying_information`. Branches that only
log (0x81, 0x82, 0x86) leave the state unchanged. -/
def R24_frame_parse_open_underlying_information (s : State) (data : List Nat) : State :=
  if rd data FRAME_COMMAND_WORD_INDEX = 0x00 then
    output_switch_reply s data
  else if rd data FRAME_COMMAND_WORD_INDEX = 0x01 then
    radar_report s data
  else if rd data FRAME_COMMAND_WORD_INDEX = 0x06 then
    if rd data FRAME_DATA_INDEX < 3 ∧ rd data FRAME_DATA_INDEX ≥ 0 then
      publish s Sink.keep_away (table_entry s_keep_away_str (rd data FRAME_DATA_INDEX))
    else s
  else if rd data FRAME_COMMAND_WORD_INDEX = 0x07 then
    movementSigns_report s data
  else if rd data FRAME_COMMAND_WORD_INDEX = 0x08 then
    publish s Sink.custom_judgment_threshold_exists (Value.num (rd data FRAME_DATA_INDEX))
  else if rd data FRAME_COMMAND_WORD_INDEX = 0x09 then
    publish s Sink.custom_motion_amplitude_trigger_threshold
      (Value.num (rd data FRAME_DATA_INDEX))
  else if rd data FRAME_COMMAND_WORD_INDEX = 0x0a then
    perception_boundary_reply s data
  else if rd data FRAME_COMMAND_WORD_INDEX = 0x0b then
    motion_trigger_boundary_reply s data
  else if rd data FRAME_COMMAND_WORD_INDEX = 0x0c then
    motion_trigger_time_reply s data
  else if rd data FRAME_COMMAND_WORD_INDEX = 0x0d then
    move_to_rest_time_reply s data
  else if rd data FRAME_COMMAND_WORD_INDEX = 0x0e then
    enter_unmanned_time_reply s data
  else if rd data FRAME_COMMAND_WORD_INDEX = 0x80 then
    output_switch_reply s data
  else if rd data FRAME_COMMAND_WORD_INDEX = 0x81 then
    s
  else if rd data FRAME_COMMAND_WORD_INDEX = 0x82 then
    s
  else if rd data FRAME_COMMAND_WORD_INDEX = 0x83 then
    publish s Sink.custom_presence_of_detection
      (table_entry s_presence_of_detection_range_str (rd data FRAME_DATA_INDEX))
  else if rd data FRAME_COMMAND_WORD_INDEX = 0x84 then
    report_motion_distance s (rd data FRAME_DATA_INDEX)
  else if rd data FRAME_COMMAND_WORD_INDEX = 0x85 then
    report_motion_speed s (rd data FRAME_DATA_INDEX)
  else if rd data FRAME_COMMAND_WORD_INDEX = 0x86 then
    s
  else if rd data FRAME_COMMAND_WORD_INDEX = 0x87 then
    movementSigns_report s data
  else if rd data FRAME_COMMAND_WORD_INDEX = 0x88 then
    publish s Sink.custom_judgment_threshold_exists (Value.num (rd data FRAME_DATA_INDEX))
  else if rd data FRAME_COMMAND_WORD_INDEX = 0x89 then
    publish s Sink.custom_motion_amplitude_trigger_threshold
      (Value.num (rd data FRAME_DATA_INDEX))
  else if rd data FRAME_COMMAND_WORD_INDEX = 0x8a then
    perception_boundary_reply s data
  else if rd data FRAME_COMMAND_WORD_INDEX = 0x8b then
    motion_trigger_boundary_reply s data
  else if rd data FRAME_COMMAND_WORD_INDEX = 0x8c then
    motion_trigger_time_reply s data
  else if rd data FRAME_COMMAND_WORD_INDEX = 0x8d then
    move_to_rest_time_reply s data
  else if rd data FRAME_COMMAND_WORD_INDEX = 0x8e then
    enter_unmanned_time_reply s data
  else s

/-- The switch of `R24_parse_data_frame` on the control word. -/
def parse_control_word (s : State) (data : List Nat) : State :=
  if rd data FRAME_CONTROL_WORD_INDEX = 0x01 then
    if rd data FRAME_COMMAND_WORD_INDEX = 0x01 then
      { s with sg_heartbeat_flag := 1 }
    else if rd data FRAME_COMMAND_WORD_INDEX = 0x02 then
      s
    else s
  else if rd data FRAME_CONTROL_WORD_INDEX = 0x02 then
    R24_frame_parse_product_Information s data
  else if rd data FRAME_CONTROL_WORD_INDEX = 0x05 then
    R24_frame_parse_work_status s data
  else if rd data FRAME_CONTROL_WORD_INDEX = 0x07 then
    R24_frame_parse_detection_range s data
  else if rd data FRAME_CONTROL_WORD_INDEX = 0x08 then
    R24_frame_parse_open_underlying_information s data
  else if rd data FRAME_CONTROL_WORD_INDEX = 0x80 then
    R24_frame_parse_human_information s data
  else s

/-- C: `R24_parse_data_frame`. The call is recorded in `dispatched` with the
bytes `data[0 .. len-1]`; the rest is the switch on the control word. -/
def R24_parse_data_frame (s : State) (data : List Nat) (len : Nat) : State :=
  parse_control_word { s with dispatched := s.dispatched ++ [data.take len] } data

/-! ## Frame decoder -/

/-- The indexed store `sg_frame_buf[i] = v`, where `i` is a constant below 6
or the `uint8_t` `sg_frame_len`. The index is recorded in `frame_buf_writes`.
The array has 128 entries. A store at an index of 128 to 255 is outside it
(undefined in C; reachable after a frame that announces a zero-length
payload): the byte written is the one `i` bytes after the start of
`sg_frame_buf`, and with the statics laid out in declaration order, as the
model takes them, that byte is the entry `i - 128` of `sg_frame_prase_buf`,
the 128-entry array declared next. -/
def frame_buf_store (s : State) (i v : Nat) : State :=
  { s with sg_frame_buf :=
             if i < FRAME_BUF_MAX_SIZE then s.sg_frame_buf.set i v else s.sg_frame_buf
           sg_frame_prase_buf :=
             if i < FRAME_BUF_MAX_SIZE then s.sg_frame_prase_buf
             else s.sg_frame_prase_buf.set (i - FRAME_BUF_MAX_SIZE) v
           frame_buf_writes := s.frame_buf_writes ++ [i] }

/-- The store `sg_frame_buf[sg_frame_len++] = v` with the `uint8_t`
increment. -/
def frame_buf_push (s : State) (v : Nat) : State :=
  { frame_buf_store s s.sg_frame_len v with sg_frame_len := (s.sg_frame_len + 1) % 256 }

/-- The four statements that end the `FRAME_TAIL2` case: both buffers are
cleared, both lengths are zeroed, the decoder returns to `FRAME_IDLE`. -/
def frame_reset (s : State) : State :=
  { s with sg_frame_prase_buf := memset0 s.sg_frame_prase_buf FRAME_BUF_MAX_SIZE
           sg_frame_buf := memset0 s.sg_frame_buf FRAME_BUF_MAX_SIZE
           sg_frame_len := 0
           sg_data_len := 0
           sg_recv_data_state := FRAME_IDLE }

/-- C: `R24_split_data_frame`, one decoder step on the received byte
`value` (a `uint8_t`). `sg_data_len` and `sg_frame_len` are `uint8_t`, so
`sg_data_len = value * 256`, `sg_data_len += value`, `sg_data_len -= 1` and
`sg_frame_len++` are taken modulo 256 (`- 1` is `+ 255`), and
`sg_data_len <= 0` compares the unsigned value. -/
def R24_split_data_frame (s : State) (value : Nat) : State :=
  if s.sg_recv_data_state = FRAME_IDLE then
    if FRAME_HEADER1_VALUE = value then
      { s with sg_recv_data_state := FRAME_HEADER2 }
    else s
  else if s.sg_recv_data_state = FRAME_HEADER2 then
    if FRAME_HEADER2_VALUE = value then
      let s := frame_buf_store s 0 FRAME_HEADER1_VALUE
      let s := frame_buf_store s 1 FRAME_HEADER2_VALUE
      { s with sg_recv_data_state := FRAME_CTL_WORLD }
    else
      { s with sg_recv_data_state := FRAME_IDLE }
  else if s.sg_recv_data_state = FRAME_CTL_WORLD then
    let s := frame_buf_store s 2 value
    { s with sg_recv_data_state := FRAME_CMD_WORLD }
  else if s.sg_recv_data_state = FRAME_CMD_WORLD then
    let s := frame_buf_store s 3 value
    { s with sg_recv_data_state := FRAME_DATA_LEN_H }
  else if s.sg_recv_data_state = FRAME_DATA_LEN_H then
    if value ≤ 4 then
      let s := { s with sg_data_len := (value * 256) % 256 }
      let s := frame_buf_store s 4 value
      { s with sg_recv_data_state := FRAME_DATA_LEN_L }
    else
      { s with sg_data_len := 0, sg_recv_data_state := FRAME_IDLE }
  else if s.sg_recv_data_state = FRAME_DATA_LEN_L then
    let s := { s with sg_data_len := (s.sg_data_len + value) % 256 }
    if s.sg_data_len > 32 then
      { s with sg_data_len := 0, sg_recv_data_state := FRAME_IDLE }
    else
      let s := frame_buf_store s 5 value
      { s with sg_frame_len := 6, sg_recv_data_state := FRAME_DATA_BYTES }
  else if s.sg_recv_data_state = FRAME_DATA_BYTES then
    let s := { s with sg_data_len := (s.sg_data_len + 255) % 256 }
    let s := frame_buf_push s value
    if s.sg_data_len ≤ 0 then
      { s with sg_recv_data_state := FRAME_DATA_CRC }
    else s
  else if s.sg_recv_data_state = FRAME_DATA_CRC then
    let s := frame_buf_push s value
    { s with sg_recv_data_state := FRAME_TAIL1 }
  else if s.sg_recv_data_state = FRAME_TAIL1 then
    if FRAME_TAIL1_VALUE = value then
      { s with sg_recv_data_state := FRAME_TAIL2 }
    else
      { s with sg_recv_data_state := FRAME_IDLE, sg_frame_len := 0, sg_data_len := 0 }
  else if s.sg_recv_data_state = FRAME_TAIL2 then
    let s :=
      if FRAME_TAIL2_VALUE = value then
        let s := frame_buf_push s FRAME_TAIL1_VALUE
        let s := frame_buf_push s FRAME_TAIL2_VALUE
        let s := { s with sg_frame_prase_buf :=
                            memcpy s.sg_frame_prase_buf s.sg_frame_buf s.sg_frame_len }
        if get_frame_check_status s.sg_frame_prase_buf s.sg_frame_len ≠ 0 then
          R24_parse_data_frame s s.sg_frame_prase_buf s.sg_frame_len
        else s
      else s
    frame_reset s
  else
    { s with sg_recv_data_state := FRAME_IDLE }

/-- The decoder run over a received byte sequence, one
`R24_split_data_frame` call per byte. -/
def feed (s : State) (bytes : List Nat) : State :=
  bytes.foldl R24_split_data_frame s

/-- The on-wire bytes `53 59 CC SS LL ll payload KK 54 43` of the frame with
control word `cc`, command word `ss`, length bytes `lh`, `ll` and checksum
byte `kk`. -/
def frame_bytes (cc ss lh ll : Nat) (payload : List Nat) (kk : Nat) : List Nat :=
  [FRAME_HEADER1_VALUE, FRAME_HEADER2_VALUE, cc, ss, lh, ll] ++ payload
    ++ [kk, FRAME_TAIL1_VALUE, FRAME_TAIL2_VALUE]

/-- The checksum byte of a frame as the wire format defines it: the sum of
all bytes before it, modulo 256. -/
def frame_sum (cc ss lh ll : Nat) (payload : List Nat) : Nat :=
  ([FRAME_HEADER1_VALUE, FRAME_HEADER2_VALUE, cc, ss, lh, ll] ++ payload).sum % 256

/-! ## Query encoder -/

/-- C: `send_query`; the bytes `query[0 .. string_length-1]` are written to
the UART, recorded as one entry of `sent`. -/
def send_query (s : State) (query : List Nat) (string_length : Nat) : State :=
  { s with sent := s.sent ++ [query.take string_length] }

/-- The two statements every query builder ends with: the checksum of
`get_frame_crc_sum` is stored at `send_data[FRAME_DATA_INDEX+1]` and the
frame is sent. -/
def send_with_crc (s : State) (send_data : List Nat) (send_data_len : Nat) : State :=
  let send_data :=
    send_data.set (FRAME_DATA_INDEX + 1) (get_frame_crc_sum send_data send_data_len)
  send_query s send_data send_data_len

/-- C: `get_heartbeat_packet`. -/
def get_heartbeat_packet (s : State) : State :=
  send_with_crc s [0x53, 0x59, 0x01, 0x01, 0x00, 0x01, 0x0F, 0x00, 0x54, 0x43] 10

/-- C: `get_init_finial`. -/
def get_init_finial (s : State) : State :=
  send_with_crc s [0x53, 0x59, 0x05, 0x81, 0x00, 0x01, 0x0F, 0x00, 0x54, 0x43] 10

/-- C: `get_product_mode`. -/
def get_product_mode (s : State) : State :=
  send_with_crc s [0x53, 0x59, 0x02, 0xA1, 0x00, 0x01, 0x0F, 0x00, 0x54, 0x43] 10

/-- C: `get_product_id`. -/
def get_product_id (s : State) : State :=
  send_with_crc s [0x53, 0x59, 0x02, 0xA2, 0x00, 0x01, 0x0F, 0x00, 0x54, 0x43] 10

/-- C: `get_hardware_model`. -/
def get_hardware_model (s : State) : State :=
  send_with_crc s [0x53, 0x59, 0x02, 0xA3, 0x00, 0x01, 0x0F, 0x00, 0x54, 0x43] 10

/-- C: `get_firmware_version`. -/
def get_firmware_version (s : State) : State :=
  send_with_crc s [0x53, 0x59, 0x02, 0xA4, 0x00, 0x01, 0x0F, 0x00, 0x54, 0x43] 10

/-- C: `get_protocol_type`. -/
def get_protocol_type (s : State) : State :=
  send_with_crc s [0x53, 0x59, 0x02, 0xA5, 0x00, 0x01, 0x0F, 0x00, 0x54, 0x43] 10

/-- C: `get_human_status`. -/
def get_human_status (s : State) : State :=
  send_with_crc s [0x53, 0x59, 0x80, 0x81, 0x00, 0x01, 0x0F, 0x00, 0x54, 0x43] 10

/-- C: `get_scene_mode`. -/
def get_scene_mode (s : State) : State :=
  send_with_crc s [0x53, 0x59, 0x05, 0x87, 0x00, 0x01, 0x0F, 0x00, 0x54, 0x43] 10

/-- C: `get_sensitivity`. -/
def get_sensitivity (s : State) : State :=
  send_with_crc s [0x53, 0x59, 0x05, 0x88, 0x00, 0x01, 0x0F, 0x00, 0x54, 0x43] 10

/-- C: `get_radar_init_status`. -/
def get_radar_init_status (s : State) : State :=
  send_with_crc s [0x53, 0x59, 0x05, 0x81, 0x00, 0x01, 0x0F, 0x00, 0x54, 0x43] 10

/-- C: `get_movingTargetDetectionMaxDistance`. -/
def get_movingTargetDetectionMaxDistance (s : State) : State :=
  send_with_crc s [0x53, 0x59, 0x07, 0x81, 0x00, 0x01, 0x0F, 0x00, 0x54, 0x43] 10

/-- C: `get_staticTargetDetectionMaxDistance`. -/
def get_staticTargetDetectionMaxDistance (s : State) : State :=
  send_with_crc s [0x53, 0x59, 0x07, 0x84, 0x00, 0x01, 0x0F, 0x00, 0x54, 0x43] 10

/-- C: `get_unmanned_time`. -/
def get_unmanned_time (s : State) : State :=
  send_with_crc s [0x53, 0x59, 0x80, 0x8A, 0x00, 0x01, 0x0F, 0x00, 0x54, 0x43] 10

/-- C: `get_radar_output_information_switch`. -/
def get_radar_output_information_switch (s : State) : State :=
  send_with_crc s [0x53, 0x59, 0x08, 0x80, 0x00, 0x01, 0x0F, 0x00, 0x54, 0x43] 10

/-- C: `get_spatial_static_value`. -/
def get_spatial_static_value (s : State) : State :=
  send_with_crc s [0x53, 0x59, 0x08, 0x81, 0x00, 0x01, 0x0F, 0x00, 0x54, 0x43] 10

/-- C: `get_spatial_motion_amplitude`. -/
def get_spatial_motion_amplitude (s : State) : State :=
  send_with_crc s [0x53, 0x59, 0x08, 0x82, 0x00, 0x01, 0x0F, 0x00, 0x54, 0x43] 10

/-- C: `get_presence_of_detection_range`. -/
def get_presence_of_detection_range (s : State) : State :=
  send_with_crc s [0x53, 0x59, 0x08, 0x83, 0x00, 0x01, 0x0F, 0x00, 0x54, 0x43] 10

/-- C: `get_distance_of_moving_object`. -/
def get_distance_of_moving_object (s : State) : State :=
  send_with_crc s [0x53, 0x59, 0x08, 0x84, 0x00, 0x01, 0x0F, 0x00, 0x54, 0x43] 10

/-- C: `get_target_movement_speed`. -/
def get_target_movement_speed (s : State) : State :=
  send_with_crc s [0x53, 0x59, 0x08, 0x85, 0x00, 0x01, 0x0F, 0x00, 0x54, 0x43] 10

/-- C: `get_judgment_threshold_exists`. -/
def get_judgment_threshold_exists (s : State) : State :=
  send_with_crc s [0x53, 0x59, 0x08, 0x88, 0x00, 0x01, 0x0F, 0x00, 0x54, 0x43] 10

/-- C: `get_motion_amplitude_trigger_threshold`. -/
def get_motion_amplitude_trigger_threshold (s : State) : State :=
  send_with_crc s [0x53, 0x59, 0x08, 0x89, 0x00, 0x01, 0x0F, 0x00, 0x54, 0x43] 10

/-- C: `get_presence_of_perception_boundary`. -/
def get_presence_of_perception_boundary (s : State) : State :=
  send_with_crc s [0x53, 0x59, 0x08, 0x8A, 0x00, 0x01, 0x0F, 0x00, 0x54, 0x43] 10

/-- C: `get_motion_trigger_boundary`. -/
def get_motion_trigger_boundary (s : State) : State :=
  send_with_crc s [0x53, 0x59, 0x08, 0x8B, 0x00, 0x01, 0x0F, 0x00, 0x54, 0x43] 10

/-- C: `get_motion_trigger_time`. -/
def get_motion_trigger_time (s : State) : State :=
  send_with_crc s [0x53, 0x59, 0x08, 0x8C, 0x00, 0x01, 0x0F, 0x00, 0x54, 0x43] 10

/-- C: `get_movement_to_rest_time`. -/
def get_movement_to_rest_time (s : State) : State :=
  send_with_crc s [0x53, 0x59, 0x08, 0x8D, 0x00, 0x01, 0x0F, 0x00, 0x54, 0x43] 10

/-- C: `get_time_of_enter_unmanned`. -/
def get_time_of_enter_unmanned (s : State) : State :=
  send_with_crc s [0x53, 0x59, 0x08, 0x8E, 0x00, 0x01, 0x0F, 0x00, 0x54, 0x43] 10

/-! ## Poll scheduler -/

/-- C: `UartReadLineSensor::setup`. -/
def setup (s : State) : State :=
  { s with sg_init_flag := true }

/-- The `switch` of the Standard branch of `loop`. -/
def standard_query (s : State) : State :=
  if s.sg_start_query_data = STANDARD_FUNCTION_QUERY_PRODUCT_MODE then get_product_mode s
  else if s.sg_start_query_data = STANDARD_FUNCTION_QUERY_PRODUCT_ID then get_product_id s
  else if s.sg_start_query_data = STANDARD_FUNCTION_QUERY_FIRMWARE_VERDION then
    get_firmware_version s
  else if s.sg_start_query_data = STANDARD_FUNCTION_QUERY_HARDWARE_MODE then
    get_hardware_model s
  else if s.sg_start_query_data = STANDARD_FUNCTION_QUERY_PROTOCOL_TYPE then
    get_protocol_type s
  else if s.sg_start_query_data = STANDARD_FUNCTION_QUERY_HUMAN_STATUS then get_human_status s
  else if s.sg_start_query_data = STANDARD_FUNCTION_QUERY_SCENE_MODE then get_scene_mode s
  else if s.sg_start_query_data = STANDARD_FUNCTION_QUERY_SENSITIVITY then get_sensitivity s
  else if s.sg_start_query_data = STANDARD_FUNCTION_QUERY_RADAR_INIT_STATUS then
    get_radar_init_status s
  else if s.sg_start_query_data = STANDARD_FUNCTION_QUERY_MOV_TARGET_DETECTION_MAX_DISTANCE then
    get_movingTargetDetectionMaxDistance s
  else if s.sg_start_query_data
      = STANDARD_FUNCTION_QUERY_STATIC_TARGET_DETECTION_MAX_DISTANCE then
    get_staticTargetDetectionMaxDistance s
  else if s.sg_start_query_data = STANDARD_FUNCTION_QUERY_UNMANNED_TIME then
    get_unmanned_time s
  else if s.sg_start_query_data = STANDARD_FUNCTION_QUERY_RADAR_OUITPUT_INFORMATION_SWITCH then
    get_radar_output_information_switch s
  else if s.sg_start_query_data = STANDARD_FUNCTION_MAX then get_heartbeat_packet s
  else s

/-- The `switch` of the Custom branch of `loop`. -/
def custom_query (s : State) : State :=
  if s.sg_start_query_data = CUSTOM_FUNCTION_QUERY_RADAR_OUITPUT_INFORMATION_SWITCH then
    get_radar_output_information_switch s
  else if s.sg_start_query_data = CUSTOM_FUNCTION_QUERY_PRESENCE_OF_DETECTION_RANGE then
    get_presence_of_detection_range s
  else if s.sg_start_query_data = CUSTOM_FUNCTION_QUERY_JUDGMENT_THRESHOLD_EXISTS then
    get_judgment_threshold_exists s
  else if s.sg_start_query_data = CUSTOM_FUNCTION_QUERY_MOTION_AMPLITUDE_TRIGGER_THRESHOLD then
    get_motion_amplitude_trigger_threshold s
  else if s.sg_start_query_data = CUSTOM_FUNCTION_QUERY_PRESENCE_OF_PERCEPTION_BOUNDARY then
    get_presence_of_perception_boundary s
  else if s.sg_start_query_data = CUSTOM_FUNCTION_QUERY_MOTION_TRIGGER_BOUNDARY then
    get_motion_trigger_boundary s
  else if s.sg_start_query_data = CUSTOM_FUNCTION_QUERY_MOTION_TRIGGER_TIME then
    get_motion_trigger_time s
  else if s.sg_start_query_data = CUSTOM_FUNCTION_QUERY_MOVEMENT_TO_REST_TIME then
    get_movement_to_rest_time s
  else if s.sg_start_query_data = CUSTOM_FUNCTION_QUERY_TIME_OF_ENTER_UNMANNED then
    get_time_of_enter_unmanned s
  else if s.sg_start_query_data = CUSTOM_FUNCTION_MAX then get_heartbeat_packet s
  else s

/-- The first `if` of `loop` after the receive loop: while the dialect flag
is zero and the cursor is at the first Custom slot, send the output-switch
probe and advance the cursor. -/
def loop_probe (s : State) : State :=
  if s.s_output_info_switch_flag = 0
      ∧ s.sg_start_query_data = CUSTOM_FUNCTION_QUERY_RADAR_OUITPUT_INFORMATION_SWITCH then
    let s := get_radar_output_information_switch s
    { s with sg_start_query_data := s.sg_start_query_data + 1 }
  else s

/-- The second `if`: the Standard sweep. -/
def loop_standard (s : State) : State :=
  if s.s_output_info_switch_flag = OUTPUT_SWTICH_OFF
      ∧ s.sg_start_query_data ≤ STANDARD_FUNCTION_MAX
      ∧ s.sg_start_query_data ≥ STANDARD_FUNCTION_QUERY_PRODUCT_MODE then
    let s := standard_query s
    { s with sg_start_query_data := s.sg_start_query_data + 1 }
  else s

/-- The third `if`: the Custom sweep. -/
def loop_custom (s : State) : State :=
  if s.s_output_info_switch_flag = OUTPUT_SWTICH_ON
      ∧ s.sg_start_query_data ≤ CUSTOM_FUNCTION_MAX
      ∧ s.sg_start_query_data ≥ CUSTOM_FUNCTION_QUERY_RADAR_OUITPUT_INFORMATION_SWITCH then
    let s := custom_query s
    { s with sg_start_query_data := s.sg_start_query_data + 1 }
  else s

/-- The part of `loop` after the receive loop: the three consecutive `if`
statements, each of which may send one query and advance the cursor. -/
def loop_query (s : State) : State :=
  loop_custom (loop_standard (loop_probe s))

/-- C: `UartReadLineSensor::loop`. `rx` is the sequence of bytes the UART
has available during the call; each is read and handed to
`R24_split_data_frame`, then the query step runs. -/
def loop (s : State) (rx : List Nat) : State :=
  loop_query (feed s rx)

/-- C: `MyCustomTextSensor::update`. -/
def update (s : State) : State :=
  if ¬ s.sg_init_flag then s
  else
    let s :=
      if s.sg_init_flag ∧ 255 ≠ s.sg_heartbeat_flag then
        let s := publish s Sink.Heartbeat (table_entry s_heartbeat_str s.sg_heartbeat_flag)
        { s with sg_heartbeat_flag := 0 }
      else s
    if s.s_output_info_switch_flag = OUTPUT_SWITCH_INIT then
      { s with sg_start_query_data := CUSTOM_FUNCTION_QUERY_RADAR_OUITPUT_INFORMATION_SWITCH }
    else if s.s_output_info_switch_flag = OUTPUT_SWTICH_OFF then
      { s with sg_start_query_data := STANDARD_FUNCTION_QUERY_PRODUCT_MODE }
    else if s.s_output_info_switch_flag = OUTPUT_SWTICH_ON then
      { s with sg_start_query_data := CUSTOM_FUNCTION_QUERY_RADAR_OUITPUT_INFORMATION_SWITCH }
    else s

/-- Consecutive stores of the bytes `bs` at the indices `i`, `i+1`, ... of
a buffer. -/
def store_seq (buf : List Nat) (i : Nat) : List Nat → List Nat
  | [] => buf
  | b :: bs => store_seq (buf.set i b) (i + 1) bs

/-- The state in which `R24_split_data_frame` tests the checksum of a
completely received frame `frame`, starting from the idle state `s`: the
decoder is in `FRAME_TAIL2`, both buffers start with the frame, and
`sg_frame_len` is its length. -/
def at_dispatch (s : State) (frame : List Nat) : State :=
  { s with sg_recv_data_state := FRAME_TAIL2
           sg_data_len := 0
           sg_frame_len := frame.length
           sg_frame_buf := frame ++ s.sg_frame_buf.drop frame.length
           sg_frame_prase_buf := frame ++ s.sg_frame_prase_buf.drop frame.length
           frame_buf_writes := s.frame_buf_writes ++ List.range frame.length }

/-- What no family decoder changes: the decoder variables, the scheduler
variables, the select sizes, and the dispatch, transmit and store logs; and
the dialect flag is either kept or set to one of the two decided values. -/
def DispatchFrame (s t : State) : Prop :=
  t.sg_recv_data_state = s.sg_recv_data_state ∧ t.sg_frame_len = s.sg_frame_len
    ∧ t.sg_data_len = s.sg_data_len ∧ t.sg_frame_buf = s.sg_frame_buf
    ∧ t.sg_frame_prase_buf = s.sg_frame_prase_buf ∧ t.sg_init_flag = s.sg_init_flag
    ∧ t.sg_start_query_data = s.sg_start_query_data
    ∧ t.scene_mode_size = s.scene_mode_size
    ∧ t.perception_boundary_size = s.perception_boundary_size
    ∧ t.motion_trigger_boundary_size = s.motion_trigger_boundary_size
    ∧ t.dispatched = s.dispatched ∧ t.sent = s.sent
    ∧ t.frame_buf_writes = s.frame_buf_writes
    ∧ (t.s_output_info_switch_flag = s.s_output_info_switch_flag
        ∨ t.s_output_info_switch_flag = OUTPUT_SWTICH_ON
        ∨ t.s_output_info_switch_flag = OUTPUT_SWTICH_OFF)

/-- The state with the decoder variables (`sg_recv_data_state`, the two
lengths, the two buffers) and the store log erased: two states with the same
`rest` differ in decoder variables only. -/
def rest (s : State) : State :=
  { s with sg_recv_data_state := 0
           sg_frame_len := 0
           sg_data_len := 0
           sg_frame_buf := []
           sg_frame_prase_buf := []
           frame_buf_writes := [] }

/-- The state with the transmit log and the query cursor erased: two states
with the same `sched_rest` differ at most in what was sent and in the
cursor. -/
def sched_rest (s : State) : State :=
  { s with sent := [], sg_start_query_data := 0 }

/-- The ten bytes `53 59 c k 00 01 0F KK 54 43` of a query with control
word `c` and command word `k`, where `KK = (0xBC + c + k) mod 256`. -/
def query_frame (c k : Nat) : List Nat :=
  [0x53, 0x59, c, k, 0x00, 0x01, 0x0F, (0xBC + c + k) % 256, 0x54, 0x43]

/-- Every query builder of the source, in source order, with the control
word and command word of its `send_data` template. -/
def query_builders : List ((State → State) × Nat × Nat) :=
  [
    (get_heartbeat_packet, 0x01, 0x01),
    (get_init_finial, 0x05, 0x81),
    (get_product_mode, 0x02, 0xA1),
    (get_product_id, 0x02, 0xA2),
    (get_hardware_model, 0x02, 0xA3),
    (get_firmware_version, 0x02, 0xA4),
    (get_protocol_type, 0x02, 0xA5),
    (get_human_status, 0x80, 0x81),
    (get_scene_mode, 0x05, 0x87),
    (get_sensitivity, 0x05, 0x88),
    (get_radar_init_status, 0x05, 0x81),
    (get_movingTargetDetectionMaxDistance, 0x07, 0x81),
    (get_staticTargetDetectionMaxDistance, 0x07, 0x84),
    (get_unmanned_time, 0x80, 0x8A),
    (get_radar_output_information_switch, 0x08, 0x80),
    (get_spatial_static_value, 0x08, 0x81),
    (get_spatial_motion_amplitude, 0x08, 0x82),
    (get_presence_of_detection_range, 0x08, 0x83),
    (get_distance_of_moving_object, 0x08, 0x84),
    (get_target_movement_speed, 0x08, 0x85),
    (get_judgment_threshold_exists, 0x08, 0x88),
    (get_motion_amplitude_trigger_threshold, 0x08, 0x89),
    (get_presence_of_perception_boundary, 0x08, 0x8A),
    (get_motion_trigger_boundary, 0x08, 0x8B),
    (get_motion_trigger_time, 0x08, 0x8C),
    (get_movement_to_rest_time, 0x08, 0x8D),
    (get_time_of_enter_unmanned, 0x08, 0x8E) ]

/-- The outbound query table of the specification (section 6), as
(control, command) pairs. -/
def spec_outbound_query_table : List (Nat × Nat) :=
  [(0x01, 0x01), (0x02, 0xA1), (0x02, 0xA2), (0x02, 0xA3), (0x02, 0xA4), (0x02, 0xA5),
    (0x05, 0x81), (0x05, 0x87), (0x05, 0x88), (0x07, 0x81), (0x07, 0x84), (0x80, 0x81),
    (0x80, 0x8A), (0x08, 0x80), (0x08, 0x83), (0x08, 0x88), (0x08, 0x89), (0x08, 0x8A),
    (0x08, 0x8B), (0x08, 0x8C), (0x08, 0x8D), (0x08, 0x8E)]

/-- The Standard sweep of the specification (section 4.5, item 3), as
(control, command) pairs in the stated order: product-mode, product-id,
firmware-version, hardware-model, protocol-type, human-status, scene-mode,
sensitivity, init-status, moving-max-distance, static-max-distance,
unmanned-time, output-switch, heartbeat. -/
def spec_standard_sweep : List (Nat × Nat) :=
  [(0x02, 0xA1), (0x02, 0xA2), (0x02, 0xA4), (0x02, 0xA3), (0x02, 0xA5), (0x80, 0x81),
    (0x05, 0x87), (0x05, 0x88), (0x05, 0x81), (0x07, 0x81), (0x07, 0x84), (0x80, 0x8A),
    (0x08, 0x80), (0x01, 0x01)]

/-- The Custom sweep of the specification (section 4.5, item 4), as
(control, command) pairs in the stated order: output-switch,
presence-distance, judgment-threshold, amplitude-threshold,
perception-boundary, trigger-boundary, trigger-time, rest-time,
unmanned-time, heartbeat. -/
def spec_custom_sweep : List (Nat × Nat) :=
  [(0x08, 0x80), (0x08, 0x83), (0x08, 0x88), (0x08, 0x89), (0x08, 0x8A), (0x08, 0x8B),
    (0x08, 0x8C), (0x08, 0x8D), (0x08, 0x8E), (0x01, 0x01)]

/-- The state after `n` consecutive `loop` calls that find no byte
available. -/
def idle_loops : Nat → State → State
  | 0, s => s
  | n + 1, s => loop (idle_loops n s) []

/-- The string a product-information reply carries: the payload bytes
`data[6 ..]` up to the length byte `data[5]`, cut at the first NUL. -/
def product_reply_string (data : List Nat) : List Nat :=
  c_str ((data.drop FRAME_DATA_INDEX).take (rd data (FRAME_COMMAND_WORD_INDEX + 2)))

/-- The command words that the decoder of the family with control word
`control` tests (every `case` label of its `switch`, including the labels
whose branch only logs); no command word for a control word outside the six
families. -/
def handled_commands (control : Nat) : List Nat :=
  if control = 0x01 then [0x01, 0x02]
  else if control = 0x02 then [0xA1, 0xA2, 0xA3, 0xA4, 0xA5]
  else if control = 0x05 then [0x01, 0x07, 0x08, 0x81, 0x87, 0x88]
  else if control = 0x07 then [0x01, 0x04, 0x81, 0x84]
  else if control = 0x08 then
    [0x00, 0x01, 0x06, 0x07, 0x08, 0x09, 0x0a, 0x0b, 0x0c, 0x0d, 0x0e, 0x80, 0x81, 0x82, 0x83,
      0x84, 0x85, 0x86, 0x87, 0x88, 0x89, 0x8a, 0x8b, 0x8c, 0x8d, 0x8e]
  else if control = 0x80 then [0x01, 0x02, 0x03, 0x0A, 0x0B, 0x81, 0x82, 0x83, 0x8A, 0x8B]
  else []

/-- The number a sink receives from a numeric `publish_state` argument:
`num n` is `n`, `half n` is `n * 0.5` (exact: a multiple of one half); the
other arguments are not numbers. -/
def Value.number : Value → Option Rat
  | Value.num n => some (n : Rat)
  | Value.half n => some ((n : Rat) / 2)
  | _ => none

/-- The number of `publish_state` calls made so far on the sink `k`. -/
def notifications (k : Sink) (s : State) : Nat :=
  (s.published.filter (fun e => decide (e.1 = k))).length

/-- The metrics published through a `sg_*_bak` backup variable. -/
inductive Metric where
  | movementSigns
  | spatial_static_value
  | static_distance
  | spatial_motion_value
  | motion_distance
  | motion_speed
  | motion_trigger_time
  | move_to_rest_time
  | enter_unmanned_time
  deriving DecidableEq, Repr

/-- The sink a backed-up metric is published to. -/
def Metric.sink : Metric → Sink
  | Metric.movementSigns => Sink.movementSigns
  | Metric.spatial_static_value => Sink.custom_spatial_static_value
  | Metric.static_distance => Sink.custom_static_distance
  | Metric.spatial_motion_value => Sink.custom_spatial_motion_value
  | Metric.motion_distance => Sink.custom_motion_distance
  | Metric.motion_speed => Sink.custom_motion_speed
  | Metric.motion_trigger_time => Sink.custom_motion_trigger_time
  | Metric.move_to_rest_time => Sink.custom_movement_to_rest_time
  | Metric.enter_unmanned_time => Sink.custom_time_of_enter_unmanned

/-- The backup variable of a metric. -/
def Metric.cache : Metric → State → Nat
  | Metric.movementSigns => State.sg_movementSigns_bak
  | Metric.spatial_static_value => State.sg_spatial_static_value_bak
  | Metric.static_distance => State.sg_static_distance_bak
  | Metric.spatial_motion_value => State.sg_spatial_motion_value_bak
  | Metric.motion_distance => State.sg_motion_distance_bak
  | Metric.motion_speed => State.sg_motion_speed_bak
  | Metric.motion_trigger_time => State.sg_motion_trigger_time_bak
  | Metric.move_to_rest_time => State.sg_move_to_rest_time_bak
  | Metric.enter_unmanned_time => State.sg_enter_unmanned_time_bak

/-- The value of a timer field as the specification describes it (section
4.3, "32-bit big-endian timer fields"): the four payload bytes at frame
offsets 6 to 9 read as one big-endian number. It is written without the
decoder's shifts and `uint32_t` casts, to be compared with `timer_value`. -/
def spec_timer_value (data : List Nat) : Nat :=
  rd data 6 * 16777216 + rd data 7 * 65536 + rd data 8 * 256 + rd data 9

/-- The change-cache-gated metrics a frame carries, each with the raw value
the frame carries for it, as the specification lists them (section 4.3):
body-movement amplitude in Human 0x03/0x83 and OpenInfo 0x07/0x87, the five
fields of the OpenInfo 0x01 report, motion distance in OpenInfo 0x84, motion
speed in OpenInfo 0x85, and the three timers in OpenInfo 0x0c..0x0e and
0x8c..0x8e (each the big-endian number `spec_timer_value`). -/
def spec_gated_fields (data : List Nat) : List (Metric × Nat) :=
  let control := rd data FRAME_CONTROL_WORD_INDEX
  let command := rd data FRAME_COMMAND_WORD_INDEX
  if control = 0x80 ∧ (command = 0x03 ∨ command = 0x83) then
    [(Metric.movementSigns, rd data FRAME_DATA_INDEX)]
  else if control = 0x08 ∧ (command = 0x07 ∨ command = 0x87) then
    [(Metric.movementSigns, rd data FRAME_DATA_INDEX)]
  else if control = 0x08 ∧ command = 0x01 then
    [(Metric.spatial_static_value, rd data FRAME_DATA_INDEX),
      (Metric.static_distance, rd data (FRAME_DATA_INDEX + 1)),
      (Metric.spatial_motion_value, rd data (FRAME_DATA_INDEX + 2)),
      (Metric.motion_distance, rd data (FRAME_DATA_INDEX + 3)),
      (Metric.motion_speed, rd data (FRAME_DATA_INDEX + 4))]
  else if control = 0x08 ∧ command = 0x84 then
    [(Metric.motion_distance, rd data FRAME_DATA_INDEX)]
  else if control = 0x08 ∧ command = 0x85 then
    [(Metric.motion_speed, rd data FRAME_DATA_INDEX)]
  else if control = 0x08 ∧ (command = 0x0c ∨ command = 0x8c) then
    [(Metric.motion_trigger_time, spec_timer_value data)]
  else if control = 0x08 ∧ (command = 0x0d ∨ command = 0x8d) then
    [(Metric.move_to_rest_time, spec_timer_value data)]
  else if control = 0x08 ∧ (command = 0x0e ∨ command = 0x8e) then
    [(Metric.enter_unmanned_time, spec_timer_value data)]
  else []

/-- What a family decoder leaves alone on every branch but the
output-switch one: the dialect flag, the heartbeat flag, and the heartbeat
sink. -/
def FamilyFrame (s t : State) : Prop :=
  t.s_output_info_switch_flag = s.s_output_info_switch_flag
    ∧ t.sg_heartbeat_flag = s.sg_heartbeat_flag
    ∧ notifications Sink.Heartbeat t = notifications Sink.Heartbeat s

/-- The on-wire bytes of the valid frame with control word `f.1`, command
word `f.2.1` and payload `f.2.2` (at most 255 bytes, so the length high byte
is 0): header, the two words, the length, the payload, the checksum of all
bytes before it, and the tail. -/
def valid_frame (f : Nat × Nat × List Nat) : List Nat :=
  frame_bytes f.1 f.2.1 0 f.2.2.length f.2.2 (frame_sum f.1 f.2.1 0 f.2.2.length f.2.2)

/-- The C library call `isspace` on a `char` in the "C" locale, which
`operator>>` uses to delimit words: space (32) and the control characters
`\t`, `\n`, `\v`, `\f`, `\r` (9 .. 13). Characters are modelled by their
codes. -/
def isspace (c : Nat) : Bool :=
  c == 32 || (decide (9 ≤ c) && decide (c ≤ 13))

/-- C++: `std::replace(s.begin(), s.end(), ',', ' ')`. -/
def replace_commas (s : List Nat) : List Nat :=
  s.map (fun c => if c = 44 then 32 else c)

/-- C++: `iss >> word` on a `std::istringstream` whose unread characters
are `iss`, with a freshly constructed `word`. Leading whitespace is skipped;
when no character is left the extraction fails (`word` stays empty and the
stream is in the fail state); otherwise the maximal run of non-whitespace
characters is extracted. The result is the word, the unread characters, and
whether the stream is still good for `while (iss)`. -/
def extract_word (iss : List Nat) : List Nat × List Nat × Bool :=
  if iss.dropWhile isspace = [] then ([], [], false)
  else
    ((iss.dropWhile isspace).takeWhile (fun c => !isspace c),
      (iss.dropWhile isspace).dropWhile (fun c => !isspace c), true)

/-- The comparison `line.length() + word.length() > lineLength` of a
`size_t` with an `int`: the `int` is converted to `size_t` (32 bits on the
ESP targets), so a negative `lineLength` compares as a large value. -/
def exceeds (line word : List Nat) (lineLength : Int) : Bool :=
  decide ((line.length + word.length) % 2 ^ 32 > (lineLength % 2 ^ 32).toNat)

/-- The `do { ... } while (iss)` loop of `splitStringIntoVector`; `fuel`
bounds the number of iterations, and `none` is returned when it runs out. The
result is the final `result` and `line`. -/
def split_loop (lineLength : Int) :
    Nat → List Nat → List Nat → List (List Nat) → Option (List (List Nat) × List Nat)
  | 0, _, _, _ => none
  | fuel + 1, iss, line, result =>
    let word := (extract_word iss).1
    let result1 := if exceeds line word lineLength then result ++ [line] else result
    let line1 := if exceeds line word lineLength then [] else line
    let line2 := line1 ++ (word ++ [44])
    if (extract_word iss).2.2 then split_loop lineLength fuel (extract_word iss).2.1 line2 result1
    else some (result1, line2)

/-- C++: `splitStringIntoVector` of common2.h. Every iteration that does not
end the loop consumes at least one character, so `sentence.length + 1`
iterations are enough. -/
def splitStringIntoVector (sentence : List Nat) (lineLength : Int) :
    Option (List (List Nat)) :=
  match split_loop lineLength (sentence.length + 1) (replace_commas sentence) [] [] with
  | none => none
  | some (result, line) => some (if line ≠ [] then result ++ [line] else result)

/-- Whitespace as the specification means it, listed character by
character: tab, line feed, vertical tab, form feed, carriage return and
space. It is written without `isspace`, to be compared with it. -/
def spec_whitespace (c : Nat) : Bool :=
  decide (c ∈ [9, 10, 11, 12, 13, 32])

/-- The words of a sentence as the specification describes them: the
maximal runs of non-whitespace characters after every `,` (44) has been
replaced by a space (32). It is written without `replace_commas` and
`extract_word`, to be compared with what the splitter does. -/
def spec_words (sentence : List Nat) : List (List Nat) :=
  ((sentence.map (fun c => if c = 44 then 32 else c)).splitOnP spec_whitespace).filter
    (fun w => decide (w ≠ []))

/-- The concatenation the specification describes: every word followed by
`,`, then one more `,`. -/
def spec_joined (sentence : List Nat) : List Nat :=
  ((spec_words sentence).map (fun w => w ++ [44])).flatten ++ [44]

/-! ## Checksum lemmas -/

theorem and_0xff (x : Nat) : x &&& 0xff = x % 256 := by
  have := Nat.and_pow_two_sub_one_eq_mod x 8
  simpa using this

theorem rd_eq_getElem (data : List Nat) (i : Nat) (h : i < data.length) :
    rd data i = data[i] := by
  simp [rd, List.getD, List.getElem?_eq_getElem h]

theorem crc_fold (data : List Nat) (n : Nat) (h : n ≤ data.length) :
    (List.range n).foldl (fun crc_sum i => (crc_sum + rd data i) % 2 ^ 32) 0
      = (data.take n).sum % 2 ^ 32 := by
  induction n with
  | zero => simp
  | succ k ih =>
    have hk : k < data.length := h
    rw [List.range_succ, List.foldl_append, ih (Nat.le_of_lt hk)]
    rw [List.sum_take_succ data k hk]
    simp [rd_eq_getElem data k hk, Nat.add_mod]

theorem crc_sum_eq (data : List Nat) (len : Nat) (h : len - 3 ≤ data.length) :
    get_frame_crc_sum data len = (data.take (len - 3)).sum % 256 := by
  unfold get_frame_crc_sum
  rw [crc_fold data _ h, and_0xff]
  exact Nat.mod_mod_of_dvd _ (by norm_num)

/-! ## Decoder lemmas -/

/-- A store inside the array changes `sg_frame_buf` and the store log
only. -/
theorem frame_buf_store_in (s : State) (i v : Nat) (h : i < 128) :
    frame_buf_store s i v
      = { s with sg_frame_buf := s.sg_frame_buf.set i v
                 frame_buf_writes := s.frame_buf_writes ++ [i] } := by
  have h1 : i < FRAME_BUF_MAX_SIZE := h
  unfold frame_buf_store
  rw [if_pos h1, if_pos h1]

/-- A conditional store keeps the length of the array. -/
theorem store_length (c : Prop) [Decidable c] (l : List Nat) (i v : Nat) :
    (if c then l.set i v else l).length = l.length := by
  split <;> simp

theorem store_length_else (c : Prop) [Decidable c] (l : List Nat) (i v : Nat) :
    (if c then l else l.set i v).length = l.length := by
  split <;> simp

theorem feed_nil (s : State) : feed s [] = s := rfl

theorem feed_cons (s : State) (b : Nat) (bs : List Nat) :
    feed s (b :: bs) = feed (R24_split_data_frame s b) bs := rfl

theorem feed_append (s : State) (xs ys : List Nat) :
    feed s (xs ++ ys) = feed (feed s xs) ys := by
  simp [feed, List.foldl_append]

theorem set_take_append (l : List Nat) (i v : Nat) (bs : List Nat)
    (h : i + bs.length < l.length) :
    (l.take i ++ bs ++ l.drop (i + bs.length)).set (i + bs.length) v
      = l.take i ++ (bs ++ [v]) ++ l.drop (i + (bs ++ [v]).length) := by
  have hi : i ≤ l.length := by omega
  have hlen : (l.take i ++ bs).length = i + bs.length := by simp [hi]
  rw [← hlen, List.set_append_right _ _ (le_refl _)]
  simp only [Nat.sub_self]
  rw [hlen, List.drop_eq_getElem_cons h]
  simp [Nat.add_assoc]

/-- One payload byte that is not the last one. -/
theorem split_data_byte (s : State) (b : Nat)
    (hst : s.sg_recv_data_state = FRAME_DATA_BYTES) (hk : 2 ≤ s.sg_data_len)
    (hk2 : s.sg_data_len < 256) (hfl : s.sg_frame_len < 128) :
    R24_split_data_frame s b =
      { s with sg_data_len := s.sg_data_len - 1
               sg_frame_len := s.sg_frame_len + 1
               sg_frame_buf := s.sg_frame_buf.set s.sg_frame_len b
               frame_buf_writes := s.frame_buf_writes ++ [s.sg_frame_len] } := by
  have h1 : (s.sg_data_len + 255) % 256 = s.sg_data_len - 1 := by omega
  have h2 : (s.sg_frame_len + 1) % 256 = s.sg_frame_len + 1 := by omega
  have h3 : ¬ (s.sg_data_len - 1 = 0) := by omega
  simp [R24_split_data_frame, frame_buf_push, frame_buf_store, hst, FRAME_IDLE, FRAME_HEADER2,
    FRAME_CTL_WORLD, FRAME_CMD_WORLD, FRAME_DATA_LEN_H, FRAME_DATA_LEN_L, FRAME_DATA_BYTES,
    FRAME_BUF_MAX_SIZE, hfl, h1, h2, h3]

/-- The last payload byte. -/
theorem split_data_byte_last (s : State) (b : Nat)
    (hst : s.sg_recv_data_state = FRAME_DATA_BYTES) (hk : s.sg_data_len = 1)
    (hfl : s.sg_frame_len < 128) :
    R24_split_data_frame s b =
      { s with sg_recv_data_state := FRAME_DATA_CRC
               sg_data_len := 0
               sg_frame_len := s.sg_frame_len + 1
               sg_frame_buf := s.sg_frame_buf.set s.sg_frame_len b
               frame_buf_writes := s.frame_buf_writes ++ [s.sg_frame_len] } := by
  have h2 : (s.sg_frame_len + 1) % 256 = s.sg_frame_len + 1 := by omega
  simp [R24_split_data_frame, frame_buf_push, frame_buf_store, hst, FRAME_IDLE, FRAME_HEADER2,
    FRAME_CTL_WORLD, FRAME_CMD_WORLD, FRAME_DATA_LEN_H, FRAME_DATA_LEN_L, FRAME_DATA_BYTES,
    FRAME_DATA_CRC, FRAME_BUF_MAX_SIZE, hfl, hk, h2]

theorem take_succ_set (buf : List Nat) (i b : Nat) (hi : i < buf.length) :
    (buf.set i b).take (i + 1) = buf.take i ++ [b] := by
  rw [List.set_eq_take_append_cons_drop, if_pos hi]
  have hlen : (buf.take i).length = i := by simp; omega
  rw [List.take_append_eq_append_take, hlen]
  simp [List.take_take]

theorem store_seq_eq (bs : List Nat) : ∀ (buf : List Nat) (i : Nat),
    i + bs.length ≤ buf.length →
    store_seq buf i bs = buf.take i ++ bs ++ buf.drop (i + bs.length) := by
  induction bs with
  | nil => intro buf i _; simp [store_seq]
  | cons b bs ih =>
    intro buf i h
    simp only [List.length_cons] at h
    have hi : i < buf.length := by omega
    rw [store_seq, ih _ _ (by simp; omega)]
    simp only [List.length_cons]
    rw [take_succ_set buf i b hi, List.drop_set_of_lt _ _ (by omega)]
    simp [Nat.add_assoc, Nat.add_comm 1]

theorem store_seq_length (bs : List Nat) : ∀ (buf : List Nat) (i : Nat),
    (store_seq buf i bs).length = buf.length := by
  induction bs with
  | nil => intro buf i; rfl
  | cons b bs ih => intro buf i; simp [store_seq, ih]

/-- The payload bytes of a frame with a non-zero length. -/
theorem feed_payload (payload : List Nat) : ∀ (s : State),
    s.sg_recv_data_state = FRAME_DATA_BYTES → s.sg_data_len = payload.length →
    1 ≤ payload.length → s.sg_frame_len + payload.length ≤ 128 →
    feed s payload =
      { s with sg_recv_data_state := FRAME_DATA_CRC
               sg_data_len := 0
               sg_frame_len := s.sg_frame_len + payload.length
               sg_frame_buf := store_seq s.sg_frame_buf s.sg_frame_len payload
               frame_buf_writes :=
                 s.frame_buf_writes ++ List.range' s.sg_frame_len payload.length } := by
  induction payload with
  | nil => intro s _ _ h; simp at h
  | cons b bs ih =>
    intro s hst hk _ hfl
    cases bs with
    | nil =>
      rw [feed_cons, feed_nil, split_data_byte_last s b hst (by simpa using hk)
        (by simp at hfl; omega)]
      simp [store_seq]
    | cons b2 rest =>
      simp only [List.length_cons] at hk hfl
      rw [feed_cons, split_data_byte s b hst (by omega) (by omega) (by omega)]
      rw [ih _ (by simpa using hst) (by simp [hk]) (by simp) (by simp; omega)]
      simp [store_seq, hk, Nat.add_assoc, Nat.add_comm 1, List.range'_succ]

theorem store_seq_append (xs ys : List Nat) : ∀ (buf : List Nat) (i : Nat),
    store_seq (store_seq buf i xs) (i + xs.length) ys = store_seq buf i (xs ++ ys) := by
  induction xs with
  | nil => intro buf i; simp [store_seq]
  | cons x xs ih =>
    intro buf i
    have h := ih (buf.set i x) (i + 1)
    have e : i + 1 + xs.length = i + (x :: xs).length := by simp; omega
    rw [e] at h
    simpa [store_seq] using h

/-- The checksum byte and the two tail bytes. -/
theorem feed_trailer (s : State) (kk : Nat)
    (hst : s.sg_recv_data_state = FRAME_DATA_CRC) (hfl : s.sg_frame_len + 3 ≤ 128) :
    feed s [kk, FRAME_TAIL1_VALUE, FRAME_TAIL2_VALUE] =
      frame_reset
        (if get_frame_check_status
              (memcpy s.sg_frame_prase_buf
                (store_seq s.sg_frame_buf s.sg_frame_len
                  [kk, FRAME_TAIL1_VALUE, FRAME_TAIL2_VALUE]) (s.sg_frame_len + 3))
              (s.sg_frame_len + 3) ≠ 0 then
          R24_parse_data_frame
            { s with sg_recv_data_state := FRAME_TAIL2
                     sg_frame_len := s.sg_frame_len + 3
                     sg_frame_buf := store_seq s.sg_frame_buf s.sg_frame_len
                       [kk, FRAME_TAIL1_VALUE, FRAME_TAIL2_VALUE]
                     sg_frame_prase_buf := memcpy s.sg_frame_prase_buf
                       (store_seq s.sg_frame_buf s.sg_frame_len
                         [kk, FRAME_TAIL1_VALUE, FRAME_TAIL2_VALUE]) (s.sg_frame_len + 3)
                     frame_buf_writes := s.frame_buf_writes
                       ++ [s.sg_frame_len, s.sg_frame_len + 1, s.sg_frame_len + 2] }
            (memcpy s.sg_frame_prase_buf
              (store_seq s.sg_frame_buf s.sg_frame_len
                [kk, FRAME_TAIL1_VALUE, FRAME_TAIL2_VALUE]) (s.sg_frame_len + 3))
            (s.sg_frame_len + 3)
        else
          { s with sg_recv_data_state := FRAME_TAIL2
                   sg_frame_len := s.sg_frame_len + 3
                   sg_frame_buf := store_seq s.sg_frame_buf s.sg_frame_len
                     [kk, FRAME_TAIL1_VALUE, FRAME_TAIL2_VALUE]
                   sg_frame_prase_buf := memcpy s.sg_frame_prase_buf
                     (store_seq s.sg_frame_buf s.sg_frame_len
                       [kk, FRAME_TAIL1_VALUE, FRAME_TAIL2_VALUE]) (s.sg_frame_len + 3)
                   frame_buf_writes := s.frame_buf_writes
                     ++ [s.sg_frame_len, s.sg_frame_len + 1, s.sg_frame_len + 2] }) := by
  have h1 : (s.sg_frame_len + 1) % 256 = s.sg_frame_len + 1 := Nat.mod_eq_of_lt (by omega)
  have h2 : (s.sg_frame_len + 1 + 1) % 256 = s.sg_frame_len + 2 := Nat.mod_eq_of_lt (by omega)
  have h3 : (s.sg_frame_len + 2 + 1) % 256 = s.sg_frame_len + 3 := Nat.mod_eq_of_lt (by omega)
  have b0 : s.sg_frame_len < 128 := by omega
  have b1 : s.sg_frame_len + 1 < 128 := by omega
  have b2 : s.sg_frame_len + 2 < 128 := by omega
  simp [feed, R24_split_data_frame, frame_buf_push, frame_buf_store, hst, FRAME_IDLE,
    FRAME_HEADER2, FRAME_CTL_WORLD, FRAME_CMD_WORLD, FRAME_DATA_LEN_H, FRAME_DATA_LEN_L,
    FRAME_DATA_BYTES, FRAME_DATA_CRC, FRAME_TAIL1, FRAME_TAIL2, FRAME_BUF_MAX_SIZE, b0, b1, b2,
    h1, h2, h3, store_seq]

/-- The state after the six header bytes. -/
theorem feed_header (s : State) (cc ss lh ll : Nat)
    (hidle : s.sg_recv_data_state = FRAME_IDLE) (hlh : lh ≤ 4) (hll : ll ≤ 32) :
    feed s [FRAME_HEADER1_VALUE, FRAME_HEADER2_VALUE, cc, ss, lh, ll] =
      { s with sg_recv_data_state := FRAME_DATA_BYTES
               sg_data_len := ll
               sg_frame_len := 6
               sg_frame_buf := store_seq s.sg_frame_buf 0
                 [FRAME_HEADER1_VALUE, FRAME_HEADER2_VALUE, cc, ss, lh, ll]
               frame_buf_writes := s.frame_buf_writes ++ [0, 1, 2, 3, 4, 5] } := by
  have h1 : ll % 256 = ll := Nat.mod_eq_of_lt (by omega)
  have h2 : ¬ (32 < ll) := by omega
  simp [feed, R24_split_data_frame, frame_buf_store, hidle, FRAME_IDLE, FRAME_HEADER2,
    FRAME_CTL_WORLD, FRAME_CMD_WORLD, FRAME_DATA_LEN_H, FRAME_DATA_LEN_L, FRAME_DATA_BYTES,
    FRAME_HEADER1_VALUE, FRAME_HEADER2_VALUE, FRAME_BUF_MAX_SIZE, h1, h2, hlh, store_seq]

theorem frame_bytes_length (cc ss lh ll : Nat) (payload : List Nat) (kk : Nat) :
    (frame_bytes cc ss lh ll payload kk).length = payload.length + 9 := by
  simp [frame_bytes]

/-- The checksum test on a buffer that starts with a complete frame. -/
theorem check_status_frame (cc ss lh ll : Nat) (payload : List Nat) (kk : Nat)
    (rest : List Nat) :
    get_frame_check_status (frame_bytes cc ss lh ll payload kk ++ rest)
        (frame_bytes cc ss lh ll payload kk).length
      = if kk = frame_sum cc ss lh ll payload then 1 else 0 := by
  have hlen : (frame_bytes cc ss lh ll payload kk).length - 3 = payload.length + 6 := by
    rw [frame_bytes_length]; omega
  have hsplit : frame_bytes cc ss lh ll payload kk ++ rest
      = ([FRAME_HEADER1_VALUE, FRAME_HEADER2_VALUE, cc, ss, lh, ll] ++ payload)
        ++ ([kk, FRAME_TAIL1_VALUE, FRAME_TAIL2_VALUE] ++ rest) := by
    simp [frame_bytes]
  have hl6 : ([FRAME_HEADER1_VALUE, FRAME_HEADER2_VALUE, cc, ss, lh, ll] ++ payload).length
      = payload.length + 6 := by simp
  unfold get_frame_check_status
  rw [crc_sum_eq _ _ (by rw [hlen]; simp [frame_bytes]), hlen, hsplit]
  have htake : List.take (payload.length + 6)
      (([FRAME_HEADER1_VALUE, FRAME_HEADER2_VALUE, cc, ss, lh, ll] ++ payload)
        ++ ([kk, FRAME_TAIL1_VALUE, FRAME_TAIL2_VALUE] ++ rest))
      = [FRAME_HEADER1_VALUE, FRAME_HEADER2_VALUE, cc, ss, lh, ll] ++ payload := by
    rw [← hl6, List.take_left]
  have hrd : rd (([FRAME_HEADER1_VALUE, FRAME_HEADER2_VALUE, cc, ss, lh, ll] ++ payload)
        ++ ([kk, FRAME_TAIL1_VALUE, FRAME_TAIL2_VALUE] ++ rest)) (payload.length + 6) = kk := by
    unfold rd
    rw [List.getD_eq_getElem?_getD, List.getElem?_append_right (by rw [hl6]), hl6]
    simp
  rw [htake, hrd]
  rfl

theorem frame_buf_eq (buf : List Nat) (cc ss lh ll : Nat) (payload : List Nat) (kk : Nat)
    (hbuf : payload.length + 9 ≤ buf.length) :
    store_seq (store_seq (store_seq buf 0
        [FRAME_HEADER1_VALUE, FRAME_HEADER2_VALUE, cc, ss, lh, ll]) 6 payload)
        (6 + payload.length) [kk, FRAME_TAIL1_VALUE, FRAME_TAIL2_VALUE]
      = frame_bytes cc ss lh ll payload kk
          ++ buf.drop (frame_bytes cc ss lh ll payload kk).length := by
  have e1 := store_seq_append [FRAME_HEADER1_VALUE, FRAME_HEADER2_VALUE, cc, ss, lh, ll]
    payload buf 0
  have e2 := store_seq_append ([FRAME_HEADER1_VALUE, FRAME_HEADER2_VALUE, cc, ss, lh, ll]
    ++ payload) [kk, FRAME_TAIL1_VALUE, FRAME_TAIL2_VALUE] buf 0
  simp only [List.length_cons, List.length_nil, List.length_append, Nat.zero_add] at e1 e2
  rw [e1, e2, store_seq_eq _ _ _ (by simp; omega)]
  simp [frame_bytes]

theorem writes_eq (n : Nat) :
    [0, 1, 2, 3, 4, 5] ++ (List.range' 6 n ++ [6 + n, 6 + n + 1, 6 + n + 2])
      = List.range (n + 9) := by
  have h1 : [0, 1, 2, 3, 4, 5] = List.range' 0 6 := by decide
  have h2 : [6 + n, 6 + n + 1, 6 + n + 2] = List.range' (6 + n) 3 := by
    simp [List.range']
  rw [h1, h2, List.range_eq_range', List.range'_append_1, List.range'_append_1]
  congr 1
  omega

/-- Feeding a complete frame with payload length 1..32 to an idle decoder:
the decoder reaches `FRAME_TAIL2` holding exactly the frame, dispatches it
when the checksum byte is the frame sum, and resets. -/
theorem feed_frame (s : State) (cc ss : Nat) (payload : List Nat) (kk : Nat)
    (hidle : s.sg_recv_data_state = FRAME_IDLE)
    (hbuf : s.sg_frame_buf.length = FRAME_BUF_MAX_SIZE)
    (hn1 : 1 ≤ payload.length) (hn : payload.length ≤ 32) :
    feed s (frame_bytes cc ss 0 payload.length payload kk) =
      frame_reset
        (if kk = frame_sum cc ss 0 payload.length payload then
          R24_parse_data_frame (at_dispatch s (frame_bytes cc ss 0 payload.length payload kk))
            (at_dispatch s (frame_bytes cc ss 0 payload.length payload kk)).sg_frame_prase_buf
            (frame_bytes cc ss 0 payload.length payload kk).length
        else at_dispatch s (frame_bytes cc ss 0 payload.length payload kk)) := by
  have hF : frame_bytes cc ss 0 payload.length payload kk
      = [FRAME_HEADER1_VALUE, FRAME_HEADER2_VALUE, cc, ss, 0, payload.length] ++ payload
        ++ [kk, FRAME_TAIL1_VALUE, FRAME_TAIL2_VALUE] := rfl
  have hFlen := frame_bytes_length cc ss 0 payload.length payload kk
  simp only [FRAME_BUF_MAX_SIZE] at hbuf
  conv_lhs => rw [hF, feed_append, feed_append, feed_header s cc ss 0 _ hidle (by omega) hn]
  rw [feed_payload payload _ rfl rfl hn1 (by simp; omega)]
  rw [feed_trailer _ _ rfl (by simp; omega)]
  simp only []
  rw [frame_buf_eq _ _ _ _ _ _ _ (by omega)]
  have hmc : memcpy s.sg_frame_prase_buf
      (frame_bytes cc ss 0 payload.length payload kk
        ++ s.sg_frame_buf.drop (frame_bytes cc ss 0 payload.length payload kk).length)
      (6 + payload.length + 3)
      = frame_bytes cc ss 0 payload.length payload kk
        ++ s.sg_frame_prase_buf.drop (frame_bytes cc ss 0 payload.length payload kk).length := by
    have e : 6 + payload.length + 3 = (frame_bytes cc ss 0 payload.length payload kk).length := by
      rw [hFlen]; omega
    rw [e]
    simp [memcpy]
  have e3 : 6 + payload.length + 3 = (frame_bytes cc ss 0 payload.length payload kk).length := by
    rw [hFlen]; omega
  rw [hmc, e3, check_status_frame]
  have hw : s.frame_buf_writes ++ [0, 1, 2, 3, 4, 5] ++ List.range' 6 payload.length
      ++ [6 + payload.length, 6 + payload.length + 1, 6 + payload.length + 2]
      = s.frame_buf_writes
        ++ List.range (frame_bytes cc ss 0 payload.length payload kk).length := by
    rw [hFlen, List.append_assoc, List.append_assoc, writes_eq]
  by_cases hk : kk = frame_sum cc ss 0 payload.length payload
  · simp only [if_pos hk, ne_eq, one_ne_zero, not_false_eq_true, at_dispatch, hw, if_true]
  · simp only [if_neg hk, ne_eq, not_true_eq_false, at_dispatch, hw, if_false]

/-! ## Dispatcher lemmas -/

theorem dispatchFrame_refl (s : State) : DispatchFrame s s := by
  simp [DispatchFrame]

theorem dispatchFrame_publish (s : State) (k : Sink) (v : Value) :
    DispatchFrame s (publish s k v) := by
  simp [DispatchFrame, publish]

theorem dispatchFrame_ite (s : State) (c : Prop) [Decidable c] (a b : State)
    (ha : DispatchFrame s a) (hb : DispatchFrame s b) :
    DispatchFrame s (if c then a else b) := by
  split <;> assumption

theorem dispatchFrame_trans (s t u : State) (h1 : DispatchFrame s t)
    (h2 : DispatchFrame t u) : DispatchFrame s u := by
  obtain ⟨a1, a2, a3, a4, a5, a6, a7, a8, a9, a10, a11, a12, a13, a14⟩ := h1
  obtain ⟨b1, b2, b3, b4, b5, b6, b7, b8, b9, b10, b11, b12, b13, b14⟩ := h2
  refine ⟨b1.trans a1, b2.trans a2, b3.trans a3, b4.trans a4, b5.trans a5, b6.trans a6,
    b7.trans a7, b8.trans a8, b9.trans a9, b10.trans a10, b11.trans a11, b12.trans a12,
    b13.trans a13, ?_⟩
  rcases b14 with h | h | h
  · rw [h]; exact a14
  · exact Or.inr (Or.inl h)
  · exact Or.inr (Or.inr h)

theorem dispatchFrame_movementSigns (s : State) (data : List Nat) :
    DispatchFrame s (movementSigns_report s data) := by
  unfold movementSigns_report
  apply dispatchFrame_ite <;> simp [DispatchFrame, publish]

theorem dispatchFrame_work_status (s : State) (data : List Nat) :
    DispatchFrame s (R24_frame_parse_work_status s data) := by
  unfold R24_frame_parse_work_status
  repeat' first
    | with_reducible exact dispatchFrame_refl _
    | with_reducible exact dispatchFrame_publish _ _ _
    | with_reducible apply dispatchFrame_ite

theorem dispatchFrame_human (s : State) (data : List Nat) :
    DispatchFrame s (R24_frame_parse_human_information s data) := by
  unfold R24_frame_parse_human_information
  repeat' first
    | with_reducible exact dispatchFrame_refl _
    | with_reducible exact dispatchFrame_publish _ _ _
    | with_reducible exact dispatchFrame_movementSigns _ _
    | with_reducible apply dispatchFrame_ite

theorem dispatchFrame_detection_range (s : State) (data : List Nat) :
    DispatchFrame s (R24_frame_parse_detection_range s data) := by
  unfold R24_frame_parse_detection_range
  repeat' first
    | with_reducible exact dispatchFrame_refl _
    | with_reducible exact dispatchFrame_publish _ _ _
    | with_reducible apply dispatchFrame_ite

theorem dispatchFrame_product (s : State) (data : List Nat) :
    DispatchFrame s (R24_frame_parse_product_Information s data) := by
  unfold R24_frame_parse_product_Information
  repeat' first
    | with_reducible exact dispatchFrame_refl _
    | with_reducible apply dispatchFrame_ite
    | simp [DispatchFrame, publish]

theorem dispatchFrame_output_switch (s : State) (data : List Nat) :
    DispatchFrame s (output_switch_reply s data) := by
  unfold output_switch_reply
  apply dispatchFrame_ite <;> simp [DispatchFrame, publish]

theorem dispatchFrame_spatial_static_value (s : State) (v : Nat) :
    DispatchFrame s (report_spatial_static_value s v) := by
  unfold report_spatial_static_value
  apply dispatchFrame_ite <;> simp [DispatchFrame, publish]

theorem dispatchFrame_static_distance (s : State) (v : Nat) :
    DispatchFrame s (report_static_distance s v) := by
  unfold report_static_distance
  apply dispatchFrame_ite <;> simp [DispatchFrame, publish]

theorem dispatchFrame_spatial_motion_value (s : State) (v : Nat) :
    DispatchFrame s (report_spatial_motion_value s v) := by
  unfold report_spatial_motion_value
  apply dispatchFrame_ite <;> simp [DispatchFrame, publish]

theorem dispatchFrame_motion_distance (s : State) (v : Nat) :
    DispatchFrame s (report_motion_distance s v) := by
  unfold report_motion_distance
  apply dispatchFrame_ite <;> simp [DispatchFrame, publish]

theorem dispatchFrame_motion_speed (s : State) (v : Nat) :
    DispatchFrame s (report_motion_speed s v) := by
  unfold report_motion_speed
  apply dispatchFrame_ite <;> simp [DispatchFrame, publish]

theorem dispatchFrame_radar_report (s : State) (data : List Nat) :
    DispatchFrame s (radar_report s data) := by
  unfold radar_report
  exact dispatchFrame_trans _ _ _ (dispatchFrame_trans _ _ _ (dispatchFrame_trans _ _ _
    (dispatchFrame_trans _ _ _ (dispatchFrame_spatial_static_value _ _)
      (dispatchFrame_static_distance _ _)) (dispatchFrame_spatial_motion_value _ _))
    (dispatchFrame_motion_distance _ _)) (dispatchFrame_motion_speed _ _)

theorem dispatchFrame_perception_boundary (s : State) (data : List Nat) :
    DispatchFrame s (perception_boundary_reply s data) := by
  unfold perception_boundary_reply
  apply dispatchFrame_ite <;> simp [DispatchFrame, publish]

theorem dispatchFrame_motion_trigger_boundary (s : State) (data : List Nat) :
    DispatchFrame s (motion_trigger_boundary_reply s data) := by
  unfold motion_trigger_boundary_reply
  apply dispatchFrame_ite <;> simp [DispatchFrame, publish]

theorem dispatchFrame_motion_trigger_time (s : State) (data : List Nat) :
    DispatchFrame s (motion_trigger_time_reply s data) := by
  unfold motion_trigger_time_reply
  apply dispatchFrame_ite <;> simp [DispatchFrame, publish]

theorem dispatchFrame_move_to_rest_time (s : State) (data : List Nat) :
    DispatchFrame s (move_to_rest_time_reply s data) := by
  unfold move_to_rest_time_reply
  apply dispatchFrame_ite <;> simp [DispatchFrame, publish]

theorem dispatchFrame_enter_unmanned_time (s : State) (data : List Nat) :
    DispatchFrame s (enter_unmanned_time_reply s data) := by
  unfold enter_unmanned_time_reply
  apply dispatchFrame_ite <;> simp [DispatchFrame, publish]

theorem dispatchFrame_open (s : State) (data : List Nat) :
    DispatchFrame s (R24_frame_parse_open_underlying_information s data) := by
  unfold R24_frame_parse_open_underlying_information
  repeat' first
    | with_reducible exact dispatchFrame_refl _
    | with_reducible exact dispatchFrame_publish _ _ _
    | with_reducible exact dispatchFrame_movementSigns _ _
    | with_reducible exact dispatchFrame_output_switch _ _
    | with_reducible exact dispatchFrame_radar_report _ _
    | with_reducible exact dispatchFrame_motion_distance _ _
    | with_reducible exact dispatchFrame_motion_speed _ _
    | with_reducible exact dispatchFrame_perception_boundary _ _
    | with_reducible exact dispatchFrame_motion_trigger_boundary _ _
    | with_reducible exact dispatchFrame_motion_trigger_time _ _
    | with_reducible exact dispatchFrame_move_to_rest_time _ _
    | with_reducible exact dispatchFrame_enter_unmanned_time _ _
    | with_reducible apply dispatchFrame_ite

theorem dispatchFrame_control_word (s : State) (data : List Nat) :
    DispatchFrame s (parse_control_word s data) := by
  unfold parse_control_word
  repeat' first
    | with_reducible exact dispatchFrame_refl _
    | with_reducible exact dispatchFrame_product _ _
    | with_reducible exact dispatchFrame_work_status _ _
    | with_reducible exact dispatchFrame_detection_range _ _
    | with_reducible exact dispatchFrame_open _ _
    | with_reducible exact dispatchFrame_human _ _
    | with_reducible apply dispatchFrame_ite
    | simp [DispatchFrame]

/-! ## The shape of a decoder step -/

theorem parse_dispatched (s : State) (data : List Nat) (len : Nat) :
    (R24_parse_data_frame s data len).dispatched = s.dispatched ++ [data.take len] := by
  unfold R24_parse_data_frame
  have h := dispatchFrame_control_word
    { s with dispatched := s.dispatched ++ [data.take len] } data
  exact h.2.2.2.2.2.2.2.2.2.2.1

theorem rest_frame_reset (s : State) : rest (frame_reset s) = rest s := rfl

/-- The shape of one decoder step: either only decoder variables change, or
the step is the end of a frame, where a state that differs from the old one in
decoder variables only is dispatched and the decoder is then reset. -/
theorem split_shape (s : State) (value : Nat) :
    (rest (R24_split_data_frame s value) = rest s
        ∧ (s.sg_frame_buf.length = FRAME_BUF_MAX_SIZE
            → (R24_split_data_frame s value).sg_frame_buf.length = FRAME_BUF_MAX_SIZE))
      ∨ ∃ t, rest t = rest s ∧ t.sg_frame_buf.length = s.sg_frame_buf.length
          ∧ R24_split_data_frame s value
            = frame_reset (R24_parse_data_frame t t.sg_frame_prase_buf t.sg_frame_len) := by
  have hcases : s.sg_recv_data_state = FRAME_IDLE ∨ s.sg_recv_data_state = FRAME_HEADER2
      ∨ s.sg_recv_data_state = FRAME_CTL_WORLD ∨ s.sg_recv_data_state = FRAME_CMD_WORLD
      ∨ s.sg_recv_data_state = FRAME_DATA_LEN_H ∨ s.sg_recv_data_state = FRAME_DATA_LEN_L
      ∨ s.sg_recv_data_state = FRAME_DATA_BYTES ∨ s.sg_recv_data_state = FRAME_DATA_CRC
      ∨ s.sg_recv_data_state = FRAME_TAIL1 ∨ s.sg_recv_data_state = FRAME_TAIL2
      ∨ 9 < s.sg_recv_data_state := by
    simp only [FRAME_IDLE, FRAME_HEADER2, FRAME_CTL_WORLD, FRAME_CMD_WORLD, FRAME_DATA_LEN_H,
      FRAME_DATA_LEN_L, FRAME_DATA_BYTES, FRAME_DATA_CRC, FRAME_TAIL1, FRAME_TAIL2]
    omega
  rcases hcases with h | h | h | h | h | h | h | h | h | h | h
  · left
    simp only [R24_split_data_frame, h, if_true]
    split <;> exact ⟨rfl, fun hb => by simpa [store_length] using hb⟩
  · left
    simp [R24_split_data_frame, h, FRAME_IDLE, FRAME_HEADER2, frame_buf_store, store_length,
      store_length_else]
    split <;> exact ⟨rfl, fun hb => by simpa [store_length] using hb⟩
  · left
    simp [R24_split_data_frame, h, FRAME_IDLE, FRAME_HEADER2, FRAME_CTL_WORLD, frame_buf_store, store_length,
      store_length_else]
    rfl
  · left
    simp [R24_split_data_frame, h, FRAME_IDLE, FRAME_HEADER2, FRAME_CTL_WORLD, FRAME_CMD_WORLD,
      frame_buf_store, store_length,
      store_length_else]
    rfl
  · left
    simp [R24_split_data_frame, h, FRAME_IDLE, FRAME_HEADER2, FRAME_CTL_WORLD, FRAME_CMD_WORLD,
      FRAME_DATA_LEN_H, frame_buf_store, store_length,
      store_length_else]
    split <;> exact ⟨rfl, fun hb => by simpa [store_length] using hb⟩
  · left
    simp [R24_split_data_frame, h, FRAME_IDLE, FRAME_HEADER2, FRAME_CTL_WORLD, FRAME_CMD_WORLD,
      FRAME_DATA_LEN_H, FRAME_DATA_LEN_L, frame_buf_store, store_length,
      store_length_else]
    split <;> exact ⟨rfl, fun hb => by simpa [store_length] using hb⟩
  · left
    simp [R24_split_data_frame, h, FRAME_IDLE, FRAME_HEADER2, FRAME_CTL_WORLD, FRAME_CMD_WORLD,
      FRAME_DATA_LEN_H, FRAME_DATA_LEN_L, FRAME_DATA_BYTES, frame_buf_store, store_length, store_length_else, frame_buf_push]
    split <;> exact ⟨rfl, fun hb => by simpa [store_length] using hb⟩
  · left
    simp [R24_split_data_frame, h, FRAME_IDLE, FRAME_HEADER2, FRAME_CTL_WORLD, FRAME_CMD_WORLD,
      FRAME_DATA_LEN_H, FRAME_DATA_LEN_L, FRAME_DATA_BYTES, FRAME_DATA_CRC, frame_buf_store, store_length, store_length_else,
      frame_buf_push]
    rfl
  · left
    simp [R24_split_data_frame, h, FRAME_IDLE, FRAME_HEADER2, FRAME_CTL_WORLD, FRAME_CMD_WORLD,
      FRAME_DATA_LEN_H, FRAME_DATA_LEN_L, FRAME_DATA_BYTES, FRAME_DATA_CRC, FRAME_TAIL1]
    split <;> exact ⟨rfl, fun hb => by simpa [store_length] using hb⟩
  · have hst : R24_split_data_frame s value
        = frame_reset
          (if FRAME_TAIL2_VALUE = value then
            (if get_frame_check_status
                  (memcpy (frame_buf_push (frame_buf_push s FRAME_TAIL1_VALUE)
                      FRAME_TAIL2_VALUE).sg_frame_prase_buf
                    (frame_buf_push (frame_buf_push s FRAME_TAIL1_VALUE)
                      FRAME_TAIL2_VALUE).sg_frame_buf
                    (frame_buf_push (frame_buf_push s FRAME_TAIL1_VALUE)
                      FRAME_TAIL2_VALUE).sg_frame_len)
                  (frame_buf_push (frame_buf_push s FRAME_TAIL1_VALUE)
                      FRAME_TAIL2_VALUE).sg_frame_len ≠ 0 then
              R24_parse_data_frame
                { frame_buf_push (frame_buf_push s FRAME_TAIL1_VALUE) FRAME_TAIL2_VALUE with
                  sg_frame_prase_buf := memcpy (frame_buf_push (frame_buf_push s FRAME_TAIL1_VALUE)
                      FRAME_TAIL2_VALUE).sg_frame_prase_buf
                    (frame_buf_push (frame_buf_push s FRAME_TAIL1_VALUE)
                      FRAME_TAIL2_VALUE).sg_frame_buf
                    (frame_buf_push (frame_buf_push s FRAME_TAIL1_VALUE)
                      FRAME_TAIL2_VALUE).sg_frame_len }
                (memcpy (frame_buf_push (frame_buf_push s FRAME_TAIL1_VALUE)
                      FRAME_TAIL2_VALUE).sg_frame_prase_buf
                    (frame_buf_push (frame_buf_push s FRAME_TAIL1_VALUE)
                      FRAME_TAIL2_VALUE).sg_frame_buf
                    (frame_buf_push (frame_buf_push s FRAME_TAIL1_VALUE)
                      FRAME_TAIL2_VALUE).sg_frame_len)
                (frame_buf_push (frame_buf_push s FRAME_TAIL1_VALUE)
                      FRAME_TAIL2_VALUE).sg_frame_len
            else
              { frame_buf_push (frame_buf_push s FRAME_TAIL1_VALUE) FRAME_TAIL2_VALUE with
                  sg_frame_prase_buf := memcpy (frame_buf_push (frame_buf_push s FRAME_TAIL1_VALUE)
                      FRAME_TAIL2_VALUE).sg_frame_prase_buf
                    (frame_buf_push (frame_buf_push s FRAME_TAIL1_VALUE)
                      FRAME_TAIL2_VALUE).sg_frame_buf
                    (frame_buf_push (frame_buf_push s FRAME_TAIL1_VALUE)
                      FRAME_TAIL2_VALUE).sg_frame_len })
          else s) := by
      unfold R24_split_data_frame
      rw [if_neg (by rw [h]; decide), if_neg (by rw [h]; decide), if_neg (by rw [h]; decide),
        if_neg (by rw [h]; decide), if_neg (by rw [h]; decide), if_neg (by rw [h]; decide),
        if_neg (by rw [h]; decide), if_neg (by rw [h]; decide), if_neg (by rw [h]; decide),
        if_pos h]
    rw [hst]
    split
    · split
      · right
        refine ⟨_, ?_, ?_, rfl⟩
        · rfl
        · simp [frame_buf_push, frame_buf_store, store_length,
      store_length_else]
      · left
        exact ⟨rfl, fun hb => by
          simp [frame_reset, memset0, frame_buf_push, frame_buf_store, store_length, store_length_else, hb, FRAME_BUF_MAX_SIZE]⟩
    · left
      exact ⟨rfl, fun hb => by simp [frame_reset, memset0, hb, FRAME_BUF_MAX_SIZE]⟩
  · left
    have h0 : ¬ s.sg_recv_data_state = 0 := by omega
    have h1 : ¬ s.sg_recv_data_state = 1 := by omega
    have h2 : ¬ s.sg_recv_data_state = 2 := by omega
    have h3 : ¬ s.sg_recv_data_state = 3 := by omega
    have h4 : ¬ s.sg_recv_data_state = 4 := by omega
    have h5 : ¬ s.sg_recv_data_state = 5 := by omega
    have h6 : ¬ s.sg_recv_data_state = 6 := by omega
    have h7 : ¬ s.sg_recv_data_state = 7 := by omega
    have h8 : ¬ s.sg_recv_data_state = 8 := by omega
    have h9 : ¬ s.sg_recv_data_state = 9 := by omega
    simp [R24_split_data_frame, h0, h1, h2, h3, h4, h5, h6, h7, h8, h9, FRAME_IDLE,
      FRAME_HEADER2, FRAME_CTL_WORLD, FRAME_CMD_WORLD,
      FRAME_DATA_LEN_H, FRAME_DATA_LEN_L, FRAME_DATA_BYTES, FRAME_DATA_CRC, FRAME_TAIL1,
      FRAME_TAIL2]
    rfl

theorem split_dispatched_grows (s : State) (value : Nat) :
    ∃ l, (R24_split_data_frame s value).dispatched = s.dispatched ++ l := by
  rcases split_shape s value with ⟨h, _⟩ | ⟨t, ht, _, heq⟩
  · exact ⟨[], by simpa [rest] using congrArg State.dispatched h⟩
  · refine ⟨[t.sg_frame_prase_buf.take t.sg_frame_len], ?_⟩
    rw [heq]
    have h0 : (rest t).dispatched = (rest s).dispatched := congrArg State.dispatched ht
    have h1 : t.dispatched = s.dispatched := h0
    show (R24_parse_data_frame t t.sg_frame_prase_buf t.sg_frame_len).dispatched = _
    rw [parse_dispatched, h1]

theorem split_buf_length (s : State) (value : Nat)
    (hb : s.sg_frame_buf.length = FRAME_BUF_MAX_SIZE) :
    (R24_split_data_frame s value).sg_frame_buf.length = FRAME_BUF_MAX_SIZE := by
  rcases split_shape s value with ⟨_, h⟩ | ⟨t, _, hlen, heq⟩
  · exact h hb
  · rw [heq]
    have h1 : (R24_parse_data_frame t t.sg_frame_prase_buf t.sg_frame_len).sg_frame_buf
        = t.sg_frame_buf := (dispatchFrame_control_word _ _).2.2.2.1
    simp [frame_reset, memset0, h1, hlen, hb, FRAME_BUF_MAX_SIZE]

theorem feed_buf_length (bytes : List Nat) : ∀ (s : State),
    s.sg_frame_buf.length = FRAME_BUF_MAX_SIZE →
    (feed s bytes).sg_frame_buf.length = FRAME_BUF_MAX_SIZE := by
  induction bytes with
  | nil => intro s h; exact h
  | cons b bs ih => intro s h; exact ih _ (split_buf_length s b h)

theorem feed_dispatched_grows (bytes : List Nat) : ∀ (s : State),
    ∃ l, (feed s bytes).dispatched = s.dispatched ++ l := by
  induction bytes with
  | nil => intro s; exact ⟨[], by simp [feed]⟩
  | cons b bs ih =>
    intro s
    obtain ⟨l1, h1⟩ := split_dispatched_grows s b
    obtain ⟨l2, h2⟩ := ih (R24_split_data_frame s b)
    exact ⟨l1 ++ l2, by rw [feed_cons, h2, h1, List.append_assoc]⟩

/-- When a run of the decoder ends with the dispatch log it started with, no
prefix of the run dispatched anything. -/
theorem feed_prefix_dispatched (s : State) (bytes : List Nat) (k : Nat)
    (h : (feed s bytes).dispatched = s.dispatched) :
    (feed s (bytes.take k)).dispatched = s.dispatched := by
  obtain ⟨l1, h1⟩ := feed_dispatched_grows (bytes.take k) s
  obtain ⟨l2, h2⟩ := feed_dispatched_grows (bytes.drop k) (feed s (bytes.take k))
  rw [← feed_append, List.take_append_drop, h, h1, List.append_assoc] at h2
  have h3 : (l1 ++ l2).length = 0 := by
    have := congrArg List.length h2
    simp only [List.length_append] at this ⊢
    omega
  have h4 : l1 = [] := (List.append_eq_nil.mp (List.eq_nil_of_length_eq_zero h3)).1
  rw [h1, h4, List.append_nil]

/-- The decoder run on a frame that announces a zero-length payload: the
three bytes after the length are stored as payload and the decoder stays in
`FRAME_DATA_BYTES`. -/
theorem feed_frame_zero (s : State) (cc ss kk : Nat)
    (hidle : s.sg_recv_data_state = FRAME_IDLE) :
    (feed s (frame_bytes cc ss 0 0 [] kk)).dispatched = s.dispatched
      ∧ (feed s (frame_bytes cc ss 0 0 [] kk)).sg_recv_data_state = FRAME_DATA_BYTES
      ∧ (feed s (frame_bytes cc ss 0 0 [] kk)).sg_data_len = 253 := by
  simp [feed, frame_bytes, R24_split_data_frame, frame_buf_store, store_length, store_length_else, frame_buf_push, hidle,
    FRAME_IDLE, FRAME_HEADER2, FRAME_CTL_WORLD, FRAME_CMD_WORLD, FRAME_DATA_LEN_H,
    FRAME_DATA_LEN_L, FRAME_DATA_BYTES, FRAME_HEADER1_VALUE, FRAME_HEADER2_VALUE]

/-- A valid frame with payload length 1..32 fed to an idle decoder is
dispatched exactly once, byte for byte, and the decoder is idle again. -/
theorem feed_valid_frame (s : State) (cc ss : Nat) (payload : List Nat)
    (hidle : s.sg_recv_data_state = FRAME_IDLE)
    (hbuf : s.sg_frame_buf.length = FRAME_BUF_MAX_SIZE)
    (hn1 : 1 ≤ payload.length) (hn : payload.length ≤ 32) :
    (feed s (frame_bytes cc ss 0 payload.length payload
        (frame_sum cc ss 0 payload.length payload))).dispatched
      = s.dispatched ++ [frame_bytes cc ss 0 payload.length payload
          (frame_sum cc ss 0 payload.length payload)]
      ∧ (feed s (frame_bytes cc ss 0 payload.length payload
        (frame_sum cc ss 0 payload.length payload))).sg_recv_data_state = FRAME_IDLE := by
  rw [feed_frame s cc ss payload _ hidle hbuf hn1 hn, if_pos rfl]
  refine ⟨?_, rfl⟩
  show (R24_parse_data_frame _ _ _).dispatched = _
  rw [parse_dispatched]
  simp [at_dispatch]

/-! ## Dialect, scheduler and heartbeat lemmas -/

/-- Dispatching a frame with control word 0x08 and command word 0x00 or 0x80
runs the output-switch branch. -/
theorem parse_output_switch (s : State) (data : List Nat) (len : Nat)
    (hc : rd data FRAME_CONTROL_WORD_INDEX = 0x08)
    (hs : rd data FRAME_COMMAND_WORD_INDEX = 0x00 ∨ rd data FRAME_COMMAND_WORD_INDEX = 0x80) :
    R24_parse_data_frame s data len
      = output_switch_reply { s with dispatched := s.dispatched ++ [data.take len] } data := by
  unfold R24_parse_data_frame parse_control_word
  rw [if_neg (by rw [hc]; decide), if_neg (by rw [hc]; decide), if_neg (by rw [hc]; decide),
    if_neg (by rw [hc]; decide), if_pos hc]
  unfold R24_frame_parse_open_underlying_information
  rcases hs with h | h
  · rw [if_pos h]
  · rw [if_neg (by rw [h]; decide), if_neg (by rw [h]; decide), if_neg (by rw [h]; decide),
      if_neg (by rw [h]; decide), if_neg (by rw [h]; decide), if_neg (by rw [h]; decide),
      if_neg (by rw [h]; decide), if_neg (by rw [h]; decide), if_neg (by rw [h]; decide),
      if_neg (by rw [h]; decide), if_neg (by rw [h]; decide),
      if_pos h]

theorem sched_rest_ite (c : Prop) [Decidable c] (a b s : State)
    (ha : sched_rest a = sched_rest s) (hb : sched_rest b = sched_rest s) :
    sched_rest (if c then a else b) = sched_rest s := by
  split <;> assumption

theorem sched_rest_standard_query (s : State) :
    sched_rest (standard_query s) = sched_rest s := by
  unfold standard_query
  repeat' first
    | with_reducible apply sched_rest_ite
    | rfl

theorem sched_rest_custom_query (s : State) :
    sched_rest (custom_query s) = sched_rest s := by
  unfold custom_query
  repeat' first
    | with_reducible apply sched_rest_ite
    | rfl

theorem sched_rest_bump (s t : State) (h : sched_rest t = sched_rest s) :
    sched_rest { t with sg_start_query_data := t.sg_start_query_data + 1 } = sched_rest s :=
  h

theorem sched_rest_loop_query (s : State) : sched_rest (loop_query s) = sched_rest s := by
  have h1 : sched_rest (loop_probe s) = sched_rest s := by
    unfold loop_probe
    exact sched_rest_ite _ _ _ _ rfl rfl
  have h2 : ∀ t, sched_rest (loop_standard t) = sched_rest t := by
    intro t
    unfold loop_standard
    exact sched_rest_ite _ _ _ _ (sched_rest_bump _ _ (sched_rest_standard_query t)) rfl
  have h3 : ∀ t, sched_rest (loop_custom t) = sched_rest t := by
    intro t
    unfold loop_custom
    exact sched_rest_ite _ _ _ _ (sched_rest_bump _ _ (sched_rest_custom_query t)) rfl
  unfold loop_query
  rw [h3, h2, h1]

theorem loop_query_flag (s : State) :
    (loop_query s).s_output_info_switch_flag = s.s_output_info_switch_flag := by
  have h : (sched_rest (loop_query s)).s_output_info_switch_flag
      = (sched_rest s).s_output_info_switch_flag :=
    congrArg State.s_output_info_switch_flag (sched_rest_loop_query s)
  exact h

theorem update_flag (s : State) :
    (update s).s_output_info_switch_flag = s.s_output_info_switch_flag := by
  unfold update
  simp only [publish]
  split_ifs <;> rfl

/-- Dispatching a System heartbeat reply (control 0x01, command 0x01) sets
the heartbeat flag to 1 and publishes nothing. -/
theorem parse_heartbeat (s : State) (data : List Nat) (len : Nat)
    (hc : rd data FRAME_CONTROL_WORD_INDEX = 0x01)
    (hs : rd data FRAME_COMMAND_WORD_INDEX = 0x01) :
    R24_parse_data_frame s data len
      = { s with dispatched := s.dispatched ++ [data.take len], sg_heartbeat_flag := 1 } := by
  unfold R24_parse_data_frame parse_control_word
  rw [if_pos hc, if_pos hs]

/-! ## The claims -/

/-- C1 (round trip), evaluated at a valid frame with payload length 0: the
frame `53 59 01 02 00 00 AF 54 43` (checksum AF = sum of the six bytes before
it) fed from the initial idle state is not handed to `R24_parse_data_frame`;
the decoder took the checksum and tail bytes as payload and waits in
`FRAME_DATA_BYTES` with the countdown wrapped to 253. -/
theorem C1_zero_length_frame_not_dispatched :
    frame_bytes 0x01 0x02 0 0 [] (frame_sum 0x01 0x02 0 0 [])
        = [0x53, 0x59, 0x01, 0x02, 0x00, 0x00, 0xAF, 0x54, 0x43]
      ∧ (feed (initState 4 10 10)
          [0x53, 0x59, 0x01, 0x02, 0x00, 0x00, 0xAF, 0x54, 0x43]).dispatched = []
      ∧ (feed (initState 4 10 10)
          [0x53, 0x59, 0x01, 0x02, 0x00, 0x00, 0xAF, 0x54, 0x43]).sg_recv_data_state
        = FRAME_DATA_BYTES
      ∧ (feed (initState 4 10 10)
          [0x53, 0x59, 0x01, 0x02, 0x00, 0x00, 0xAF, 0x54, 0x43]).sg_data_len = 253 := by
  decide

/-- C2. Checksum gate: a well-framed byte sequence (header, control, command,
length field equal to the payload length and at most 32, payload, checksum
byte, tail) whose checksum byte differs from the sum of the preceding bytes
modulo 256, fed to `R24_split_data_frame` from `FRAME_IDLE`, never invokes
`R24_parse_data_frame`: after every prefix of the sequence the dispatch log is
the one the decoder started with. -/
theorem C2_checksum_gate (s : State) (cc ss lh ll kk : Nat) (payload : List Nat) (k : Nat)
    (hidle : s.sg_recv_data_state = FRAME_IDLE)
    (hbuf : s.sg_frame_buf.length = FRAME_BUF_MAX_SIZE)
    (hlen : 256 * lh + ll = payload.length) (hn : payload.length ≤ 32)
    (hkk : kk ≠ frame_sum cc ss lh ll payload) :
    (feed s ((frame_bytes cc ss lh ll payload kk).take k)).dispatched = s.dispatched := by
  apply feed_prefix_dispatched
  have hlh : lh = 0 := by omega
  subst hlh
  have hll : ll = payload.length := by omega
  subst hll
  rcases Nat.eq_zero_or_pos payload.length with h0 | h1
  · have hp : payload = [] := List.eq_nil_of_length_eq_zero h0
    subst hp
    exact (feed_frame_zero s cc ss kk hidle).1
  · rw [feed_frame s cc ss payload kk hidle hbuf h1 hn, if_neg hkk]
    rfl

/-- Witness of C2: the frame `53 59 01 01 00 01 0F 00 54 43`, whose checksum
byte 00 is not the frame sum BE, fed whole from the initial state. -/
theorem C2_checksum_gate_witness :
    (0 : Nat) ≠ frame_sum 0x01 0x01 0 1 [0x0F]
      ∧ (feed (initState 4 10 10)
          ((frame_bytes 0x01 0x01 0 1 [0x0F] 0).take 10)).dispatched
        = (initState 4 10 10).dispatched :=
  ⟨by decide,
    C2_checksum_gate (initState 4 10 10) 0x01 0x01 0 1 0 [0x0F] 10 rfl
      (by simp [initState, FRAME_BUF_MAX_SIZE]) (by decide) (by decide) (by decide)⟩

/-- C4. For every byte array `data` and every `len >= 3` within it,
`get_frame_crc_sum data len` is the sum of `data[0 .. len-4]` (all bytes
except the final three) modulo 256, and `get_frame_check_status data len`
returns 1 exactly when `data[len-3]` equals that value (and 0 otherwise). -/
theorem C4_crc_sum_and_check_status (data : List Nat) (len : Nat)
    (h3 : 3 ≤ len) (hlen : len ≤ data.length) :
    get_frame_crc_sum data len = (data.take (len - 3)).sum % 256
      ∧ (get_frame_check_status data len = 1
          ↔ rd data (len - 3) = (data.take (len - 3)).sum % 256)
      ∧ (get_frame_check_status data len = 0
          ↔ rd data (len - 3) ≠ (data.take (len - 3)).sum % 256) := by
  have hsum := crc_sum_eq data len (by omega)
  refine ⟨hsum, ?_, ?_⟩
  · unfold get_frame_check_status
    simp only [hsum]
    split <;> simp_all
  · unfold get_frame_check_status
    simp only [hsum]
    split <;> simp_all

/-- Witness of C4: the ten bytes of the heartbeat query before its checksum
is filled in. -/
theorem C4_crc_sum_and_check_status_witness :
    get_frame_crc_sum [0x53, 0x59, 0x01, 0x01, 0x00, 0x01, 0x0F, 0x00, 0x54, 0x43] 10
      = ([0x53, 0x59, 0x01, 0x01, 0x00, 0x01, 0x0F, 0x00, 0x54, 0x43].take (10 - 3)).sum % 256 :=
  (C4_crc_sum_and_check_status [0x53, 0x59, 0x01, 0x01, 0x00, 0x01, 0x0F, 0x00, 0x54, 0x43] 10
    (by decide) (by decide)).1

/-- C5 (length cap), evaluated at length-high byte 1 and length-low byte 5:
after `53 59 01 01 01 05` the announced length is 256*1 + 5 = 261 > 32, yet
the decoder is in `FRAME_DATA_BYTES` with the countdown 5, because
`sg_data_len = value * 256` is stored in a `uint8_t` and is always 0. -/
theorem C5_length_high_byte_lost :
    ¬ (256 * 1 + 5 ≤ 32)
      ∧ (feed (initState 4 10 10) [0x53, 0x59, 0x01, 0x01, 0x01, 0x05]).sg_recv_data_state
        = FRAME_DATA_BYTES
      ∧ (feed (initState 4 10 10) [0x53, 0x59, 0x01, 0x01, 0x01, 0x05]).sg_data_len = 5
      ∧ (feed (initState 4 10 10) [0x53, 0x59, 0x01, 0x01, 0x01]).sg_data_len = 0 := by
  decide

set_option maxRecDepth 200000

/-- C6 (buffer bound), evaluated at a frame header announcing length 0
followed by 123 further bytes: the countdown wraps to 255, every byte is stored
as payload, the last store is `sg_frame_buf[128]`, outside the 128-byte array,
and `sg_frame_len` is 129, above 41. -/
theorem C6_zero_length_overruns_buffer :
    (feed (initState 4 10 10)
        ([0x53, 0x59, 0x01, 0x01, 0x00, 0x00] ++ List.replicate 123 0)).frame_buf_writes.getLast?
        = some 128
      ∧ ¬ (128 < FRAME_BUF_MAX_SIZE)
      ∧ (feed (initState 4 10 10)
          ([0x53, 0x59, 0x01, 0x01, 0x00, 0x00] ++ List.replicate 123 0)).sg_frame_len = 129
      ∧ (feed (initState 4 10 10)
          ([0x53, 0x59, 0x01, 0x01, 0x00, 0x00] ++ List.replicate 123 0)).sg_recv_data_state
        = FRAME_DATA_BYTES := by
  decide

/-- C7 (payload count), evaluated at length 0: after `53 59 01 01 00 00` the
decoder is in `FRAME_DATA_BYTES` with countdown 0; the next byte `AA` is
stored as a payload byte at index 6, the countdown is decremented to 255
(below zero, wrapped), and the decoder stays in `FRAME_DATA_BYTES`. -/
theorem C7_zero_length_consumes_payload :
    (feed (initState 4 10 10) [0x53, 0x59, 0x01, 0x01, 0x00, 0x00]).sg_recv_data_state
        = FRAME_DATA_BYTES
      ∧ (feed (initState 4 10 10) [0x53, 0x59, 0x01, 0x01, 0x00, 0x00]).sg_data_len = 0
      ∧ (feed (initState 4 10 10) [0x53, 0x59, 0x01, 0x01, 0x00, 0x00, 0xAA]).sg_recv_data_state
        = FRAME_DATA_BYTES
      ∧ (feed (initState 4 10 10) [0x53, 0x59, 0x01, 0x01, 0x00, 0x00, 0xAA]).sg_data_len = 255
      ∧ (feed (initState 4 10 10) [0x53, 0x59, 0x01, 0x01, 0x00, 0x00, 0xAA]).sg_frame_len = 7
      ∧ rd (feed (initState 4 10 10)
          [0x53, 0x59, 0x01, 0x01, 0x00, 0x00, 0xAA]).sg_frame_buf 6 = 0xAA := by
  decide

/-- C8. Dispatching a frame with control word 0x08 and command word 0x00 or
0x80 sets the dialect flag to `OUTPUT_SWTICH_ON` when payload byte 0 is
non-zero and to `OUTPUT_SWTICH_OFF` when it is zero, and publishes payload
byte 0 to the output-switch sink (one publish, nothing else); in particular
the bytes `53 59 08 80 00 01 0F 44 54 43` fed to any idle decoder leave the
dialect flag at `OUTPUT_SWTICH_ON` and publish the non-zero value 15. -/
theorem C8_output_switch_reply_sets_dialect (s : State) (data : List Nat) (len : Nat)
    (hc : rd data FRAME_CONTROL_WORD_INDEX = 0x08)
    (hs : rd data FRAME_COMMAND_WORD_INDEX = 0x00 ∨ rd data FRAME_COMMAND_WORD_INDEX = 0x80) :
    (rd data FRAME_DATA_INDEX ≠ 0 →
        (R24_parse_data_frame s data len).s_output_info_switch_flag = OUTPUT_SWTICH_ON)
      ∧ (rd data FRAME_DATA_INDEX = 0 →
        (R24_parse_data_frame s data len).s_output_info_switch_flag = OUTPUT_SWTICH_OFF)
      ∧ (R24_parse_data_frame s data len).published
        = s.published ++ [(Sink.output_info_switch, Value.num (rd data FRAME_DATA_INDEX))]
      ∧ ∀ s0 : State, s0.sg_recv_data_state = FRAME_IDLE →
          s0.sg_frame_buf.length = FRAME_BUF_MAX_SIZE →
          (feed s0 [0x53, 0x59, 0x08, 0x80, 0x00, 0x01, 0x0F, 0x44, 0x54,
              0x43]).s_output_info_switch_flag = OUTPUT_SWTICH_ON
            ∧ (feed s0 [0x53, 0x59, 0x08, 0x80, 0x00, 0x01, 0x0F, 0x44, 0x54, 0x43]).published
              = s0.published ++ [(Sink.output_info_switch, Value.num 15)] := by
  have hgen : ∀ (t : State) (d : List Nat) (n : Nat), rd d FRAME_CONTROL_WORD_INDEX = 0x08 →
      (rd d FRAME_COMMAND_WORD_INDEX = 0x00 ∨ rd d FRAME_COMMAND_WORD_INDEX = 0x80) →
      (rd d FRAME_DATA_INDEX ≠ 0 →
        (R24_parse_data_frame t d n).s_output_info_switch_flag = OUTPUT_SWTICH_ON)
      ∧ (rd d FRAME_DATA_INDEX = 0 →
        (R24_parse_data_frame t d n).s_output_info_switch_flag = OUTPUT_SWTICH_OFF)
      ∧ (R24_parse_data_frame t d n).published
        = t.published ++ [(Sink.output_info_switch, Value.num (rd d FRAME_DATA_INDEX))] := by
    intro t d n h1 h2
    rw [parse_output_switch t d n h1 h2]
    unfold output_switch_reply
    refine ⟨fun h => ?_, fun h => ?_, ?_⟩
    · simp [h]
    · simp [h]
    · simp only [publish]
      split <;> rfl
  obtain ⟨g1, g2, g3⟩ := hgen s data len hc hs
  refine ⟨g1, g2, g3, ?_⟩
  intro s0 hidle hbuf
  have hF : [0x53, 0x59, 0x08, 0x80, 0x00, 0x01, 0x0F, 0x44, 0x54, 0x43]
      = frame_bytes 0x08 0x80 0 [0x0F].length [0x0F] 0x44 := by decide
  rw [hF, feed_frame s0 0x08 0x80 [0x0F] 0x44 hidle hbuf (by decide) (by decide),
    if_pos (by decide)]
  obtain ⟨k1, _, k3⟩ := hgen
    (at_dispatch s0 (frame_bytes 0x08 0x80 0 [0x0F].length [0x0F] 0x44))
    (at_dispatch s0 (frame_bytes 0x08 0x80 0 [0x0F].length [0x0F] 0x44)).sg_frame_prase_buf
    (frame_bytes 0x08 0x80 0 [0x0F].length [0x0F] 0x44).length
    (by simp [at_dispatch, frame_bytes, rd, FRAME_CONTROL_WORD_INDEX])
    (Or.inr (by simp [at_dispatch, frame_bytes, rd, FRAME_COMMAND_WORD_INDEX]))
  have hd : rd (at_dispatch s0 (frame_bytes 0x08 0x80 0 [0x0F].length [0x0F]
      0x44)).sg_frame_prase_buf FRAME_DATA_INDEX = 15 := by
    simp [at_dispatch, frame_bytes, rd, FRAME_DATA_INDEX]
  rw [hd] at k1 k3
  exact ⟨k1 (by decide), k3⟩

/-- Witness of C8: the output-switch reply `53 59 08 80 00 01 0F 44 54 43`
dispatched from the initial state. -/
theorem C8_output_switch_reply_sets_dialect_witness :
    rd [0x53, 0x59, 0x08, 0x80, 0x00, 0x01, 0x0F, 0x44, 0x54, 0x43] FRAME_CONTROL_WORD_INDEX
        = 0x08
      ∧ rd [0x53, 0x59, 0x08, 0x80, 0x00, 0x01, 0x0F, 0x44, 0x54, 0x43]
          FRAME_COMMAND_WORD_INDEX = 0x80
      ∧ (R24_parse_data_frame (initState 4 10 10)
          [0x53, 0x59, 0x08, 0x80, 0x00, 0x01, 0x0F, 0x44, 0x54, 0x43] 10).published
        = (initState 4 10 10).published ++ [(Sink.output_info_switch,
            Value.num (rd [0x53, 0x59, 0x08, 0x80, 0x00, 0x01, 0x0F, 0x44, 0x54, 0x43]
              FRAME_DATA_INDEX))] :=
  ⟨by decide, by decide,
    (C8_output_switch_reply_sets_dialect (initState 4 10 10)
      [0x53, 0x59, 0x08, 0x80, 0x00, 0x01, 0x0F, 0x44, 0x54, 0x43] 10 (by decide)
      (Or.inr (by decide))).2.2.1⟩

/-- Counterexample to C10 as stated: after `setup` and one dispatched
heartbeat reply `53 59 01 01 00 01 0F BE 54 43`, the first `update` publishes
"Normal" and leaves the heartbeat flag at 0, not 255, and a second `update`
with no reply in between publishes a heartbeat status again ("Abnormal"). -/
theorem C10_second_update_publishes_again :
    (update (feed (setup (initState 4 10 10))
        [0x53, 0x59, 0x01, 0x01, 0x00, 0x01, 0x0F, 0xBE, 0x54, 0x43])).published
        = [(Sink.Heartbeat, Value.text "Normal")]
      ∧ (update (feed (setup (initState 4 10 10))
        [0x53, 0x59, 0x01, 0x01, 0x00, 0x01, 0x0F, 0xBE, 0x54, 0x43])).sg_heartbeat_flag = 0
      ∧ (update (update (feed (setup (initState 4 10 10))
        [0x53, 0x59, 0x01, 0x01, 0x00, 0x01, 0x0F, 0xBE, 0x54, 0x43]))).published
        = [(Sink.Heartbeat, Value.text "Normal"), (Sink.Heartbeat, Value.text "Abnormal")] := by
  decide

/-- C10, amended. Whenever `update` publishes the heartbeat status (the
component is set up and the flag is not 255) it publishes the table entry of
the flag and resets the flag to 0 (Abnormal), not to 255; so the `update`
after a dispatched heartbeat reply publishes "Normal", and the next `update`
with no reply in between publishes "Abnormal" and leaves the flag at 0: once a
reply has arrived there is one heartbeat publish per `update`. -/
theorem C10_update_publishes_and_resets_to_abnormal (s : State)
    (hinit : s.sg_init_flag = true) (hhb : s.sg_heartbeat_flag ≠ 255) :
    (update s).published
        = s.published ++ [(Sink.Heartbeat, table_entry s_heartbeat_str s.sg_heartbeat_flag)]
      ∧ (update s).sg_heartbeat_flag = 0
      ∧ (update (update s)).published
        = (update s).published ++ [(Sink.Heartbeat, Value.text "Abnormal")]
      ∧ (update (update s)).sg_heartbeat_flag = 0
      ∧ ∀ (data : List Nat) (len : Nat), rd data FRAME_CONTROL_WORD_INDEX = 0x01 →
          rd data FRAME_COMMAND_WORD_INDEX = 0x01 →
          (update (R24_parse_data_frame s data len)).published
            = s.published ++ [(Sink.Heartbeat, Value.text "Normal")] := by
  have hstep : ∀ t : State, t.sg_init_flag = true → t.sg_heartbeat_flag ≠ 255 →
      (update t).published
          = t.published ++ [(Sink.Heartbeat, table_entry s_heartbeat_str t.sg_heartbeat_flag)]
        ∧ (update t).sg_heartbeat_flag = 0 ∧ (update t).sg_init_flag = true := by
    intro t h1 h2
    have h3 : (255 : Nat) ≠ t.sg_heartbeat_flag := fun h => h2 h.symm
    unfold update
    simp only [h1, publish, h3, ne_eq, not_false_eq_true, and_self, if_true, not_true_eq_false,
      if_false]
    split_ifs <;> simp [h1]
  obtain ⟨a1, a2, a3⟩ := hstep s hinit hhb
  obtain ⟨b1, b2, _⟩ := hstep (update s) a3 (by rw [a2]; decide)
  refine ⟨a1, a2, ?_, b2, ?_⟩
  · rw [b1, a2]
    rfl
  · intro data len hc hs
    rw [parse_heartbeat s data len hc hs]
    obtain ⟨c1, _, _⟩ := hstep
      { s with dispatched := s.dispatched ++ [data.take len], sg_heartbeat_flag := 1 }
      hinit (by show (1 : Nat) ≠ 255; decide)
    rw [c1]
    rfl

/-- Witness of C10 (amended): the set-up state with the heartbeat flag at 1,
as a dispatched heartbeat reply leaves it. -/
theorem C10_update_publishes_and_resets_to_abnormal_witness :
    ({ setup (initState 4 10 10) with sg_heartbeat_flag := 1 } : State).sg_heartbeat_flag ≠ 255
      ∧ (update (update { setup (initState 4 10 10) with sg_heartbeat_flag := 1 })).published
        = (update { setup (initState 4 10 10) with sg_heartbeat_flag := 1 }).published
          ++ [(Sink.Heartbeat, Value.text "Abnormal")] :=
  ⟨by decide,
    (C10_update_publishes_and_resets_to_abnormal
      { setup (initState 4 10 10) with sg_heartbeat_flag := 1 } rfl (by decide)).2.2.1⟩

/-! ## Query encoder and sweep lemmas -/

theorem query_builders_send : ∀ b ∈ query_builders, ∀ s : State,
    b.1 s = { s with sent := s.sent ++ [query_frame b.2.1 b.2.2] } := by
  intro b hb s
  simp only [query_builders, List.mem_cons, List.mem_singleton, List.not_mem_nil, or_false] at hb
  rcases hb with h | h | h | h | h | h | h | h | h | h | h | h | h | h | h | h | h | h | h | h
    | h | h | h | h | h | h | h <;> (subst h; rfl)

theorem standard_query_at (s : State) (i : Nat) (hi : i < 14)
    (hc : s.sg_start_query_data = (i : Int)) :
    standard_query s
      = { s with sent := s.sent ++ [query_frame (spec_standard_sweep.getD i (0, 0)).1
            (spec_standard_sweep.getD i (0, 0)).2] } := by
  unfold standard_query
  interval_cases i <;>
    (conv_lhs => simp [hc, STANDARD_FUNCTION_QUERY_PRODUCT_MODE, STANDARD_FUNCTION_QUERY_PRODUCT_ID,
      STANDARD_FUNCTION_QUERY_FIRMWARE_VERDION, STANDARD_FUNCTION_QUERY_HARDWARE_MODE,
      STANDARD_FUNCTION_QUERY_PROTOCOL_TYPE, STANDARD_FUNCTION_QUERY_HUMAN_STATUS,
      STANDARD_FUNCTION_QUERY_SCENE_MODE, STANDARD_FUNCTION_QUERY_SENSITIVITY,
      STANDARD_FUNCTION_QUERY_RADAR_INIT_STATUS,
      STANDARD_FUNCTION_QUERY_MOV_TARGET_DETECTION_MAX_DISTANCE,
      STANDARD_FUNCTION_QUERY_STATIC_TARGET_DETECTION_MAX_DISTANCE,
      STANDARD_FUNCTION_QUERY_UNMANNED_TIME,
      STANDARD_FUNCTION_QUERY_RADAR_OUITPUT_INFORMATION_SWITCH, STANDARD_FUNCTION_MAX]
     rfl)

theorem custom_query_at (s : State) (i : Nat) (hi : i < 10)
    (hc : s.sg_start_query_data = (i : Int) + 14) :
    custom_query s
      = { s with sent := s.sent ++ [query_frame (spec_custom_sweep.getD i (0, 0)).1
            (spec_custom_sweep.getD i (0, 0)).2] } := by
  unfold custom_query
  interval_cases i <;>
    (conv_lhs => simp [hc, CUSTOM_FUNCTION_QUERY_RADAR_OUITPUT_INFORMATION_SWITCH,
      CUSTOM_FUNCTION_QUERY_PRESENCE_OF_DETECTION_RANGE,
      CUSTOM_FUNCTION_QUERY_JUDGMENT_THRESHOLD_EXISTS,
      CUSTOM_FUNCTION_QUERY_MOTION_AMPLITUDE_TRIGGER_THRESHOLD,
      CUSTOM_FUNCTION_QUERY_PRESENCE_OF_PERCEPTION_BOUNDARY,
      CUSTOM_FUNCTION_QUERY_MOTION_TRIGGER_BOUNDARY, CUSTOM_FUNCTION_QUERY_MOTION_TRIGGER_TIME,
      CUSTOM_FUNCTION_QUERY_MOVEMENT_TO_REST_TIME, CUSTOM_FUNCTION_QUERY_TIME_OF_ENTER_UNMANNED,
      CUSTOM_FUNCTION_MAX]
     rfl)

theorem loop_probe_skip_flag (s : State) (h : s.s_output_info_switch_flag ≠ 0) :
    loop_probe s = s := by
  unfold loop_probe
  rw [if_neg (fun hh => h hh.1)]

theorem loop_probe_skip_cursor (s : State)
    (h : s.sg_start_query_data ≠ CUSTOM_FUNCTION_QUERY_RADAR_OUITPUT_INFORMATION_SWITCH) :
    loop_probe s = s := by
  unfold loop_probe
  rw [if_neg (fun hh => h hh.2)]

theorem loop_standard_skip_flag (s : State)
    (h : s.s_output_info_switch_flag ≠ OUTPUT_SWTICH_OFF) : loop_standard s = s := by
  unfold loop_standard
  rw [if_neg (fun hh => h hh.1)]

theorem loop_standard_skip_cursor (s : State)
    (h : STANDARD_FUNCTION_MAX < s.sg_start_query_data) : loop_standard s = s := by
  unfold loop_standard
  rw [if_neg (fun hh => absurd hh.2.1 (not_le.mpr h))]

theorem loop_custom_skip_flag (s : State)
    (h : s.s_output_info_switch_flag ≠ OUTPUT_SWTICH_ON) : loop_custom s = s := by
  unfold loop_custom
  rw [if_neg (fun hh => h hh.1)]

theorem loop_custom_skip_cursor (s : State)
    (h : CUSTOM_FUNCTION_MAX < s.sg_start_query_data) : loop_custom s = s := by
  unfold loop_custom
  rw [if_neg (fun hh => absurd hh.2.1 (not_le.mpr h))]

/-- One `loop` call without input in the Unknown dialect with the cursor at
the first Custom slot: the output-switch probe is sent and the cursor moves
on. -/
theorem loop_unknown_step (s : State) (hf : s.s_output_info_switch_flag = OUTPUT_SWITCH_INIT)
    (hc : s.sg_start_query_data = CUSTOM_FUNCTION_QUERY_RADAR_OUITPUT_INFORMATION_SWITCH) :
    loop s [] = { s with sent := s.sent ++ [query_frame 0x08 0x80]
                         sg_start_query_data := 15 } := by
  show loop_custom (loop_standard (loop_probe s)) = _
  have h1 : loop_probe s = { s with sent := s.sent ++ [query_frame 0x08 0x80]
                                    sg_start_query_data := 15 } := by
    unfold loop_probe
    rw [if_pos ⟨hf, hc⟩]
    simp only [get_radar_output_information_switch, send_with_crc, send_query, hc]
    rfl
  rw [h1, loop_standard_skip_flag _ (by show s.s_output_info_switch_flag ≠ _; rw [hf]; decide),
    loop_custom_skip_flag _ (by show s.s_output_info_switch_flag ≠ _; rw [hf]; decide)]

/-- One `loop` call without input in the Unknown dialect with the cursor off
the first Custom slot does nothing. -/
theorem loop_unknown_idle (s : State) (hf : s.s_output_info_switch_flag = OUTPUT_SWITCH_INIT)
    (hc : s.sg_start_query_data ≠ CUSTOM_FUNCTION_QUERY_RADAR_OUITPUT_INFORMATION_SWITCH) :
    loop s [] = s := by
  show loop_custom (loop_standard (loop_probe s)) = _
  rw [loop_probe_skip_cursor s hc,
    loop_standard_skip_flag _ (by rw [hf]; decide),
    loop_custom_skip_flag _ (by rw [hf]; decide)]

/-- One `loop` call without input in the Standard dialect with the cursor at
slot `i` of the Standard range. -/
theorem loop_standard_step (s : State) (i : Nat) (hi : i < 14)
    (hf : s.s_output_info_switch_flag = OUTPUT_SWTICH_OFF)
    (hc : s.sg_start_query_data = (i : Int)) :
    loop s [] = { s with sent := s.sent ++ [query_frame (spec_standard_sweep.getD i (0, 0)).1
                            (spec_standard_sweep.getD i (0, 0)).2]
                         sg_start_query_data := (i : Int) + 1 } := by
  show loop_custom (loop_standard (loop_probe s)) = _
  rw [loop_probe_skip_flag s (by rw [hf]; decide)]
  have h2 : loop_standard s
      = { s with sent := s.sent ++ [query_frame (spec_standard_sweep.getD i (0, 0)).1
                            (spec_standard_sweep.getD i (0, 0)).2]
                 sg_start_query_data := (i : Int) + 1 } := by
    unfold loop_standard
    rw [if_pos ⟨hf, by rw [hc]; simp only [STANDARD_FUNCTION_MAX]; omega,
      by rw [hc]; simp only [STANDARD_FUNCTION_QUERY_PRODUCT_MODE]; omega⟩]
    simp only [standard_query_at s i hi hc, hc]
  rw [h2, loop_custom_skip_flag _ (by show s.s_output_info_switch_flag ≠ _; rw [hf]; decide)]

/-- One `loop` call without input in the Custom dialect with the cursor at
slot `i` of the Custom range. -/
theorem loop_custom_step (s : State) (i : Nat) (hi : i < 10)
    (hf : s.s_output_info_switch_flag = OUTPUT_SWTICH_ON)
    (hc : s.sg_start_query_data = (i : Int) + 14) :
    loop s [] = { s with sent := s.sent ++ [query_frame (spec_custom_sweep.getD i (0, 0)).1
                            (spec_custom_sweep.getD i (0, 0)).2]
                         sg_start_query_data := (i : Int) + 14 + 1 } := by
  show loop_custom (loop_standard (loop_probe s)) = _
  rw [loop_probe_skip_flag s (by rw [hf]; decide),
    loop_standard_skip_flag s (by rw [hf]; decide)]
  unfold loop_custom
  rw [if_pos ⟨hf, by rw [hc]; simp only [CUSTOM_FUNCTION_MAX]; omega,
    by rw [hc]; simp only [CUSTOM_FUNCTION_QUERY_RADAR_OUITPUT_INFORMATION_SWITCH]; omega⟩]
  simp only [custom_query_at s i hi hc, hc]

theorem update_sched (s : State) (hinit : s.sg_init_flag = true) :
    (update s).sent = s.sent
      ∧ (update s).s_output_info_switch_flag = s.s_output_info_switch_flag
      ∧ (update s).sg_init_flag = true
      ∧ (s.s_output_info_switch_flag = OUTPUT_SWITCH_INIT → (update s).sg_start_query_data
          = CUSTOM_FUNCTION_QUERY_RADAR_OUITPUT_INFORMATION_SWITCH)
      ∧ (s.s_output_info_switch_flag = OUTPUT_SWTICH_OFF → (update s).sg_start_query_data
          = STANDARD_FUNCTION_QUERY_PRODUCT_MODE)
      ∧ (s.s_output_info_switch_flag = OUTPUT_SWTICH_ON → (update s).sg_start_query_data
          = CUSTOM_FUNCTION_QUERY_RADAR_OUITPUT_INFORMATION_SWITCH) := by
  unfold update
  simp only [publish]
  split_ifs <;>
    simp_all [OUTPUT_SWITCH_INIT, OUTPUT_SWTICH_OFF, OUTPUT_SWTICH_ON]

/-- The Standard sweep: `k` idle `loop` calls from slot 0 send the first `k`
queries of the Standard order and leave the cursor at `k`. -/
theorem idle_loops_standard (s : State)
    (hf : s.s_output_info_switch_flag = OUTPUT_SWTICH_OFF)
    (hc : s.sg_start_query_data = STANDARD_FUNCTION_QUERY_PRODUCT_MODE) :
    ∀ k, k ≤ 14 →
      idle_loops k s
        = { s with sent := s.sent
                      ++ (spec_standard_sweep.take k).map (fun p => query_frame p.1 p.2)
                   sg_start_query_data := (k : Int) } := by
  intro k
  induction k with
  | zero =>
    intro _
    cases s
    simp only [STANDARD_FUNCTION_QUERY_PRODUCT_MODE] at hc
    simp [idle_loops, hc]
  | succ k ih =>
    intro hk
    have hk14 : k < 14 := by omega
    have hih := ih (by omega)
    have hstep := loop_standard_step (idle_loops k s) k hk14 (by rw [hih]; exact hf)
      (by rw [hih])
    have e1 : (spec_standard_sweep.take k).map (fun p => query_frame p.1 p.2)
        ++ [query_frame (spec_standard_sweep.getD k (0, 0)).1
            (spec_standard_sweep.getD k (0, 0)).2]
        = (spec_standard_sweep.take (k + 1)).map (fun p => query_frame p.1 p.2) := by
      interval_cases k <;> rfl
    have e2 : (k : Int) + 1 = ((k + 1 : Nat) : Int) := by omega
    rw [idle_loops, hstep, hih]
    simp only [List.append_assoc, e1, e2]

/-- The Custom sweep: `k` idle `loop` calls from the first Custom slot send
the first `k` queries of the Custom order and leave the cursor `k` slots
on. -/
theorem idle_loops_custom (s : State)
    (hf : s.s_output_info_switch_flag = OUTPUT_SWTICH_ON)
    (hc : s.sg_start_query_data = CUSTOM_FUNCTION_QUERY_RADAR_OUITPUT_INFORMATION_SWITCH) :
    ∀ k, k ≤ 10 →
      idle_loops k s
        = { s with sent := s.sent
                      ++ (spec_custom_sweep.take k).map (fun p => query_frame p.1 p.2)
                   sg_start_query_data := (k : Int) + 14 } := by
  intro k
  induction k with
  | zero =>
    intro _
    cases s
    simp only [CUSTOM_FUNCTION_QUERY_RADAR_OUITPUT_INFORMATION_SWITCH] at hc
    simp [idle_loops, hc]
  | succ k ih =>
    intro hk
    have hk10 : k < 10 := by omega
    have hih := ih (by omega)
    have hstep := loop_custom_step (idle_loops k s) k hk10 (by rw [hih]; exact hf)
      (by rw [hih])
    have e1 : (spec_custom_sweep.take k).map (fun p => query_frame p.1 p.2)
        ++ [query_frame (spec_custom_sweep.getD k (0, 0)).1
            (spec_custom_sweep.getD k (0, 0)).2]
        = (spec_custom_sweep.take (k + 1)).map (fun p => query_frame p.1 p.2) := by
      interval_cases k <;> rfl
    have e2 : (k : Int) + 14 + 1 = ((k + 1 : Nat) : Int) + 14 := by omega
    rw [idle_loops, hstep, hih]
    simp only [List.append_assoc, e1, e2]

/-- A state in which an idle `loop` call changes nothing stays the same under
any number of them. -/
theorem idle_loops_fixed (s : State) (h : loop s [] = s) : ∀ n, idle_loops n s = s := by
  intro n
  induction n with
  | zero => rfl
  | succ n ih => rw [idle_loops, ih, h]

/-! ## The scheduler and encoder claims -/

/-- C11. While the dialect is Unknown and `setup` has run, a poll tick
(`update` followed by any positive number `n` of `loop` calls with no incoming
bytes) issues exactly one query, the output-switch probe
`53 59 08 80 00 01 0F 44 54 43`: `update` sends nothing and resets the cursor
to `CUSTOM_FUNCTION_QUERY_RADAR_OUITPUT_INFORMATION_SWITCH`, the first `loop`
call sends the probe, and the later `loop` calls of the tick send nothing. -/
theorem C11_unknown_dialect_probe (s : State) (n : Nat)
    (hinit : s.sg_init_flag = true)
    (hf : s.s_output_info_switch_flag = OUTPUT_SWITCH_INIT) (hn : 1 ≤ n) :
    (update s).sent = s.sent
      ∧ (update s).sg_start_query_data = CUSTOM_FUNCTION_QUERY_RADAR_OUITPUT_INFORMATION_SWITCH
      ∧ idle_loops n (update s)
        = { update s with
            sent := s.sent ++ [[0x53, 0x59, 0x08, 0x80, 0x00, 0x01, 0x0F, 0x44, 0x54, 0x43]]
            sg_start_query_data := 15 } := by
  obtain ⟨h1, h2, _, h4, _, _⟩ := update_sched s hinit
  refine ⟨h1, h4 hf, ?_⟩
  have hstep := loop_unknown_step (update s) (by rw [h2, hf]) (h4 hf)
  rw [h1] at hstep
  have hfix : loop (loop (update s) []) [] = loop (update s) [] := by
    rw [hstep]
    exact loop_unknown_idle _ (by show (update s).s_output_info_switch_flag = _; rw [h2, hf])
      (by show (15 : Int) ≠ _; decide)
  obtain ⟨m, rfl⟩ : ∃ m, n = m + 1 := ⟨n - 1, by omega⟩
  have hshift : ∀ j, idle_loops (j + 1) (update s) = idle_loops j (loop (update s) []) := by
    intro j
    induction j with
    | zero => rfl
    | succ j ih => rw [idle_loops, ih]; rfl
  rw [hshift, idle_loops_fixed _ hfix, hstep]
  rfl

/-- Witness of C11: the set-up initial state and a tick of three `loop`
calls. -/
theorem C11_unknown_dialect_probe_witness :
    (setup (initState 4 10 10)).s_output_info_switch_flag = OUTPUT_SWITCH_INIT
      ∧ (idle_loops 3 (update (setup (initState 4 10 10)))).sent
        = [[0x53, 0x59, 0x08, 0x80, 0x00, 0x01, 0x0F, 0x44, 0x54, 0x43]] :=
  ⟨rfl, by
    rw [(C11_unknown_dialect_probe (setup (initState 4 10 10)) 3 rfl rfl (by decide)).2.2]
    rfl⟩

/-- C12. Standard sweep order: with the dialect Standard and the cursor at
`STANDARD_FUNCTION_QUERY_PRODUCT_MODE`, for every `k <= 14` the first `k`
consecutive `loop` calls with no incoming bytes have sent exactly the first
`k` queries of the order (02,A1) (02,A2) (02,A4) (02,A3) (02,A5) (80,81)
(05,87) (05,88) (05,81) (07,81) (07,84) (80,8A) (08,80) (01,01), one per call,
and have advanced the cursor to `k`; nothing else has changed. -/
theorem C12_standard_sweep_order (s : State) (k : Nat)
    (hf : s.s_output_info_switch_flag = OUTPUT_SWTICH_OFF)
    (hc : s.sg_start_query_data = STANDARD_FUNCTION_QUERY_PRODUCT_MODE) (hk : k ≤ 14) :
    idle_loops k s
      = { s with sent := s.sent
                    ++ (spec_standard_sweep.take k).map (fun p => query_frame p.1 p.2)
                 sg_start_query_data := (k : Int) } :=
  idle_loops_standard s hf hc k hk

/-- Witness of C12: the full sweep of 14 calls from the initial state with
the dialect set to Standard and the cursor at slot 0. -/
theorem C12_standard_sweep_order_witness :
    (idle_loops 14 { initState 4 10 10 with
        s_output_info_switch_flag := OUTPUT_SWTICH_OFF
        sg_start_query_data := STANDARD_FUNCTION_QUERY_PRODUCT_MODE }).sent
      = [[0x53, 0x59, 0x02, 0xA1, 0x00, 0x01, 0x0F, 0x5F, 0x54, 0x43],
         [0x53, 0x59, 0x02, 0xA2, 0x00, 0x01, 0x0F, 0x60, 0x54, 0x43],
         [0x53, 0x59, 0x02, 0xA4, 0x00, 0x01, 0x0F, 0x62, 0x54, 0x43],
         [0x53, 0x59, 0x02, 0xA3, 0x00, 0x01, 0x0F, 0x61, 0x54, 0x43],
         [0x53, 0x59, 0x02, 0xA5, 0x00, 0x01, 0x0F, 0x63, 0x54, 0x43],
         [0x53, 0x59, 0x80, 0x81, 0x00, 0x01, 0x0F, 0xBD, 0x54, 0x43],
         [0x53, 0x59, 0x05, 0x87, 0x00, 0x01, 0x0F, 0x48, 0x54, 0x43],
         [0x53, 0x59, 0x05, 0x88, 0x00, 0x01, 0x0F, 0x49, 0x54, 0x43],
         [0x53, 0x59, 0x05, 0x81, 0x00, 0x01, 0x0F, 0x42, 0x54, 0x43],
         [0x53, 0x59, 0x07, 0x81, 0x00, 0x01, 0x0F, 0x44, 0x54, 0x43],
         [0x53, 0x59, 0x07, 0x84, 0x00, 0x01, 0x0F, 0x47, 0x54, 0x43],
         [0x53, 0x59, 0x80, 0x8A, 0x00, 0x01, 0x0F, 0xC6, 0x54, 0x43],
         [0x53, 0x59, 0x08, 0x80, 0x00, 0x01, 0x0F, 0x44, 0x54, 0x43],
         [0x53, 0x59, 0x01, 0x01, 0x00, 0x01, 0x0F, 0xBE, 0x54, 0x43]] := by
  rw [C12_standard_sweep_order _ 14 rfl rfl (by decide)]
  decide

/-- C13. Custom sweep order: with the dialect Custom and the cursor at
`CUSTOM_FUNCTION_QUERY_RADAR_OUITPUT_INFORMATION_SWITCH`, for every `k <= 10`
the first `k` consecutive `loop` calls with no incoming bytes have sent
exactly the first `k` queries of the order (08,80) (08,83) (08,88) (08,89)
(08,8A) (08,8B) (08,8C) (08,8D) (08,8E) (01,01), one per call, and have
advanced the cursor by `k`; nothing else has changed. -/
theorem C13_custom_sweep_order (s : State) (k : Nat)
    (hf : s.s_output_info_switch_flag = OUTPUT_SWTICH_ON)
    (hc : s.sg_start_query_data = CUSTOM_FUNCTION_QUERY_RADAR_OUITPUT_INFORMATION_SWITCH)
    (hk : k ≤ 10) :
    idle_loops k s
      = { s with sent := s.sent
                    ++ (spec_custom_sweep.take k).map (fun p => query_frame p.1 p.2)
                 sg_start_query_data := (k : Int) + 14 } :=
  idle_loops_custom s hf hc k hk

/-- Witness of C13: the full sweep of 10 calls from the initial state with
the dialect set to Custom and the cursor at the first Custom slot. -/
theorem C13_custom_sweep_order_witness :
    (idle_loops 10 { initState 4 10 10 with
        s_output_info_switch_flag := OUTPUT_SWTICH_ON
        sg_start_query_data := CUSTOM_FUNCTION_QUERY_RADAR_OUITPUT_INFORMATION_SWITCH }).sent
      = [[0x53, 0x59, 0x08, 0x80, 0x00, 0x01, 0x0F, 0x44, 0x54, 0x43],
         [0x53, 0x59, 0x08, 0x83, 0x00, 0x01, 0x0F, 0x47, 0x54, 0x43],
         [0x53, 0x59, 0x08, 0x88, 0x00, 0x01, 0x0F, 0x4C, 0x54, 0x43],
         [0x53, 0x59, 0x08, 0x89, 0x00, 0x01, 0x0F, 0x4D, 0x54, 0x43],
         [0x53, 0x59, 0x08, 0x8A, 0x00, 0x01, 0x0F, 0x4E, 0x54, 0x43],
         [0x53, 0x59, 0x08, 0x8B, 0x00, 0x01, 0x0F, 0x4F, 0x54, 0x43],
         [0x53, 0x59, 0x08, 0x8C, 0x00, 0x01, 0x0F, 0x50, 0x54, 0x43],
         [0x53, 0x59, 0x08, 0x8D, 0x00, 0x01, 0x0F, 0x51, 0x54, 0x43],
         [0x53, 0x59, 0x08, 0x8E, 0x00, 0x01, 0x0F, 0x52, 0x54, 0x43],
         [0x53, 0x59, 0x01, 0x01, 0x00, 0x01, 0x0F, 0xBE, 0x54, 0x43]] := by
  rw [C13_custom_sweep_order _ 10 rfl rfl (by decide)]
  decide

/-- A query frame is the wire frame with its control and command word, the
one-byte payload 0x0F and the frame sum as checksum. -/
theorem query_frame_eq_frame_bytes (c k : Nat) :
    query_frame c k = frame_bytes c k 0 1 [0x0F] (frame_sum c k 0 1 [0x0F]) := by
  simp [query_frame, frame_bytes, frame_sum, FRAME_HEADER1_VALUE, FRAME_HEADER2_VALUE,
    FRAME_TAIL1_VALUE, FRAME_TAIL2_VALUE]
  omega

/-- The checksum `get_frame_crc_sum` computes on a query template. -/
theorem query_template_crc (c k : Nat) :
    get_frame_crc_sum [0x53, 0x59, c, k, 0x00, 0x01, 0x0F, 0x00, 0x54, 0x43] 10
      = (0xBC + c + k) % 256 := by
  rw [crc_sum_eq _ _ (by simp)]
  simp only [Nat.reduceSub, List.take_succ_cons, List.take_zero, List.sum_cons, List.sum_nil]
  omega

/-- Counterexample to C14 as stated: after `setup`, a dispatched switch reply
with payload 0x00 (`53 59 08 80 00 01 00 35 54 43`) and an `update`, the
dialect is Standard and the cursor is 0; 14 idle `loop` calls send the 14
Standard queries and leave the cursor at 14; further idle `loop` calls neither
wrap the cursor to 0 nor send anything again. -/
theorem C14_cursor_does_not_wrap_in_loop :
    (update (feed (setup (initState 4 10 10))
        [0x53, 0x59, 0x08, 0x80, 0x00, 0x01, 0x00, 0x35, 0x54, 0x43])).s_output_info_switch_flag
        = OUTPUT_SWTICH_OFF
      ∧ (idle_loops 14 (update (feed (setup (initState 4 10 10))
          [0x53, 0x59, 0x08, 0x80, 0x00, 0x01, 0x00, 0x35, 0x54, 0x43]))).sg_start_query_data
        = 14
      ∧ (idle_loops 14 (update (feed (setup (initState 4 10 10))
          [0x53, 0x59, 0x08, 0x80, 0x00, 0x01, 0x00, 0x35, 0x54, 0x43]))).sent.length = 14
      ∧ (idle_loops 15 (update (feed (setup (initState 4 10 10))
          [0x53, 0x59, 0x08, 0x80, 0x00, 0x01, 0x00, 0x35, 0x54, 0x43]))).sg_start_query_data
        = 14
      ∧ (idle_loops 30 (update (feed (setup (initState 4 10 10))
          [0x53, 0x59, 0x08, 0x80, 0x00, 0x01, 0x00, 0x35, 0x54, 0x43]))).sg_start_query_data
        ≠ STANDARD_FUNCTION_QUERY_PRODUCT_MODE
      ∧ (idle_loops 30 (update (feed (setup (initState 4 10 10))
          [0x53, 0x59, 0x08, 0x80, 0x00, 0x01, 0x00, 0x35, 0x54, 0x43]))).sent.length = 14 := by
  decide

/-- C14, amended. Once the cursor has passed the terminal heartbeat slot
(`STANDARD_FUNCTION_MAX + 1` in the Standard dialect, `CUSTOM_FUNCTION_MAX + 1`
in the Custom dialect), `loop` calls with no incoming bytes send nothing and
leave the cursor there; the next `update` sends nothing and resets the cursor
to the first slot of the active range (0, resp.
`CUSTOM_FUNCTION_QUERY_RADAR_OUITPUT_INFORMATION_SWITCH`), after which the
`loop` calls sweep the query list again from its start. -/
theorem C14_cursor_restarts_on_update (s : State) (n : Nat)
    (hinit : s.sg_init_flag = true)
    (hpast : (s.s_output_info_switch_flag = OUTPUT_SWTICH_OFF
          ∧ s.sg_start_query_data = STANDARD_FUNCTION_MAX + 1)
        ∨ (s.s_output_info_switch_flag = OUTPUT_SWTICH_ON
          ∧ s.sg_start_query_data = CUSTOM_FUNCTION_MAX + 1)) :
    idle_loops n s = s
      ∧ (update s).sent = s.sent
      ∧ (s.s_output_info_switch_flag = OUTPUT_SWTICH_OFF →
          (update s).sg_start_query_data = STANDARD_FUNCTION_QUERY_PRODUCT_MODE
            ∧ ∀ k, k ≤ 14 → (idle_loops k (update s)).sent
                = s.sent ++ (spec_standard_sweep.take k).map (fun p => query_frame p.1 p.2))
      ∧ (s.s_output_info_switch_flag = OUTPUT_SWTICH_ON →
          (update s).sg_start_query_data
              = CUSTOM_FUNCTION_QUERY_RADAR_OUITPUT_INFORMATION_SWITCH
            ∧ ∀ k, k ≤ 10 → (idle_loops k (update s)).sent
                = s.sent ++ (spec_custom_sweep.take k).map (fun p => query_frame p.1 p.2)) := by
  obtain ⟨h1, h2, _, _, h5, h6⟩ := update_sched s hinit
  have hloop : loop s [] = s := by
    show loop_custom (loop_standard (loop_probe s)) = s
    rcases hpast with ⟨hf, hc⟩ | ⟨hf, hc⟩
    · rw [loop_probe_skip_flag s (by rw [hf]; decide),
        loop_standard_skip_cursor s (by rw [hc]; decide),
        loop_custom_skip_flag s (by rw [hf]; decide)]
    · rw [loop_probe_skip_flag s (by rw [hf]; decide),
        loop_standard_skip_flag s (by rw [hf]; decide),
        loop_custom_skip_cursor s (by rw [hc]; decide)]
  refine ⟨idle_loops_fixed s hloop n, h1, fun hf => ⟨h5 hf, fun k hk => ?_⟩,
    fun hf => ⟨h6 hf, fun k hk => ?_⟩⟩
  · rw [idle_loops_standard (update s) (by rw [h2, hf]) (h5 hf) k hk]
    show (update s).sent ++ _ = _
    rw [h1]
  · rw [idle_loops_custom (update s) (by rw [h2, hf]) (h6 hf) k hk]
    show (update s).sent ++ _ = _
    rw [h1]

/-- Witness of C14 (amended): the set-up state in the Standard dialect with
the cursor one past `STANDARD_FUNCTION_MAX`, and five idle `loop` calls. -/
theorem C14_cursor_restarts_on_update_witness :
    ({ setup (initState 4 10 10) with
        s_output_info_switch_flag := OUTPUT_SWTICH_OFF
        sg_start_query_data := STANDARD_FUNCTION_MAX + 1 } : State).sg_init_flag = true
      ∧ idle_loops 5 { setup (initState 4 10 10) with
          s_output_info_switch_flag := OUTPUT_SWTICH_OFF
          sg_start_query_data := STANDARD_FUNCTION_MAX + 1 }
        = { setup (initState 4 10 10) with
          s_output_info_switch_flag := OUTPUT_SWTICH_OFF
          sg_start_query_data := STANDARD_FUNCTION_MAX + 1 } :=
  ⟨rfl,
    (C14_cursor_restarts_on_update
      { setup (initState 4 10 10) with
        s_output_info_switch_flag := OUTPUT_SWTICH_OFF
        sg_start_query_data := STANDARD_FUNCTION_MAX + 1 } 5 rfl (Or.inl ⟨rfl, rfl⟩)).1⟩

/-- C15. Every query builder transmits exactly the 10 bytes
`53 59 c s 00 01 0F k 54 43` (one `send_query` call, nothing else changes),
where `(c, s)` is the builder's control and command word and
`k = (0xBC + c + s) mod 256`, which is the value `get_frame_crc_sum` returns on
the template and is stored at offset 7; and every pair of the outbound query
table has a builder that sends it. -/
theorem C15_query_builder_bytes (b : (State → State) × Nat × Nat) (hb : b ∈ query_builders)
    (s : State) :
    b.1 s = { s with sent := s.sent
                ++ [[0x53, 0x59, b.2.1, b.2.2, 0x00, 0x01, 0x0F, (0xBC + b.2.1 + b.2.2) % 256,
                      0x54, 0x43]] }
      ∧ (0xBC + b.2.1 + b.2.2) % 256
        = get_frame_crc_sum [0x53, 0x59, b.2.1, b.2.2, 0x00, 0x01, 0x0F, 0x00, 0x54, 0x43] 10
      ∧ ∀ p ∈ spec_outbound_query_table, ∃ q ∈ query_builders, (q.2.1, q.2.2) = p := by
  refine ⟨query_builders_send b hb s, (query_template_crc b.2.1 b.2.2).symm, ?_⟩
  intro p hp
  simp only [spec_outbound_query_table, List.mem_cons, List.mem_singleton, List.not_mem_nil,
    or_false] at hp
  rcases hp with h | h | h | h | h | h | h | h | h | h | h | h | h | h | h | h | h | h | h | h
    | h | h <;> subst h
  · exact ⟨(get_heartbeat_packet, 0x01, 0x01), by simp [query_builders], rfl⟩
  · exact ⟨(get_product_mode, 0x02, 0xA1), by simp [query_builders], rfl⟩
  · exact ⟨(get_product_id, 0x02, 0xA2), by simp [query_builders], rfl⟩
  · exact ⟨(get_hardware_model, 0x02, 0xA3), by simp [query_builders], rfl⟩
  · exact ⟨(get_firmware_version, 0x02, 0xA4), by simp [query_builders], rfl⟩
  · exact ⟨(get_protocol_type, 0x02, 0xA5), by simp [query_builders], rfl⟩
  · exact ⟨(get_radar_init_status, 0x05, 0x81), by simp [query_builders], rfl⟩
  · exact ⟨(get_scene_mode, 0x05, 0x87), by simp [query_builders], rfl⟩
  · exact ⟨(get_sensitivity, 0x05, 0x88), by simp [query_builders], rfl⟩
  · exact ⟨(get_movingTargetDetectionMaxDistance, 0x07, 0x81), by simp [query_builders], rfl⟩
  · exact ⟨(get_staticTargetDetectionMaxDistance, 0x07, 0x84), by simp [query_builders], rfl⟩
  · exact ⟨(get_human_status, 0x80, 0x81), by simp [query_builders], rfl⟩
  · exact ⟨(get_unmanned_time, 0x80, 0x8A), by simp [query_builders], rfl⟩
  · exact ⟨(get_radar_output_information_switch, 0x08, 0x80), by simp [query_builders], rfl⟩
  · exact ⟨(get_presence_of_detection_range, 0x08, 0x83), by simp [query_builders], rfl⟩
  · exact ⟨(get_judgment_threshold_exists, 0x08, 0x88), by simp [query_builders], rfl⟩
  · exact ⟨(get_motion_amplitude_trigger_threshold, 0x08, 0x89), by simp [query_builders],
      rfl⟩
  · exact ⟨(get_presence_of_perception_boundary, 0x08, 0x8A), by simp [query_builders], rfl⟩
  · exact ⟨(get_motion_trigger_boundary, 0x08, 0x8B), by simp [query_builders], rfl⟩
  · exact ⟨(get_motion_trigger_time, 0x08, 0x8C), by simp [query_builders], rfl⟩
  · exact ⟨(get_movement_to_rest_time, 0x08, 0x8D), by simp [query_builders], rfl⟩
  · exact ⟨(get_time_of_enter_unmanned, 0x08, 0x8E), by simp [query_builders], rfl⟩

/-- Witness of C15: `get_product_mode` on the initial state. -/
theorem C15_query_builder_bytes_witness :
    (get_product_mode, 0x02, 0xA1) ∈ query_builders
      ∧ get_product_mode (initState 4 10 10)
        = { initState 4 10 10 with
            sent := [[0x53, 0x59, 0x02, 0xA1, 0x00, 0x01, 0x0F, 0x5F, 0x54, 0x43]] } :=
  ⟨by simp [query_builders],
    (C15_query_builder_bytes (get_product_mode, 0x02, 0xA1) (by simp [query_builders])
      (initState 4 10 10)).1⟩

/-- C16. Encoder/decoder agreement: the frame a query builder sends passes
`get_frame_check_status`, is the wire frame with the builder's control and
command word, length 1 and payload `0F`, and fed byte by byte to
`R24_split_data_frame` from `FRAME_IDLE` is dispatched exactly once, byte for
byte, leaving the decoder in `FRAME_IDLE`. -/
theorem C16_builder_frame_roundtrip (b : (State → State) × Nat × Nat)
    (hb : b ∈ query_builders) (s0 s : State) (frame : List Nat)
    (hsent : (b.1 s0).sent = s0.sent ++ [frame])
    (hidle : s.sg_recv_data_state = FRAME_IDLE)
    (hbuf : s.sg_frame_buf.length = FRAME_BUF_MAX_SIZE) :
    get_frame_check_status frame 10 = 1
      ∧ frame = frame_bytes b.2.1 b.2.2 0 1 [0x0F] (frame_sum b.2.1 b.2.2 0 1 [0x0F])
      ∧ (feed s frame).dispatched = s.dispatched ++ [frame]
      ∧ (feed s frame).sg_recv_data_state = FRAME_IDLE := by
  have h1 := query_builders_send b hb s0
  rw [h1] at hsent
  have h2 : frame = query_frame b.2.1 b.2.2 := by
    have h3 : [query_frame b.2.1 b.2.2] = [frame] := List.append_cancel_left hsent
    exact (List.cons.inj h3).1.symm
  have h4 := query_frame_eq_frame_bytes b.2.1 b.2.2
  rw [h2, h4]
  have h5 := check_status_frame b.2.1 b.2.2 0 1 [0x0F] (frame_sum b.2.1 b.2.2 0 1 [0x0F]) []
  rw [List.append_nil, frame_bytes_length, if_pos rfl] at h5
  have h6 := feed_valid_frame s b.2.1 b.2.2 [0x0F] hidle hbuf (by decide) (by decide)
  exact ⟨h5, rfl, h6.1, h6.2⟩

/-- Witness of C16: the heartbeat query sent from the initial state and fed
back to the initial decoder. -/
theorem C16_builder_frame_roundtrip_witness :
    (get_heartbeat_packet (initState 4 10 10)).sent
        = (initState 4 10 10).sent
          ++ [[0x53, 0x59, 0x01, 0x01, 0x00, 0x01, 0x0F, 0xBE, 0x54, 0x43]]
      ∧ (feed (initState 4 10 10)
          [0x53, 0x59, 0x01, 0x01, 0x00, 0x01, 0x0F, 0xBE, 0x54, 0x43]).dispatched
        = (initState 4 10 10).dispatched
          ++ [[0x53, 0x59, 0x01, 0x01, 0x00, 0x01, 0x0F, 0xBE, 0x54, 0x43]] :=
  ⟨rfl,
    (C16_builder_frame_roundtrip (get_heartbeat_packet, 0x01, 0x01)
      (by simp [query_builders]) (initState 4 10 10) (initState 4 10 10)
      [0x53, 0x59, 0x01, 0x01, 0x00, 0x01, 0x0F, 0xBE, 0x54, 0x43] rfl rfl
      (by simp [initState, FRAME_BUF_MAX_SIZE])).2.2.1⟩

/-! ## The dispatcher claims -/

theorem parse_product (s : State) (data : List Nat) (len : Nat)
    (hc : rd data FRAME_CONTROL_WORD_INDEX = 0x02) :
    R24_parse_data_frame s data len
      = R24_frame_parse_product_Information
          { s with dispatched := s.dispatched ++ [data.take len] } data := by
  unfold R24_parse_data_frame parse_control_word
  rw [if_neg (by rw [hc]; decide), if_pos hc]

theorem parse_work_status (s : State) (data : List Nat) (len : Nat)
    (hc : rd data FRAME_CONTROL_WORD_INDEX = 0x05) :
    R24_parse_data_frame s data len
      = R24_frame_parse_work_status
          { s with dispatched := s.dispatched ++ [data.take len] } data := by
  unfold R24_parse_data_frame parse_control_word
  rw [if_neg (by rw [hc]; decide), if_neg (by rw [hc]; decide), if_pos hc]

theorem takeWhile_append_stop (p : Nat → Bool) (x : Nat) (hx : p x = false) (Y : List Nat) :
    ∀ A : List Nat, (A ++ x :: Y).takeWhile p = A.takeWhile p := by
  intro A
  induction A with
  | nil => simp [List.takeWhile, hx]
  | cons a A ih =>
    simp only [List.cons_append, List.takeWhile_cons]
    split
    · rw [ih]
    · rfl

/-- The C string left in a product member by a reply whose length byte is
below 32 is the reply string. -/
theorem c_str_product_copy (member data : List Nat) (h : product_len data < 32) :
    c_str (product_copy member data)
      = c_str ((data.drop FRAME_DATA_INDEX).take (product_len data)) := by
  unfold product_copy memcpy memset0 c_str
  have h1 : (List.replicate PRODUCT_BUF_MAX_SIZE 0 ++ List.drop PRODUCT_BUF_MAX_SIZE member).drop
      (product_len data)
      = 0 :: (List.replicate (31 - product_len data) 0 ++ List.drop 32 member) := by
    have h2 : PRODUCT_BUF_MAX_SIZE = product_len data + (1 + (31 - product_len data)) := by
      simp only [PRODUCT_BUF_MAX_SIZE]; omega
    rw [List.drop_append_of_le_length (by simp [PRODUCT_BUF_MAX_SIZE]; omega)]
    conv_lhs => rw [h2, List.replicate_add, List.drop_left' (by simp)]
    simp [List.replicate_add, PRODUCT_BUF_MAX_SIZE]
    congr 1
    omega
  rw [h1]
  exact takeWhile_append_stop _ 0 rfl _ _

/-- With length-high byte 0 the `uint8_t product_len` is the length-low
byte. -/
theorem product_len_low (data : List Nat)
    (h4 : rd data (FRAME_COMMAND_WORD_INDEX + 1) = 0)
    (h5 : rd data (FRAME_COMMAND_WORD_INDEX + 2) < 256) :
    product_len data = rd data (FRAME_COMMAND_WORD_INDEX + 2) := by
  unfold product_len
  rw [h4]
  omega

/-- Counterexample to C17 as stated: the validated product-model reply
`53 59 02 A1 00 20`, 32 bytes `41`, checksum, `54 43` declares the length 32,
which does not exceed the 32-byte cap; it is dispatched and nothing is
published, while the same reply with 31 bytes is published. -/
theorem C17_length_32_not_published :
    (feed (initState 4 10 10) (frame_bytes 0x02 0xA1 0 32 (List.replicate 32 0x41)
        (frame_sum 0x02 0xA1 0 32 (List.replicate 32 0x41)))).dispatched
        = [frame_bytes 0x02 0xA1 0 32 (List.replicate 32 0x41)
            (frame_sum 0x02 0xA1 0 32 (List.replicate 32 0x41))]
      ∧ (feed (initState 4 10 10) (frame_bytes 0x02 0xA1 0 32 (List.replicate 32 0x41)
        (frame_sum 0x02 0xA1 0 32 (List.replicate 32 0x41)))).published = []
      ∧ (feed (initState 4 10 10) (frame_bytes 0x02 0xA1 0 31 (List.replicate 31 0x41)
        (frame_sum 0x02 0xA1 0 31 (List.replicate 31 0x41)))).published
        = [(Sink.product_mode, Value.cstr (List.replicate 31 0x41))] := by
  decide

/-- C17, amended. Product-info string cap: for the product commands
0xA1..0xA4 and a reply whose declared length is its length-low byte (length-high
byte 0), the reply string is published to the command's sink if and only if
the declared length is below 32 (at most 31); a reply whose declared length is
32 or more is not published and leaves the stored product strings, and all
other state, unchanged. -/
theorem C17_product_string_cap (s : State) (data : List Nat) (len : Nat)
    (hc : rd data FRAME_CONTROL_WORD_INDEX = 0x02)
    (h4 : rd data (FRAME_COMMAND_WORD_INDEX + 1) = 0)
    (h5 : rd data (FRAME_COMMAND_WORD_INDEX + 2) < 256) :
    (rd data (FRAME_COMMAND_WORD_INDEX + 2) < 32 →
        (rd data FRAME_COMMAND_WORD_INDEX = 0xA1 →
          (R24_parse_data_frame s data len).published
            = s.published ++ [(Sink.product_mode, Value.cstr (product_reply_string data))])
        ∧ (rd data FRAME_COMMAND_WORD_INDEX = 0xA2 →
          (R24_parse_data_frame s data len).published
            = s.published ++ [(Sink.product_id, Value.cstr (product_reply_string data))])
        ∧ (rd data FRAME_COMMAND_WORD_INDEX = 0xA3 →
          (R24_parse_data_frame s data len).published
            = s.published ++ [(Sink.hardware_model, Value.cstr (product_reply_string data))])
        ∧ (rd data FRAME_COMMAND_WORD_INDEX = 0xA4 →
          (R24_parse_data_frame s data len).published
            = s.published
              ++ [(Sink.firmware_version, Value.cstr (product_reply_string data))]))
      ∧ (32 ≤ rd data (FRAME_COMMAND_WORD_INDEX + 2) →
          (rd data FRAME_COMMAND_WORD_INDEX = 0xA1 ∨ rd data FRAME_COMMAND_WORD_INDEX = 0xA2
            ∨ rd data FRAME_COMMAND_WORD_INDEX = 0xA3
            ∨ rd data FRAME_COMMAND_WORD_INDEX = 0xA4) →
          R24_parse_data_frame s data len
            = { s with dispatched := s.dispatched ++ [data.take len] }) := by
  have hpl := product_len_low data h4 h5
  rw [parse_product s data len hc]
  unfold R24_frame_parse_product_Information
  refine ⟨fun hlt => ⟨fun h => ?_, fun h => ?_, fun h => ?_, fun h => ?_⟩, fun hge h => ?_⟩
  · have hl : product_len data < PRODUCT_BUF_MAX_SIZE := by
      rw [hpl]; simpa [PRODUCT_BUF_MAX_SIZE] using hlt
    rw [if_pos h, if_pos hl]
    simp only [publish]
    rw [c_str_product_copy _ _ hl, hpl]
    rfl
  · have hl : product_len data < PRODUCT_BUF_MAX_SIZE := by
      rw [hpl]; simpa [PRODUCT_BUF_MAX_SIZE] using hlt
    rw [if_neg (by rw [h]; decide), if_pos h, if_pos hl]
    simp only [publish]
    rw [c_str_product_copy _ _ hl, hpl]
    rfl
  · have hl : product_len data < PRODUCT_BUF_MAX_SIZE := by
      rw [hpl]; simpa [PRODUCT_BUF_MAX_SIZE] using hlt
    rw [if_neg (by rw [h]; decide), if_neg (by rw [h]; decide), if_pos h, if_pos hl]
    simp only [publish]
    rw [c_str_product_copy _ _ hl, hpl]
    rfl
  · have hl : product_len data < PRODUCT_BUF_MAX_SIZE := by
      rw [hpl]; simpa [PRODUCT_BUF_MAX_SIZE] using hlt
    rw [if_neg (by rw [h]; decide), if_neg (by rw [h]; decide), if_neg (by rw [h]; decide),
      if_pos h, if_pos hl]
    simp only [publish]
    rw [c_str_product_copy _ _ hl, hpl]
    rfl
  · have hl : ¬ product_len data < PRODUCT_BUF_MAX_SIZE := by
      rw [hpl]; simpa [PRODUCT_BUF_MAX_SIZE] using hge
    rcases h with h | h | h | h
    · rw [if_pos h, if_neg hl]
    · rw [if_neg (by rw [h]; decide), if_pos h, if_neg hl]
    · rw [if_neg (by rw [h]; decide), if_neg (by rw [h]; decide), if_pos h, if_neg hl]
    · rw [if_neg (by rw [h]; decide), if_neg (by rw [h]; decide), if_neg (by rw [h]; decide),
        if_pos h, if_neg hl]

/-- Witness of C17 (amended): the product-model reply carrying "R24" with its
length byte 3, dispatched from the initial state. -/
theorem C17_product_string_cap_witness :
    rd [0x53, 0x59, 0x02, 0xA1, 0x00, 0x03, 0x52, 0x32, 0x34, 0x0A, 0x54, 0x43]
        (FRAME_COMMAND_WORD_INDEX + 2) < 32
      ∧ (R24_parse_data_frame (initState 4 10 10)
          [0x53, 0x59, 0x02, 0xA1, 0x00, 0x03, 0x52, 0x32, 0x34, 0x0A, 0x54, 0x43] 12).published
        = (initState 4 10 10).published ++ [(Sink.product_mode,
            Value.cstr (product_reply_string
              [0x53, 0x59, 0x02, 0xA1, 0x00, 0x03, 0x52, 0x32, 0x34, 0x0A, 0x54, 0x43]))] :=
  ⟨by decide,
    ((C17_product_string_cap (initState 4 10 10)
      [0x53, 0x59, 0x02, 0xA1, 0x00, 0x03, 0x52, 0x32, 0x34, 0x0A, 0x54, 0x43] 12
      (by decide) (by decide) (by decide)).1 (by decide)).1 (by decide)⟩

/-- The scene branches (WorkStatus commands 0x07 and 0x87) of
`R24_frame_parse_work_status`. -/
theorem work_status_scene (s : State) (data : List Nat)
    (hs : rd data FRAME_COMMAND_WORD_INDEX = 0x07 ∨ rd data FRAME_COMMAND_WORD_INDEX = 0x87) :
    R24_frame_parse_work_status s data
      = if has_index s.scene_mode_size ((rd data FRAME_DATA_INDEX : Int) - 1) then
          publish s Sink.scene_mode
            (table_entry s_scene_str ((rd data FRAME_DATA_INDEX : Int) - 1).toNat)
        else s := by
  unfold R24_frame_parse_work_status
  rcases hs with h | h
  · rw [if_neg (by rw [h]; decide), if_pos h]
  · rw [if_neg (by rw [h]; decide), if_neg (by rw [h]; decide), if_neg (by rw [h]; decide),
      if_neg (by rw [h]; decide), if_pos h]

/-- The init-status branches (WorkStatus commands 0x01 and 0x81) of
`R24_frame_parse_work_status`. -/
theorem work_status_inited (s : State) (data : List Nat)
    (hs : rd data FRAME_COMMAND_WORD_INDEX = 0x01 ∨ rd data FRAME_COMMAND_WORD_INDEX = 0x81) :
    R24_frame_parse_work_status s data
      = publish s Sink.inited (Value.num (rd data FRAME_DATA_INDEX)) := by
  unfold R24_frame_parse_work_status
  rcases hs with h | h
  · rw [if_pos h]
  · rw [if_neg (by rw [h]; decide), if_neg (by rw [h]; decide), if_neg (by rw [h]; decide),
      if_pos h]

/-- C18. Scene decode: for WorkStatus (control 0x05) commands 0x07 and 0x87
and a scene select with exactly 4 options, dispatching the frame publishes the
scene name `s_scene_str[b-1]` (one publish to the scene sink) when payload byte
`b` satisfies `1 <= b <= 4`, and publishes nothing (and changes nothing but
the dispatch log) when `b = 0` or `b > 4`. -/
theorem C18_scene_decode (s : State) (data : List Nat) (len : Nat)
    (hsize : s.scene_mode_size = 4)
    (hc : rd data FRAME_CONTROL_WORD_INDEX = 0x05)
    (hs : rd data FRAME_COMMAND_WORD_INDEX = 0x07 ∨ rd data FRAME_COMMAND_WORD_INDEX = 0x87) :
    (1 ≤ rd data FRAME_DATA_INDEX ∧ rd data FRAME_DATA_INDEX ≤ 4 →
        ∃ name, s_scene_str[rd data FRAME_DATA_INDEX - 1]? = some name
          ∧ (R24_parse_data_frame s data len).published
            = s.published ++ [(Sink.scene_mode, Value.text name)])
      ∧ (rd data FRAME_DATA_INDEX = 0 ∨ 4 < rd data FRAME_DATA_INDEX →
          R24_parse_data_frame s data len
            = { s with dispatched := s.dispatched ++ [data.take len] }) := by
  rw [parse_work_status s data len hc, work_status_scene _ _ hs]
  constructor
  · rintro ⟨h1, h4⟩
    have hidx : has_index s.scene_mode_size ((rd data FRAME_DATA_INDEX : Int) - 1) = true := by
      simp only [has_index, hsize, decide_eq_true_eq]
      omega
    have hnat : ((rd data FRAME_DATA_INDEX : Int) - 1).toNat = rd data FRAME_DATA_INDEX - 1 := by
      omega
    rw [if_pos (by exact hidx), hnat]
    generalize rd data FRAME_DATA_INDEX = b at h1 h4
    interval_cases b
    · exact ⟨"Living room", rfl, rfl⟩
    · exact ⟨"Area detection", rfl, rfl⟩
    · exact ⟨"Washroom", rfl, rfl⟩
    · exact ⟨"Bedroom", rfl, rfl⟩
  · intro h
    have hidx : ¬ has_index s.scene_mode_size ((rd data FRAME_DATA_INDEX : Int) - 1) = true := by
      simp only [has_index, hsize, decide_eq_true_eq]
      omega
    rw [if_neg hidx]

/-- Witness of C18: the scenario of the specification, WorkStatus 0x07 with
payload byte 0x05, dispatched from the initial state with a 4-option scene
select. -/
theorem C18_scene_decode_witness :
    (initState 4 10 10).scene_mode_size = 4
      ∧ R24_parse_data_frame (initState 4 10 10)
          [0x53, 0x59, 0x05, 0x07, 0x00, 0x01, 0x05, 0xBE, 0x54, 0x43] 10
        = { initState 4 10 10 with
            dispatched := (initState 4 10 10).dispatched
              ++ [[0x53, 0x59, 0x05, 0x07, 0x00, 0x01, 0x05, 0xBE, 0x54, 0x43].take 10] } :=
  ⟨rfl,
    (C18_scene_decode (initState 4 10 10)
      [0x53, 0x59, 0x05, 0x07, 0x00, 0x01, 0x05, 0xBE, 0x54, 0x43] 10 rfl (by decide)
      (Or.inl (by decide))).2 (Or.inr (by decide))⟩

/-- Counterexample to C19 as stated: the validated WorkStatus frames with
command 0x01 and payload 2 (`53 59 05 01 00 01 02 B5 54 43`) and payload 5
(`53 59 05 01 00 01 05 B8 54 43`) publish the raw byte to the init-status
sink: no scene name for index 2, and a publish where index 5 should give
none. -/
theorem C19_command_01_publishes_init_status :
    (feed (initState 4 10 10)
        [0x53, 0x59, 0x05, 0x01, 0x00, 0x01, 0x02, 0xB5, 0x54, 0x43]).published
        = [(Sink.inited, Value.num 2)]
      ∧ (feed (initState 4 10 10)
        [0x53, 0x59, 0x05, 0x07, 0x00, 0x01, 0x02, 0xBB, 0x54, 0x43]).published
        = [(Sink.scene_mode, Value.text "Area detection")]
      ∧ (feed (initState 4 10 10)
        [0x53, 0x59, 0x05, 0x01, 0x00, 0x01, 0x05, 0xB8, 0x54, 0x43]).published
        = [(Sink.inited, Value.num 5)] := by
  decide

/-- C19, amended. WorkStatus command 0x01 is decoded as an init-status
report: dispatching a frame with control 0x05 and command 0x01 publishes
payload byte 0 to the init-status sink for every byte value, exactly as
command 0x81 does, and changes nothing else but the dispatch log. -/
theorem C19_command_01_is_init_status (s : State) (data : List Nat) (len : Nat)
    (hc : rd data FRAME_CONTROL_WORD_INDEX = 0x05)
    (hs : rd data FRAME_COMMAND_WORD_INDEX = 0x01 ∨ rd data FRAME_COMMAND_WORD_INDEX = 0x81) :
    R24_parse_data_frame s data len
      = { s with dispatched := s.dispatched ++ [data.take len]
                 published := s.published
                   ++ [(Sink.inited, Value.num (rd data FRAME_DATA_INDEX))] } := by
  rw [parse_work_status s data len hc, work_status_inited _ _ hs]
  rfl

/-- Witness of C19 (amended): WorkStatus command 0x01 with payload 2
dispatched from the initial state. -/
theorem C19_command_01_is_init_status_witness :
    rd [0x53, 0x59, 0x05, 0x01, 0x00, 0x01, 0x02, 0xB5, 0x54, 0x43] FRAME_COMMAND_WORD_INDEX
        = 0x01
      ∧ (R24_parse_data_frame (initState 4 10 10)
          [0x53, 0x59, 0x05, 0x01, 0x00, 0x01, 0x02, 0xB5, 0x54, 0x43] 10).published
        = [(Sink.inited, Value.num 2)] :=
  ⟨by decide, by
    rw [C19_command_01_is_init_status (initState 4 10 10)
      [0x53, 0x59, 0x05, 0x01, 0x00, 0x01, 0x02, 0xB5, 0x54, 0x43] 10 (by decide)
      (Or.inl (by decide))]
    rfl⟩

/-- C20 (table safety), evaluated at two validated frames: the Human
presence report `53 59 80 01 00 01 02 30 54 43` (payload 2) makes the decoder
read `s_someoneExists_str[2]`, outside the 2-entry table, and publish it; the
OpenInfo presence-distance reply `53 59 08 83 00 01 07 3F 54 43` (payload 7)
makes it read `s_presence_of_detection_range_str[7]`, outside the 7-entry
table, and publish it. The sibling branches of command 0x02 and 0x0B skip the
publish for the same out-of-range byte. -/
theorem C20_unchecked_table_index :
    (feed (initState 4 10 10)
        [0x53, 0x59, 0x80, 0x01, 0x00, 0x01, 0x02, 0x30, 0x54, 0x43]).dispatched
        = [[0x53, 0x59, 0x80, 0x01, 0x00, 0x01, 0x02, 0x30, 0x54, 0x43]]
      ∧ (feed (initState 4 10 10)
        [0x53, 0x59, 0x80, 0x01, 0x00, 0x01, 0x02, 0x30, 0x54, 0x43]).published
        = [(Sink.someoneExists, Value.outside 2)]
      ∧ s_someoneExists_str.length = 2
      ∧ (feed (initState 4 10 10)
        [0x53, 0x59, 0x08, 0x83, 0x00, 0x01, 0x07, 0x3F, 0x54, 0x43]).published
        = [(Sink.custom_presence_of_detection, Value.outside 7)]
      ∧ s_presence_of_detection_range_str.length = 7
      ∧ (feed (initState 4 10 10)
        [0x53, 0x59, 0x80, 0x02, 0x00, 0x01, 0x03, 0x32, 0x54, 0x43]).published = []
      ∧ (feed (initState 4 10 10)
        [0x53, 0x59, 0x80, 0x0B, 0x00, 0x01, 0x03, 0x3B, 0x54, 0x43]).dispatched
        = [[0x53, 0x59, 0x80, 0x0B, 0x00, 0x01, 0x03, 0x3B, 0x54, 0x43]]
      ∧ (feed (initState 4 10 10)
        [0x53, 0x59, 0x80, 0x0B, 0x00, 0x01, 0x03, 0x3B, 0x54, 0x43]).published = [] := by
  decide

/-! ## Branch selection lemmas -/

theorem work_status_cmd_01 (s : State) (data : List Nat)
    (h : rd data FRAME_COMMAND_WORD_INDEX = 0x01) :
    R24_frame_parse_work_status s data =
    publish s Sink.inited (Value.num (rd data FRAME_DATA_INDEX)) := by
  unfold R24_frame_parse_work_status
  rw [if_pos h]

theorem work_status_cmd_07 (s : State) (data : List Nat)
    (h : rd data FRAME_COMMAND_WORD_INDEX = 0x07) :
    R24_frame_parse_work_status s data =
    if has_index s.scene_mode_size ((rd data FRAME_DATA_INDEX : Int) - 1) then
      publish s Sink.scene_mode
        (table_entry s_scene_str ((rd data FRAME_DATA_INDEX : Int) - 1).toNat)
    else s := by
  unfold R24_frame_parse_work_status
  rw [if_neg (by rw [h]; decide), if_pos h]

theorem work_status_cmd_08 (s : State) (data : List Nat)
    (h : rd data FRAME_COMMAND_WORD_INDEX = 0x08) :
    R24_frame_parse_work_status s data =
    publish s Sink.sensitivity (Value.num (rd data FRAME_DATA_INDEX)) := by
  unfold R24_frame_parse_work_status
  rw [if_neg (by rw [h]; decide), if_neg (by rw [h]; decide), if_pos h]

theorem work_status_cmd_81 (s : State) (data : List Nat)
    (h : rd data FRAME_COMMAND_WORD_INDEX = 0x81) :
    R24_frame_parse_work_status s data =
    publish s Sink.inited (Value.num (rd data FRAME_DATA_INDEX)) := by
  unfold R24_frame_parse_work_status
  rw [if_neg (by rw [h]; decide), if_neg (by rw [h]; decide), if_neg (by rw [h]; decide), if_pos h]

theorem work_status_cmd_87 (s : State) (data : List Nat)
    (h : rd data FRAME_COMMAND_WORD_INDEX = 0x87) :
    R24_frame_parse_work_status s data =
    if has_index s.scene_mode_size ((rd data FRAME_DATA_INDEX : Int) - 1) then
      publish s Sink.scene_mode
        (table_entry s_scene_str ((rd data FRAME_DATA_INDEX : Int) - 1).toNat)
    else s := by
  unfold R24_frame_parse_work_status
  rw [if_neg (by rw [h]; decide), if_neg (by rw [h]; decide), if_neg (by rw [h]; decide), if_neg (by rw [h]; decide), if_pos h]

theorem work_status_cmd_88 (s : State) (data : List Nat)
    (h : rd data FRAME_COMMAND_WORD_INDEX = 0x88) :
    R24_frame_parse_work_status s data =
    publish s Sink.sensitivity (Value.num (rd data FRAME_DATA_INDEX)) := by
  unfold R24_frame_parse_work_status
  rw [if_neg (by rw [h]; decide), if_neg (by rw [h]; decide), if_neg (by rw [h]; decide), if_neg (by rw [h]; decide), if_neg (by rw [h]; decide), if_pos h]

/-- A command word that no branch of `R24_frame_parse_work_status` tests leaves the state
unchanged. -/
theorem work_status_unhandled (s : State) (data : List Nat)
    (h : ∀ c ∈ [0x01, 0x07, 0x08, 0x81, 0x87, 0x88], rd data FRAME_COMMAND_WORD_INDEX ≠ c) :
    R24_frame_parse_work_status s data = s := by
  unfold R24_frame_parse_work_status
  rw [if_neg (h 0x01 (by decide)), if_neg (h 0x07 (by decide)), if_neg (h 0x08 (by decide)), if_neg (h 0x81 (by decide)), if_neg (h 0x87 (by decide)), if_neg (h 0x88 (by decide))]

theorem human_cmd_01 (s : State) (data : List Nat)
    (h : rd data FRAME_COMMAND_WORD_INDEX = 0x01) :
    R24_frame_parse_human_information s data =
    publish s Sink.someoneExists (table_entry s_someoneExists_str (rd data FRAME_DATA_INDEX)) := by
  unfold R24_frame_parse_human_information
  rw [if_pos h]

theorem human_cmd_02 (s : State) (data : List Nat)
    (h : rd data FRAME_COMMAND_WORD_INDEX = 0x02) :
    R24_frame_parse_human_information s data =
    if rd data FRAME_DATA_INDEX < 3 ∧ rd data FRAME_DATA_INDEX ≥ 0 then
      publish s Sink.motion_status (table_entry s_motion_status_str (rd data FRAME_DATA_INDEX))
    else s := by
  unfold R24_frame_parse_human_information
  rw [if_neg (by rw [h]; decide), if_pos h]

theorem human_cmd_03 (s : State) (data : List Nat)
    (h : rd data FRAME_COMMAND_WORD_INDEX = 0x03) :
    R24_frame_parse_human_information s data =
    movementSigns_report s data := by
  unfold R24_frame_parse_human_information
  rw [if_neg (by rw [h]; decide), if_neg (by rw [h]; decide), if_pos h]

theorem human_cmd_0A (s : State) (data : List Nat)
    (h : rd data FRAME_COMMAND_WORD_INDEX = 0x0A) :
    R24_frame_parse_human_information s data =
    if rd data FRAME_DATA_INDEX < 9 ∧ rd data FRAME_DATA_INDEX ≥ 0 then
      publish s Sink.unmanned_time (table_entry s_unmanned_time_str (rd data FRAME_DATA_INDEX))
    else s := by
  unfold R24_frame_parse_human_information
  rw [if_neg (by rw [h]; decide), if_neg (by rw [h]; decide), if_neg (by rw [h]; decide), if_pos h]

theorem human_cmd_0B (s : State) (data : List Nat)
    (h : rd data FRAME_COMMAND_WORD_INDEX = 0x0B) :
    R24_frame_parse_human_information s data =
    if rd data FRAME_DATA_INDEX < 3 ∧ rd data FRAME_DATA_INDEX ≥ 0 then
      publish s Sink.keep_away (table_entry s_keep_away_str (rd data FRAME_DATA_INDEX))
    else s := by
  unfold R24_frame_parse_human_information
  rw [if_neg (by rw [h]; decide), if_neg (by rw [h]; decide), if_neg (by rw [h]; decide), if_neg (by rw [h]; decide), if_pos h]

theorem human_cmd_81 (s : State) (data : List Nat)
    (h : rd data FRAME_COMMAND_WORD_INDEX = 0x81) :
    R24_frame_parse_human_information s data =
    publish s Sink.someoneExists (table_entry s_someoneExists_str (rd data FRAME_DATA_INDEX)) := by
  unfold R24_frame_parse_human_information
  rw [if_neg (by rw [h]; decide), if_neg (by rw [h]; decide), if_neg (by rw [h]; decide), if_neg (by rw [h]; decide), if_neg (by rw [h]; decide), if_pos h]

theorem human_cmd_82 (s : State) (data : List Nat)
    (h : rd data FRAME_COMMAND_WORD_INDEX = 0x82) :
    R24_frame_parse_human_information s data =
    if rd data FRAME_DATA_INDEX < 3 ∧ rd data FRAME_DATA_INDEX ≥ 0 then
      publish s Sink.motion_status (table_entry s_motion_status_str (rd data FRAME_DATA_INDEX))
    else s := by
  unfold R24_frame_parse_human_information
  rw [if_neg (by rw [h]; decide), if_neg (by rw [h]; decide), if_neg (by rw [h]; decide), if_neg (by rw [h]; decide), if_neg (by rw [h]; decide), if_neg (by rw [h]; decide), if_pos h]

theorem human_cmd_83 (s : State) (data : List Nat)
    (h : rd data FRAME_COMMAND_WORD_INDEX = 0x83) :
    R24_frame_parse_human_information s data =
    movementSigns_report s data := by
  unfold R24_frame_parse_human_information
  rw [if_neg (by rw [h]; decide), if_neg (by rw [h]; decide), if_neg (by rw [h]; decide), if_neg (by rw [h]; decide), if_neg (by rw [h]; decide), if_neg (by rw [h]; decide), if_neg (by rw [h]; decide), if_pos h]

theorem human_cmd_8A (s : State) (data : List Nat)
    (h : rd data FRAME_COMMAND_WORD_INDEX = 0x8A) :
    R24_frame_parse_human_information s data =
    if rd data FRAME_DATA_INDEX < 9 ∧ rd data FRAME_DATA_INDEX ≥ 0 then
      publish s Sink.unmanned_time (table_entry s_unmanned_time_str (rd data FRAME_DATA_INDEX))
    else s := by
  unfold R24_frame_parse_human_information
  rw [if_neg (by rw [h]; decide), if_neg (by rw [h]; decide), if_neg (by rw [h]; decide), if_neg (by rw [h]; decide), if_neg (by rw [h]; decide), if_neg (by rw [h]; decide), if_neg (by rw [h]; decide), if_neg (by rw [h]; decide), if_pos h]

theorem human_cmd_8B (s : State) (data : List Nat)
    (h : rd data FRAME_COMMAND_WORD_INDEX = 0x8B) :
    R24_frame_parse_human_information s data =
    if rd data FRAME_DATA_INDEX < 3 ∧ rd data FRAME_DATA_INDEX ≥ 0 then
      publish s Sink.keep_away (table_entry s_keep_away_str (rd data FRAME_DATA_INDEX))
    else s := by
  unfold R24_frame_parse_human_information
  rw [if_neg (by rw [h]; decide), if_neg (by rw [h]; decide), if_neg (by rw [h]; decide), if_neg (by rw [h]; decide), if_neg (by rw [h]; decide), if_neg (by rw [h]; decide), if_neg (by rw [h]; decide), if_neg (by rw [h]; decide), if_neg (by rw [h]; decide), if_pos h]

/-- A command word that no branch of `R24_frame_parse_human_information` tests leaves the state
unchanged. -/
theorem human_unhandled (s : State) (data : List Nat)
    (h : ∀ c ∈ [0x01, 0x02, 0x03, 0x0A, 0x0B, 0x81, 0x82, 0x83, 0x8A, 0x8B], rd data FRAME_COMMAND_WORD_INDEX ≠ c) :
    R24_frame_parse_human_information s data = s := by
  unfold R24_frame_parse_human_information
  rw [if_neg (h 0x01 (by decide)), if_neg (h 0x02 (by decide)), if_neg (h 0x03 (by decide)), if_neg (h 0x0A (by decide)), if_neg (h 0x0B (by decide)), if_neg (h 0x81 (by decide)), if_neg (h 0x82 (by decide)), if_neg (h 0x83 (by decide)), if_neg (h 0x8A (by decide)), if_neg (h 0x8B (by decide))]

theorem detection_range_cmd_01 (s : State) (data : List Nat)
    (h : rd data FRAME_COMMAND_WORD_INDEX = 0x01) :
    R24_frame_parse_detection_range s data =
    publish s Sink.moving_target_detection_max_distance (Value.num (detection_distance data)) := by
  unfold R24_frame_parse_detection_range
  rw [if_pos h]

theorem detection_range_cmd_04 (s : State) (data : List Nat)
    (h : rd data FRAME_COMMAND_WORD_INDEX = 0x04) :
    R24_frame_parse_detection_range s data =
    publish s Sink.static_target_detection_max_distance (Value.num (detection_distance data)) := by
  unfold R24_frame_parse_detection_range
  rw [if_neg (by rw [h]; decide), if_pos h]

theorem detection_range_cmd_81 (s : State) (data : List Nat)
    (h : rd data FRAME_COMMAND_WORD_INDEX = 0x81) :
    R24_frame_parse_detection_range s data =
    publish s Sink.moving_target_detection_max_distance (Value.num (detection_distance data)) := by
  unfold R24_frame_parse_detection_range
  rw [if_neg (by rw [h]; decide), if_neg (by rw [h]; decide), if_pos h]

theorem detection_range_cmd_84 (s : State) (data : List Nat)
    (h : rd data FRAME_COMMAND_WORD_INDEX = 0x84) :
    R24_frame_parse_detection_range s data =
    publish s Sink.static_target_detection_max_distance (Value.num (detection_distance data)) := by
  unfold R24_frame_parse_detection_range
  rw [if_neg (by rw [h]; decide), if_neg (by rw [h]; decide), if_neg (by rw [h]; decide), if_pos h]

/-- A command word that no branch of `R24_frame_parse_detection_range` tests leaves the state
unchanged. -/
theorem detection_range_unhandled (s : State) (data : List Nat)
    (h : ∀ c ∈ [0x01, 0x04, 0x81, 0x84], rd data FRAME_COMMAND_WORD_INDEX ≠ c) :
    R24_frame_parse_detection_range s data = s := by
  unfold R24_frame_parse_detection_range
  rw [if_neg (h 0x01 (by decide)), if_neg (h 0x04 (by decide)), if_neg (h 0x81 (by decide)), if_neg (h 0x84 (by decide))]

theorem product_cmd_A1 (s : State) (data : List Nat)
    (h : rd data FRAME_COMMAND_WORD_INDEX = 0xA1) :
    R24_frame_parse_product_Information s data =
    if product_len data < PRODUCT_BUF_MAX_SIZE then
      let s := { s with c_product_mode := product_copy s.c_product_mode data }
      publish s Sink.product_mode (Value.cstr (c_str s.c_product_mode))
    else s := by
  unfold R24_frame_parse_product_Information
  rw [if_pos h]

theorem product_cmd_A2 (s : State) (data : List Nat)
    (h : rd data FRAME_COMMAND_WORD_INDEX = 0xA2) :
    R24_frame_parse_product_Information s data =
    if product_len data < PRODUCT_BUF_MAX_SIZE then
      let s := { s with c_product_id := product_copy s.c_product_id data }
      publish s Sink.product_id (Value.cstr (c_str s.c_product_id))
    else s := by
  unfold R24_frame_parse_product_Information
  rw [if_neg (by rw [h]; decide), if_pos h]

theorem product_cmd_A3 (s : State) (data : List Nat)
    (h : rd data FRAME_COMMAND_WORD_INDEX = 0xA3) :
    R24_frame_parse_product_Information s data =
    if product_len data < PRODUCT_BUF_MAX_SIZE then
      let s := { s with c_hardware_model := product_copy s.c_hardware_model data }
      publish s Sink.hardware_model (Value.cstr (c_str s.c_hardware_model))
    else s := by
  unfold R24_frame_parse_product_Information
  rw [if_neg (by rw [h]; decide), if_neg (by rw [h]; decide), if_pos h]

theorem product_cmd_A4 (s : State) (data : List Nat)
    (h : rd data FRAME_COMMAND_WORD_INDEX = 0xA4) :
    R24_frame_parse_product_Information s data =
    if product_len data < PRODUCT_BUF_MAX_SIZE then
      let s := { s with c_firmware_version := product_copy s.c_firmware_version data }
      publish s Sink.firmware_version (Value.cstr (c_str s.c_firmware_version))
    else s := by
  unfold R24_frame_parse_product_Information
  rw [if_neg (by rw [h]; decide), if_neg (by rw [h]; decide), if_neg (by rw [h]; decide), if_pos h]

theorem product_cmd_A5 (s : State) (data : List Nat)
    (h : rd data FRAME_COMMAND_WORD_INDEX = 0xA5) :
    R24_frame_parse_product_Information s data =
    let s := { s with u_protocol_type := rd data FRAME_DATA_INDEX }
    if s.u_protocol_type = 0x01 then
      publish s Sink.protocol_type (Value.text "Common protocols")
    else if s.u_protocol_type = 0x03 then
      publish s Sink.protocol_type (Value.text "Tuya WIFI protocol")
    else
      publish s Sink.protocol_type (Value.text "Unknown agreement type") := by
  unfold R24_frame_parse_product_Information
  rw [if_neg (by rw [h]; decide), if_neg (by rw [h]; decide), if_neg (by rw [h]; decide), if_neg (by rw [h]; decide), if_pos h]

/-- A command word that no branch of `R24_frame_parse_product_Information` tests leaves the state
unchanged. -/
theorem product_unhandled (s : State) (data : List Nat)
    (h : ∀ c ∈ [0xA1, 0xA2, 0xA3, 0xA4, 0xA5], rd data FRAME_COMMAND_WORD_INDEX ≠ c) :
    R24_frame_parse_product_Information s data = s := by
  unfold R24_frame_parse_product_Information
  rw [if_neg (h 0xA1 (by decide)), if_neg (h 0xA2 (by decide)), if_neg (h 0xA3 (by decide)), if_neg (h 0xA4 (by decide)), if_neg (h 0xA5 (by decide))]

theorem open_cmd_00 (s : State) (data : List Nat)
    (h : rd data FRAME_COMMAND_WORD_INDEX = 0x00) :
    R24_frame_parse_open_underlying_information s data =
    output_switch_reply s data := by
  unfold R24_frame_parse_open_underlying_information
  rw [if_pos h]

theorem open_cmd_01 (s : State) (data : List Nat)
    (h : rd data FRAME_COMMAND_WORD_INDEX = 0x01) :
    R24_frame_parse_open_underlying_information s data =
    radar_report s data := by
  unfold R24_frame_parse_open_underlying_information
  rw [if_neg (by rw [h]; decide), if_pos h]

theorem open_cmd_06 (s : State) (data : List Nat)
    (h : rd data FRAME_COMMAND_WORD_INDEX = 0x06) :
    R24_frame_parse_open_underlying_information s data =
    if rd data FRAME_DATA_INDEX < 3 ∧ rd data FRAME_DATA_INDEX ≥ 0 then
      publish s Sink.keep_away (table_entry s_keep_away_str (rd data FRAME_DATA_INDEX))
    else s := by
  unfold R24_frame_parse_open_underlying_information
  rw [if_neg (by rw [h]; decide), if_neg (by rw [h]; decide), if_pos h]

theorem open_cmd_07 (s : State) (data : List Nat)
    (h : rd data FRAME_COMMAND_WORD_INDEX = 0x07) :
    R24_frame_parse_open_underlying_information s data =
    movementSigns_report s data := by
  unfold R24_frame_parse_open_underlying_information
  rw [if_neg (by rw [h]; decide), if_neg (by rw [h]; decide), if_neg (by rw [h]; decide), if_pos h]

theorem open_cmd_08 (s : State) (data : List Nat)
    (h : rd data FRAME_COMMAND_WORD_INDEX = 0x08) :
    R24_frame_parse_open_underlying_information s data =
    publish s Sink.custom_judgment_threshold_exists (Value.num (rd data FRAME_DATA_INDEX)) := by
  unfold R24_frame_parse_open_underlying_information
  rw [if_neg (by rw [h]; decide), if_neg (by rw [h]; decide), if_neg (by rw [h]; decide), if_neg (by rw [h]; decide), if_pos h]

theorem open_cmd_09 (s : State) (data : List Nat)
    (h : rd data FRAME_COMMAND_WORD_INDEX = 0x09) :
    R24_frame_parse_open_underlying_information s data =
    publish s Sink.custom_motion_amplitude_trigger_threshold
      (Value.num (rd data FRAME_DATA_INDEX)) := by
  unfold R24_frame_parse_open_underlying_information
  rw [if_neg (by rw [h]; decide), if_neg (by rw [h]; decide), if_neg (by rw [h]; decide), if_neg (by rw [h]; decide), if_neg (by rw [h]; decide), if_pos h]

theorem open_cmd_0a (s : State) (data : List Nat)
    (h : rd data FRAME_COMMAND_WORD_INDEX = 0x0a) :
    R24_frame_parse_open_underlying_information s data =
    perception_boundary_reply s data := by
  unfold R24_frame_parse_open_underlying_information
  rw [if_neg (by rw [h]; decide), if_neg (by rw [h]; decide), if_neg (by rw [h]; decide), if_neg (by rw [h]; decide), if_neg (by rw [h]; decide), if_neg (by rw [h]; decide), if_pos h]

theorem open_cmd_0b (s : State) (data : List Nat)
    (h : rd data FRAME_COMMAND_WORD_INDEX = 0x0b) :
    R24_frame_parse_open_underlying_information s data =
    motion_trigger_boundary_reply s data := by
  unfold R24_frame_parse_open_underlying_information
  rw [if_neg (by rw [h]; decide), if_neg (by rw [h]; decide), if_neg (by rw [h]; decide), if_neg (by rw [h]; decide), if_neg (by rw [h]; decide), if_neg (by rw [h]; decide), if_neg (by rw [h]; decide), if_pos h]

theorem open_cmd_0c (s : State) (data : List Nat)
    (h : rd data FRAME_COMMAND_WORD_INDEX = 0x0c) :
    R24_frame_parse_open_underlying_information s data =
    motion_trigger_time_reply s data := by
  unfold R24_frame_parse_open_underlying_information
  rw [if_neg (by rw [h]; decide), if_neg (by rw [h]; decide), if_neg (by rw [h]; decide), if_neg (by rw [h]; decide), if_neg (by rw [h]; decide), if_neg (by rw [h]; decide), if_neg (by rw [h]; decide), if_neg (by rw [h]; decide), if_pos h]

theorem open_cmd_0d (s : State) (data : List Nat)
    (h : rd data FRAME_COMMAND_WORD_INDEX = 0x0d) :
    R24_frame_parse_open_underlying_information s data =
    move_to_rest_time_reply s data := by
  unfold R24_frame_parse_open_underlying_information
  rw [if_neg (by rw [h]; decide), if_neg (by rw [h]; decide), if_neg (by rw [h]; decide), if_neg (by rw [h]; decide), if_neg (by rw [h]; decide), if_neg (by rw [h]; decide), if_neg (by rw [h]; decide), if_neg (by rw [h]; decide), if_neg (by rw [h]; decide), if_pos h]

theorem open_cmd_0e (s : State) (data : List Nat)
    (h : rd data FRAME_COMMAND_WORD_INDEX = 0x0e) :
    R24_frame_parse_open_underlying_information s data =
    enter_unmanned_time_reply s data := by
  unfold R24_frame_parse_open_underlying_information
  rw [if_neg (by rw [h]; decide), if_neg (by rw [h]; decide), if_neg (by rw [h]; decide), if_neg (by rw [h]; decide), if_neg (by rw [h]; decide), if_neg (by rw [h]; decide), if_neg (by rw [h]; decide), if_neg (by rw [h]; decide), if_neg (by rw [h]; decide), if_neg (by rw [h]; decide), if_pos h]

theorem open_cmd_80 (s : State) (data : List Nat)
    (h : rd data FRAME_COMMAND_WORD_INDEX = 0x80) :
    R24_frame_parse_open_underlying_information s data =
    output_switch_reply s data := by
  unfold R24_frame_parse_open_underlying_information
  rw [if_neg (by rw [h]; decide), if_neg (by rw [h]; decide), if_neg (by rw [h]; decide), if_neg (by rw [h]; decide), if_neg (by rw [h]; decide), if_neg (by rw [h]; decide), if_neg (by rw [h]; decide), if_neg (by rw [h]; decide), if_neg (by rw [h]; decide), if_neg (by rw [h]; decide), if_neg (by rw [h]; decide), if_pos h]

theorem open_cmd_81 (s : State) (data : List Nat)
    (h : rd data FRAME_COMMAND_WORD_INDEX = 0x81) :
    R24_frame_parse_open_underlying_information s data =
    s := by
  unfold R24_frame_parse_open_underlying_information
  rw [if_neg (by rw [h]; decide), if_neg (by rw [h]; decide), if_neg (by rw [h]; decide), if_neg (by rw [h]; decide), if_neg (by rw [h]; decide), if_neg (by rw [h]; decide), if_neg (by rw [h]; decide), if_neg (by rw [h]; decide), if_neg (by rw [h]; decide), if_neg (by rw [h]; decide), if_neg (by rw [h]; decide), if_neg (by rw [h]; decide), if_pos h]

theorem open_cmd_82 (s : State) (data : List Nat)
    (h : rd data FRAME_COMMAND_WORD_INDEX = 0x82) :
    R24_frame_parse_open_underlying_information s data =
    s := by
  unfold R24_frame_parse_open_underlying_information
  rw [if_neg (by rw [h]; decide), if_neg (by rw [h]; decide), if_neg (by rw [h]; decide), if_neg (by rw [h]; decide), if_neg (by rw [h]; decide), if_neg (by rw [h]; decide), if_neg (by rw [h]; decide), if_neg (by rw [h]; decide), if_neg (by rw [h]; decide), if_neg (by rw [h]; decide), if_neg (by rw [h]; decide), if_neg (by rw [h]; decide), if_neg (by rw [h]; decide), if_pos h]

theorem open_cmd_83 (s : State) (data : List Nat)
    (h : rd data FRAME_COMMAND_WORD_INDEX = 0x83) :
    R24_frame_parse_open_underlying_information s data =
    publish s Sink.custom_presence_of_detection
      (table_entry s_presence_of_detection_range_str (rd data FRAME_DATA_INDEX)) := by
  unfold R24_frame_parse_open_underlying_information
  rw [if_neg (by rw [h]; decide), if_neg (by rw [h]; decide), if_neg (by rw [h]; decide), if_neg (by rw [h]; decide), if_neg (by rw [h]; decide), if_neg (by rw [h]; decide), if_neg (by rw [h]; decide), if_neg (by rw [h]; decide), if_neg (by rw [h]; decide), if_neg (by rw [h]; decide), if_neg (by rw [h]; decide), if_neg (by rw [h]; decide), if_neg (by rw [h]; decide), if_neg (by rw [h]; decide), if_pos h]

theorem open_cmd_84 (s : State) (data : List Nat)
    (h : rd data FRAME_COMMAND_WORD_INDEX = 0x84) :
    R24_frame_parse_open_underlying_information s data =
    report_motion_distance s (rd data FRAME_DATA_INDEX) := by
  unfold R24_frame_parse_open_underlying_information
  rw [if_neg (by rw [h]; decide), if_neg (by rw [h]; decide), if_neg (by rw [h]; decide), if_neg (by rw [h]; decide), if_neg (by rw [h]; decide), if_neg (by rw [h]; decide), if_neg (by rw [h]; decide), if_neg (by rw [h]; decide), if_neg (by rw [h]; decide), if_neg (by rw [h]; decide), if_neg (by rw [h]; decide), if_neg (by rw [h]; decide), if_neg (by rw [h]; decide), if_neg (by rw [h]; decide), if_neg (by rw [h]; decide), if_pos h]

theorem open_cmd_85 (s : State) (data : List Nat)
    (h : rd data FRAME_COMMAND_WORD_INDEX = 0x85) :
    R24_frame_parse_open_underlying_information s data =
    report_motion_speed s (rd data FRAME_DATA_INDEX) := by
  unfold R24_frame_parse_open_underlying_information
  rw [if_neg (by rw [h]; decide), if_neg (by rw [h]; decide), if_neg (by rw [h]; decide), if_neg (by rw [h]; decide), if_neg (by rw [h]; decide), if_neg (by rw [h]; decide), if_neg (by rw [h]; decide), if_neg (by rw [h]; decide), if_neg (by rw [h]; decide), if_neg (by rw [h]; decide), if_neg (by rw [h]; decide), if_neg (by rw [h]; decide), if_neg (by rw [h]; decide), if_neg (by rw [h]; decide), if_neg (by rw [h]; decide), if_neg (by rw [h]; decide), if_pos h]

theorem open_cmd_86 (s : State) (data : List Nat)
    (h : rd data FRAME_COMMAND_WORD_INDEX = 0x86) :
    R24_frame_parse_open_underlying_information s data =
    s := by
  unfold R24_frame_parse_open_underlying_information
  rw [if_neg (by rw [h]; decide), if_neg (by rw [h]; decide), if_neg (by rw [h]; decide), if_neg (by rw [h]; decide), if_neg (by rw [h]; decide), if_neg (by rw [h]; decide), if_neg (by rw [h]; decide), if_neg (by rw [h]; decide), if_neg (by rw [h]; decide), if_neg (by rw [h]; decide), if_neg (by rw [h]; decide), if_neg (by rw [h]; decide), if_neg (by rw [h]; decide), if_neg (by rw [h]; decide), if_neg (by rw [h]; decide), if_neg (by rw [h]; decide), if_neg (by rw [h]; decide), if_pos h]

theorem open_cmd_87 (s : State) (data : List Nat)
    (h : rd data FRAME_COMMAND_WORD_INDEX = 0x87) :
    R24_frame_parse_open_underlying_information s data =
    movementSigns_report s data := by
  unfold R24_frame_parse_open_underlying_information
  rw [if_neg (by rw [h]; decide), if_neg (by rw [h]; decide), if_neg (by rw [h]; decide), if_neg (by rw [h]; decide), if_neg (by rw [h]; decide), if_neg (by rw [h]; decide), if_neg (by rw [h]; decide), if_neg (by rw [h]; decide), if_neg (by rw [h]; decide), if_neg (by rw [h]; decide), if_neg (by rw [h]; decide), if_neg (by rw [h]; decide), if_neg (by rw [h]; decide), if_neg (by rw [h]; decide), if_neg (by rw [h]; decide), if_neg (by rw [h]; decide), if_neg (by rw [h]; decide), if_neg (by rw [h]; decide), if_pos h]

theorem open_cmd_88 (s : State) (data : List Nat)
    (h : rd data FRAME_COMMAND_WORD_INDEX = 0x88) :
    R24_frame_parse_open_underlying_information s data =
    publish s Sink.custom_judgment_threshold_exists (Value.num (rd data FRAME_DATA_INDEX)) := by
  unfold R24_frame_parse_open_underlying_information
  rw [if_neg (by rw [h]; decide), if_neg (by rw [h]; decide), if_neg (by rw [h]; decide), if_neg (by rw [h]; decide), if_neg (by rw [h]; decide), if_neg (by rw [h]; decide), if_neg (by rw [h]; decide), if_neg (by rw [h]; decide), if_neg (by rw [h]; decide), if_neg (by rw [h]; decide), if_neg (by rw [h]; decide), if_neg (by rw [h]; decide), if_neg (by rw [h]; decide), if_neg (by rw [h]; decide), if_neg (by rw [h]; decide), if_neg (by rw [h]; decide), if_neg (by rw [h]; decide), if_neg (by rw [h]; decide), if_neg (by rw [h]; decide), if_pos h]

theorem open_cmd_89 (s : State) (data : List Nat)
    (h : rd data FRAME_COMMAND_WORD_INDEX = 0x89) :
    R24_frame_parse_open_underlying_information s data =
    publish s Sink.custom_motion_amplitude_trigger_threshold
      (Value.num (rd data FRAME_DATA_INDEX)) := by
  unfold R24_frame_parse_open_underlying_information
  rw [if_neg (by rw [h]; decide), if_neg (by rw [h]; decide), if_neg (by rw [h]; decide), if_neg (by rw [h]; decide), if_neg (by rw [h]; decide), if_neg (by rw [h]; decide), if_neg (by rw [h]; decide), if_neg (by rw [h]; decide), if_neg (by rw [h]; decide), if_neg (by rw [h]; decide), if_neg (by rw [h]; decide), if_neg (by rw [h]; decide), if_neg (by rw [h]; decide), if_neg (by rw [h]; decide), if_neg (by rw [h]; decide), if_neg (by rw [h]; decide), if_neg (by rw [h]; decide), if_neg (by rw [h]; decide), if_neg (by rw [h]; decide), if_neg (by rw [h]; decide), if_pos h]

theorem open_cmd_8a (s : State) (data : List Nat)
    (h : rd data FRAME_COMMAND_WORD_INDEX = 0x8a) :
    R24_frame_parse_open_underlying_information s data =
    perception_boundary_reply s data := by
  unfold R24_frame_parse_open_underlying_information
  rw [if_neg (by rw [h]; decide), if_neg (by rw [h]; decide), if_neg (by rw [h]; decide), if_neg (by rw [h]; decide), if_neg (by rw [h]; decide), if_neg (by rw [h]; decide), if_neg (by rw [h]; decide), if_neg (by rw [h]; decide), if_neg (by rw [h]; decide), if_neg (by rw [h]; decide), if_neg (by rw [h]; decide), if_neg (by rw [h]; decide), if_neg (by rw [h]; decide), if_neg (by rw [h]; decide), if_neg (by rw [h]; decide), if_neg (by rw [h]; decide), if_neg (by rw [h]; decide), if_neg (by rw [h]; decide), if_neg (by rw [h]; decide), if_neg (by rw [h]; decide), if_neg (by rw [h]; decide), if_pos h]

theorem open_cmd_8b (s : State) (data : List Nat)
    (h : rd data FRAME_COMMAND_WORD_INDEX = 0x8b) :
    R24_frame_parse_open_underlying_information s data =
    motion_trigger_boundary_reply s data := by
  unfold R24_frame_parse_open_underlying_information
  rw [if_neg (by rw [h]; decide), if_neg (by rw [h]; decide), if_neg (by rw [h]; decide), if_neg (by rw [h]; decide), if_neg (by rw [h]; decide), if_neg (by rw [h]; decide), if_neg (by rw [h]; decide), if_neg (by rw [h]; decide), if_neg (by rw [h]; decide), if_neg (by rw [h]; decide), if_neg (by rw [h]; decide), if_neg (by rw [h]; decide), if_neg (by rw [h]; decide), if_neg (by rw [h]; decide), if_neg (by rw [h]; decide), if_neg (by rw [h]; decide), if_neg (by rw [h]; decide), if_neg (by rw [h]; decide), if_neg (by rw [h]; decide), if_neg (by rw [h]; decide), if_neg (by rw [h]; decide), if_neg (by rw [h]; decide), if_pos h]

theorem open_cmd_8c (s : State) (data : List Nat)
    (h : rd data FRAME_COMMAND_WORD_INDEX = 0x8c) :
    R24_frame_parse_open_underlying_information s data =
    motion_trigger_time_reply s data := by
  unfold R24_frame_parse_open_underlying_information
  rw [if_neg (by rw [h]; decide), if_neg (by rw [h]; decide), if_neg (by rw [h]; decide), if_neg (by rw [h]; decide), if_neg (by rw [h]; decide), if_neg (by rw [h]; decide), if_neg (by rw [h]; decide), if_neg (by rw [h]; decide), if_neg (by rw [h]; decide), if_neg (by rw [h]; decide), if_neg (by rw [h]; decide), if_neg (by rw [h]; decide), if_neg (by rw [h]; decide), if_neg (by rw [h]; decide), if_neg (by rw [h]; decide), if_neg (by rw [h]; decide), if_neg (by rw [h]; decide), if_neg (by rw [h]; decide), if_neg (by rw [h]; decide), if_neg (by rw [h]; decide), if_neg (by rw [h]; decide), if_neg (by rw [h]; decide), if_neg (by rw [h]; decide), if_pos h]

theorem open_cmd_8d (s : State) (data : List Nat)
    (h : rd data FRAME_COMMAND_WORD_INDEX = 0x8d) :
    R24_frame_parse_open_underlying_information s data =
    move_to_rest_time_reply s data := by
  unfold R24_frame_parse_open_underlying_information
  rw [if_neg (by rw [h]; decide), if_neg (by rw [h]; decide), if_neg (by rw [h]; decide), if_neg (by rw [h]; decide), if_neg (by rw [h]; decide), if_neg (by rw [h]; decide), if_neg (by rw [h]; decide), if_neg (by rw [h]; decide), if_neg (by rw [h]; decide), if_neg (by rw [h]; decide), if_neg (by rw [h]; decide), if_neg (by rw [h]; decide), if_neg (by rw [h]; decide), if_neg (by rw [h]; decide), if_neg (by rw [h]; decide), if_neg (by rw [h]; decide), if_neg (by rw [h]; decide), if_neg (by rw [h]; decide), if_neg (by rw [h]; decide), if_neg (by rw [h]; decide), if_neg (by rw [h]; decide), if_neg (by rw [h]; decide), if_neg (by rw [h]; decide), if_neg (by rw [h]; decide), if_pos h]

theorem open_cmd_8e (s : State) (data : List Nat)
    (h : rd data FRAME_COMMAND_WORD_INDEX = 0x8e) :
    R24_frame_parse_open_underlying_information s data =
    enter_unmanned_time_reply s data := by
  unfold R24_frame_parse_open_underlying_information
  rw [if_neg (by rw [h]; decide), if_neg (by rw [h]; decide), if_neg (by rw [h]; decide), if_neg (by rw [h]; decide), if_neg (by rw [h]; decide), if_neg (by rw [h]; decide), if_neg (by rw [h]; decide), if_neg (by rw [h]; decide), if_neg (by rw [h]; decide), if_neg (by rw [h]; decide), if_neg (by rw [h]; decide), if_neg (by rw [h]; decide), if_neg (by rw [h]; decide), if_neg (by rw [h]; decide), if_neg (by rw [h]; decide), if_neg (by rw [h]; decide), if_neg (by rw [h]; decide), if_neg (by rw [h]; decide), if_neg (by rw [h]; decide), if_neg (by rw [h]; decide), if_neg (by rw [h]; decide), if_neg (by rw [h]; decide), if_neg (by rw [h]; decide), if_neg (by rw [h]; decide), if_neg (by rw [h]; decide), if_pos h]

/-- A command word that no branch of `R24_frame_parse_open_underlying_information` tests leaves the state
unchanged. -/
theorem open_unhandled (s : State) (data : List Nat)
    (h : ∀ c ∈ [0x00, 0x01, 0x06, 0x07, 0x08, 0x09, 0x0a, 0x0b, 0x0c, 0x0d, 0x0e, 0x80, 0x81, 0x82, 0x83, 0x84, 0x85, 0x86, 0x87, 0x88, 0x89, 0x8a, 0x8b, 0x8c, 0x8d, 0x8e], rd data FRAME_COMMAND_WORD_INDEX ≠ c) :
    R24_frame_parse_open_underlying_information s data = s := by
  unfold R24_frame_parse_open_underlying_information
  rw [if_neg (h 0x00 (by decide)), if_neg (h 0x01 (by decide)), if_neg (h 0x06 (by decide)), if_neg (h 0x07 (by decide)), if_neg (h 0x08 (by decide)), if_neg (h 0x09 (by decide)), if_neg (h 0x0a (by decide)), if_neg (h 0x0b (by decide)), if_neg (h 0x0c (by decide)), if_neg (h 0x0d (by decide)), if_neg (h 0x0e (by decide)), if_neg (h 0x80 (by decide)), if_neg (h 0x81 (by decide)), if_neg (h 0x82 (by decide)), if_neg (h 0x83 (by decide)), if_neg (h 0x84 (by decide)), if_neg (h 0x85 (by decide)), if_neg (h 0x86 (by decide)), if_neg (h 0x87 (by decide)), if_neg (h 0x88 (by decide)), if_neg (h 0x89 (by decide)), if_neg (h 0x8a (by decide)), if_neg (h 0x8b (by decide)), if_neg (h 0x8c (by decide)), if_neg (h 0x8d (by decide)), if_neg (h 0x8e (by decide))]

theorem parse_detection_range (s : State) (data : List Nat) (len : Nat)
    (hc : rd data FRAME_CONTROL_WORD_INDEX = 0x07) :
    R24_parse_data_frame s data len
      = R24_frame_parse_detection_range
          { s with dispatched := s.dispatched ++ [data.take len] } data := by
  unfold R24_parse_data_frame parse_control_word
  rw [if_neg (by rw [hc]; decide), if_neg (by rw [hc]; decide), if_neg (by rw [hc]; decide), if_pos hc]

theorem parse_open (s : State) (data : List Nat) (len : Nat)
    (hc : rd data FRAME_CONTROL_WORD_INDEX = 0x08) :
    R24_parse_data_frame s data len
      = R24_frame_parse_open_underlying_information
          { s with dispatched := s.dispatched ++ [data.take len] } data := by
  unfold R24_parse_data_frame parse_control_word
  rw [if_neg (by rw [hc]; decide), if_neg (by rw [hc]; decide), if_neg (by rw [hc]; decide), if_neg (by rw [hc]; decide), if_pos hc]

theorem parse_human (s : State) (data : List Nat) (len : Nat)
    (hc : rd data FRAME_CONTROL_WORD_INDEX = 0x80) :
    R24_parse_data_frame s data len
      = R24_frame_parse_human_information
          { s with dispatched := s.dispatched ++ [data.take len] } data := by
  unfold R24_parse_data_frame parse_control_word
  rw [if_neg (by rw [hc]; decide), if_neg (by rw [hc]; decide), if_neg (by rw [hc]; decide), if_neg (by rw [hc]; decide), if_neg (by rw [hc]; decide), if_pos hc]

theorem parse_system (s : State) (data : List Nat) (len : Nat)
    (hc : rd data FRAME_CONTROL_WORD_INDEX = 0x01)
    (hs : rd data FRAME_COMMAND_WORD_INDEX ≠ 0x01) :
    R24_parse_data_frame s data len
      = { s with dispatched := s.dispatched ++ [data.take len] } := by
  unfold R24_parse_data_frame parse_control_word
  rw [if_pos hc, if_neg hs, ite_self]

theorem parse_unknown_control (s : State) (data : List Nat) (len : Nat)
    (h : ∀ c ∈ [0x01, 0x02, 0x05, 0x07, 0x08, 0x80], rd data FRAME_CONTROL_WORD_INDEX ≠ c) :
    R24_parse_data_frame s data len
      = { s with dispatched := s.dispatched ++ [data.take len] } := by
  unfold R24_parse_data_frame parse_control_word
  rw [if_neg (h 0x01 (by decide)), if_neg (h 0x02 (by decide)), if_neg (h 0x05 (by decide)),
    if_neg (h 0x07 (by decide)), if_neg (h 0x08 (by decide)), if_neg (h 0x80 (by decide))]

/-! ## Change-cache lemmas -/

theorem timer_value_bytes (data : List Nat)
    (h0 : rd data FRAME_DATA_INDEX < 256) (h1 : rd data (FRAME_DATA_INDEX + 1) < 256)
    (h2 : rd data (FRAME_DATA_INDEX + 2) < 256) (h3 : rd data (FRAME_DATA_INDEX + 3) < 256) :
    timer_value data
      = rd data FRAME_DATA_INDEX * 2 ^ 24 + rd data (FRAME_DATA_INDEX + 1) * 2 ^ 16
        + rd data (FRAME_DATA_INDEX + 2) * 2 ^ 8 + rd data (FRAME_DATA_INDEX + 3) := by
  unfold timer_value
  simp only [Nat.shiftLeft_eq]
  norm_num
  omega

theorem movementSigns_report_eq (s : State) (data : List Nat) :
    movementSigns_report s data
      = if s.sg_movementSigns_bak = rd data FRAME_DATA_INDEX then s
        else { s with
          published := s.published
            ++ [(Sink.movementSigns, Value.num (rd data FRAME_DATA_INDEX))]
          sg_movementSigns_bak := rd data FRAME_DATA_INDEX } := by
  unfold movementSigns_report
  by_cases h : s.sg_movementSigns_bak = rd data FRAME_DATA_INDEX
  · rw [if_neg (not_not_intro h), if_pos h]
  · rw [if_pos h, if_neg h]
    rfl

theorem motion_trigger_time_reply_eq (s : State) (data : List Nat) :
    motion_trigger_time_reply s data
      = if s.sg_motion_trigger_time_bak = timer_value data then s
        else { s with
          published := s.published
            ++ [(Sink.custom_motion_trigger_time, Value.num (timer_value data))]
          sg_motion_trigger_time_bak := timer_value data } := by
  unfold motion_trigger_time_reply
  by_cases h : s.sg_motion_trigger_time_bak = timer_value data
  · simp only [ne_eq]
    rw [if_neg (not_not_intro h), if_pos h]
  · simp only [ne_eq]
    rw [if_pos h, if_neg h]
    rfl

theorem move_to_rest_time_reply_eq (s : State) (data : List Nat) :
    move_to_rest_time_reply s data
      = if s.sg_move_to_rest_time_bak = timer_value data then s
        else { s with
          published := s.published
            ++ [(Sink.custom_movement_to_rest_time, Value.num (timer_value data))]
          sg_move_to_rest_time_bak := timer_value data } := by
  unfold move_to_rest_time_reply
  by_cases h : s.sg_move_to_rest_time_bak = timer_value data
  · simp only [ne_eq]
    rw [if_neg (not_not_intro h), if_pos h]
  · simp only [ne_eq]
    rw [if_pos h, if_neg h]
    rfl

theorem enter_unmanned_time_reply_eq (s : State) (data : List Nat) :
    enter_unmanned_time_reply s data
      = if s.sg_enter_unmanned_time_bak = timer_value data then s
        else { s with
          published := s.published
            ++ [(Sink.custom_time_of_enter_unmanned, Value.num (timer_value data))]
          sg_enter_unmanned_time_bak := timer_value data } := by
  unfold enter_unmanned_time_reply
  by_cases h : s.sg_enter_unmanned_time_bak = timer_value data
  · simp only [ne_eq]
    rw [if_neg (not_not_intro h), if_pos h]
  · simp only [ne_eq]
    rw [if_pos h, if_neg h]
    rfl

theorem report_spatial_static_value_eq (s : State) (v : Nat) :
    report_spatial_static_value s v
      = if s.sg_spatial_static_value_bak = v then s
        else { s with
          published := s.published ++ [(Sink.custom_spatial_static_value, Value.num v)]
          sg_spatial_static_value_bak := v } := by
  unfold report_spatial_static_value
  by_cases h : s.sg_spatial_static_value_bak = v
  · rw [if_neg (not_not_intro h), if_pos h]
  · rw [if_pos h, if_neg h]
    rfl

theorem report_static_distance_eq (s : State) (v : Nat) :
    report_static_distance s v
      = if s.sg_static_distance_bak = v then s
        else { s with
          published := s.published ++ [(Sink.custom_static_distance, Value.half v)]
          sg_static_distance_bak := v } := by
  unfold report_static_distance
  by_cases h : s.sg_static_distance_bak = v
  · rw [if_neg (not_not_intro h), if_pos h]
  · rw [if_pos h, if_neg h]
    rfl

theorem report_spatial_motion_value_eq (s : State) (v : Nat) :
    report_spatial_motion_value s v
      = if s.sg_spatial_motion_value_bak = v then s
        else { s with
          published := s.published ++ [(Sink.custom_spatial_motion_value, Value.num v)]
          sg_spatial_motion_value_bak := v } := by
  unfold report_spatial_motion_value
  by_cases h : s.sg_spatial_motion_value_bak = v
  · rw [if_neg (not_not_intro h), if_pos h]
  · rw [if_pos h, if_neg h]
    rfl

theorem report_motion_distance_eq (s : State) (v : Nat) :
    report_motion_distance s v
      = if s.sg_motion_distance_bak = v then s
        else { s with
          published := s.published ++ [(Sink.custom_motion_distance, Value.half v)]
          sg_motion_distance_bak := v } := by
  unfold report_motion_distance
  by_cases h : s.sg_motion_distance_bak = v
  · rw [if_neg (not_not_intro h), if_pos h]
  · rw [if_pos h, if_neg h]
    rfl

theorem report_motion_speed_eq (s : State) (v : Nat) :
    report_motion_speed s v
      = if s.sg_motion_speed_bak = v then s
        else { s with
          published := s.published
            ++ [(Sink.custom_motion_speed, Value.half ((v : Int) - 10))]
          sg_motion_speed_bak := v } := by
  unfold report_motion_speed
  by_cases h : s.sg_motion_speed_bak = v
  · rw [if_neg (not_not_intro h), if_pos h]
  · rw [if_pos h, if_neg h]
    rfl

/-- What the radar information report publishes: one entry per field whose
backup differs from the byte received, in field order. -/
theorem radar_report_published (s : State) (data : List Nat) :
    (radar_report s data).published
      = s.published
        ++ (if s.sg_spatial_static_value_bak = rd data FRAME_DATA_INDEX then []
            else [(Sink.custom_spatial_static_value, Value.num (rd data FRAME_DATA_INDEX))])
        ++ (if s.sg_static_distance_bak = rd data (FRAME_DATA_INDEX + 1) then []
            else [(Sink.custom_static_distance, Value.half (rd data (FRAME_DATA_INDEX + 1)))])
        ++ (if s.sg_spatial_motion_value_bak = rd data (FRAME_DATA_INDEX + 2) then []
            else [(Sink.custom_spatial_motion_value,
                    Value.num (rd data (FRAME_DATA_INDEX + 2)))])
        ++ (if s.sg_motion_distance_bak = rd data (FRAME_DATA_INDEX + 3) then []
            else [(Sink.custom_motion_distance, Value.half (rd data (FRAME_DATA_INDEX + 3)))])
        ++ (if s.sg_motion_speed_bak = rd data (FRAME_DATA_INDEX + 4) then []
            else [(Sink.custom_motion_speed,
                    Value.half ((rd data (FRAME_DATA_INDEX + 4) : Int) - 10))]) := by
  unfold radar_report
  simp only [report_spatial_static_value_eq, report_static_distance_eq,
    report_spatial_motion_value_eq, report_motion_distance_eq, report_motion_speed_eq]
  by_cases h1 : s.sg_spatial_static_value_bak = rd data FRAME_DATA_INDEX <;>
  by_cases h2 : s.sg_static_distance_bak = rd data (FRAME_DATA_INDEX + 1) <;>
  by_cases h3 : s.sg_spatial_motion_value_bak = rd data (FRAME_DATA_INDEX + 2) <;>
  by_cases h4 : s.sg_motion_distance_bak = rd data (FRAME_DATA_INDEX + 3) <;>
  by_cases h5 : s.sg_motion_speed_bak = rd data (FRAME_DATA_INDEX + 4) <;>
  simp [h1, h2, h3, h4, h5]

theorem radar_report_bak (s : State) (data : List Nat) :
    (radar_report s data).sg_spatial_static_value_bak = rd data FRAME_DATA_INDEX
      ∧ (radar_report s data).sg_static_distance_bak = rd data (FRAME_DATA_INDEX + 1)
      ∧ (radar_report s data).sg_spatial_motion_value_bak = rd data (FRAME_DATA_INDEX + 2)
      ∧ (radar_report s data).sg_motion_distance_bak = rd data (FRAME_DATA_INDEX + 3)
      ∧ (radar_report s data).sg_motion_speed_bak = rd data (FRAME_DATA_INDEX + 4) := by
  unfold radar_report
  simp only [report_spatial_static_value_eq, report_static_distance_eq,
    report_spatial_motion_value_eq, report_motion_distance_eq, report_motion_speed_eq]
  by_cases h1 : s.sg_spatial_static_value_bak = rd data FRAME_DATA_INDEX <;>
  by_cases h2 : s.sg_static_distance_bak = rd data (FRAME_DATA_INDEX + 1) <;>
  by_cases h3 : s.sg_spatial_motion_value_bak = rd data (FRAME_DATA_INDEX + 2) <;>
  by_cases h4 : s.sg_motion_distance_bak = rd data (FRAME_DATA_INDEX + 3) <;>
  by_cases h5 : s.sg_motion_speed_bak = rd data (FRAME_DATA_INDEX + 4) <;>
  simp [h1, h2, h3, h4, h5]

theorem parse_movementSigns (s : State) (data : List Nat) (len : Nat)
    (h : (rd data FRAME_CONTROL_WORD_INDEX = 0x80
          ∧ (rd data FRAME_COMMAND_WORD_INDEX = 0x03 ∨ rd data FRAME_COMMAND_WORD_INDEX = 0x83))
        ∨ (rd data FRAME_CONTROL_WORD_INDEX = 0x08
          ∧ (rd data FRAME_COMMAND_WORD_INDEX = 0x07
            ∨ rd data FRAME_COMMAND_WORD_INDEX = 0x87))) :
    R24_parse_data_frame s data len
      = movementSigns_report { s with dispatched := s.dispatched ++ [data.take len] } data := by
  rcases h with ⟨hc, hs | hs⟩ | ⟨hc, hs | hs⟩
  · rw [parse_human s data len hc, human_cmd_03 _ _ hs]
  · rw [parse_human s data len hc, human_cmd_83 _ _ hs]
  · rw [parse_open s data len hc, open_cmd_07 _ _ hs]
  · rw [parse_open s data len hc, open_cmd_87 _ _ hs]

theorem parse_radar_report (s : State) (data : List Nat) (len : Nat)
    (hc : rd data FRAME_CONTROL_WORD_INDEX = 0x08)
    (hs : rd data FRAME_COMMAND_WORD_INDEX = 0x01) :
    R24_parse_data_frame s data len
      = radar_report { s with dispatched := s.dispatched ++ [data.take len] } data := by
  rw [parse_open s data len hc, open_cmd_01 _ _ hs]

theorem parse_motion_distance (s : State) (data : List Nat) (len : Nat)
    (hc : rd data FRAME_CONTROL_WORD_INDEX = 0x08)
    (hs : rd data FRAME_COMMAND_WORD_INDEX = 0x84) :
    R24_parse_data_frame s data len
      = report_motion_distance { s with dispatched := s.dispatched ++ [data.take len] }
          (rd data FRAME_DATA_INDEX) := by
  rw [parse_open s data len hc, open_cmd_84 _ _ hs]

theorem parse_motion_speed (s : State) (data : List Nat) (len : Nat)
    (hc : rd data FRAME_CONTROL_WORD_INDEX = 0x08)
    (hs : rd data FRAME_COMMAND_WORD_INDEX = 0x85) :
    R24_parse_data_frame s data len
      = report_motion_speed { s with dispatched := s.dispatched ++ [data.take len] }
          (rd data FRAME_DATA_INDEX) := by
  rw [parse_open s data len hc, open_cmd_85 _ _ hs]

/-- Dispatching a motion-trigger-time reply (OpenInfo 0x0c or 0x8c). -/
theorem parse_motion_trigger_time (s : State) (data : List Nat) (len : Nat)
    (hc : rd data FRAME_CONTROL_WORD_INDEX = 0x08)
    (hs : rd data FRAME_COMMAND_WORD_INDEX = 0x0c ∨ rd data FRAME_COMMAND_WORD_INDEX = 0x8c) :
    R24_parse_data_frame s data len
      = if s.sg_motion_trigger_time_bak = timer_value data then
          { s with dispatched := s.dispatched ++ [data.take len] }
        else
          { s with dispatched := s.dispatched ++ [data.take len]
                   published := s.published
                     ++ [(Sink.custom_motion_trigger_time, Value.num (timer_value data))]
                   sg_motion_trigger_time_bak := timer_value data } := by
  rw [parse_open s data len hc]
  rcases hs with h | h
  · rw [open_cmd_0c _ _ h, motion_trigger_time_reply_eq]
  · rw [open_cmd_8c _ _ h, motion_trigger_time_reply_eq]

/-- Dispatching a movement-to-rest-time reply (OpenInfo 0x0d or 0x8d). -/
theorem parse_move_to_rest_time (s : State) (data : List Nat) (len : Nat)
    (hc : rd data FRAME_CONTROL_WORD_INDEX = 0x08)
    (hs : rd data FRAME_COMMAND_WORD_INDEX = 0x0d ∨ rd data FRAME_COMMAND_WORD_INDEX = 0x8d) :
    R24_parse_data_frame s data len
      = if s.sg_move_to_rest_time_bak = timer_value data then
          { s with dispatched := s.dispatched ++ [data.take len] }
        else
          { s with dispatched := s.dispatched ++ [data.take len]
                   published := s.published
                     ++ [(Sink.custom_movement_to_rest_time, Value.num (timer_value data))]
                   sg_move_to_rest_time_bak := timer_value data } := by
  rw [parse_open s data len hc]
  rcases hs with h | h
  · rw [open_cmd_0d _ _ h, move_to_rest_time_reply_eq]
  · rw [open_cmd_8d _ _ h, move_to_rest_time_reply_eq]

/-- Dispatching an enter-unmanned-time reply (OpenInfo 0x0e or 0x8e). -/
theorem parse_enter_unmanned_time (s : State) (data : List Nat) (len : Nat)
    (hc : rd data FRAME_CONTROL_WORD_INDEX = 0x08)
    (hs : rd data FRAME_COMMAND_WORD_INDEX = 0x0e ∨ rd data FRAME_COMMAND_WORD_INDEX = 0x8e) :
    R24_parse_data_frame s data len
      = if s.sg_enter_unmanned_time_bak = timer_value data then
          { s with dispatched := s.dispatched ++ [data.take len] }
        else
          { s with dispatched := s.dispatched ++ [data.take len]
                   published := s.published
                     ++ [(Sink.custom_time_of_enter_unmanned, Value.num (timer_value data))]
                   sg_enter_unmanned_time_bak := timer_value data } := by
  rw [parse_open s data len hc]
  rcases hs with h | h
  · rw [open_cmd_0e _ _ h, enter_unmanned_time_reply_eq]
  · rw [open_cmd_8e _ _ h, enter_unmanned_time_reply_eq]

/-- The count of notifications on a sink after one gated publish. -/
theorem notifications_gate (s t : State) (k j : Sink) (x : Value) (c : Prop) [Decidable c]
    (h : t.published = s.published ++ (if c then [] else [(j, x)])) :
    notifications k t = notifications k s + (if j = k ∧ ¬ c then 1 else 0) := by
  unfold notifications
  rw [h]
  by_cases hc : c <;> by_cases hj : j = k <;> simp [hc, hj]

theorem gate_filter_length (k j : Sink) (x : Value) (c : Prop) [Decidable c] :
    ((if c then [] else [(j, x)]).filter (fun e => decide (e.1 = k))).length
      = if j = k ∧ ¬ c then 1 else 0 := by
  by_cases hc : c <;> by_cases hj : j = k <;> simp [hc, hj]

/-- A read of an array of bytes is a byte. -/
theorem rd_lt (data : List Nat) (hb : ∀ b ∈ data, b < 256) (i : Nat) : rd data i < 256 := by
  by_cases h : i < data.length
  · rw [rd_eq_getElem data i h]
    exact hb _ (List.getElem_mem h)
  · have h0 : rd data i = 0 := by
      unfold rd
      exact List.getD_eq_default _ _ (Nat.le_of_not_lt h)
    rw [h0]
    decide

/-- On an array of bytes the decoder's shifts and `uint32_t` casts compute
the big-endian number of the four payload bytes. -/
theorem spec_timer_value_eq (data : List Nat) (hb : ∀ b ∈ data, b < 256) :
    spec_timer_value data = timer_value data := by
  rw [timer_value_bytes data (rd_lt data hb _) (rd_lt data hb _) (rd_lt data hb _)
    (rd_lt data hb _)]
  rfl

/-- One dispatch of a frame of bytes, seen from one gated metric `m` the
frame carries with value `v`: the sink of `m` is notified once when `v`
differs from the backup and not at all when it equals it, and the backup
holds `v` afterwards. -/
theorem gated_field_decode (s : State) (data : List Nat) (len : Nat) (m : Metric) (v : Nat)
    (hb : ∀ b ∈ data, b < 256) (hm : (m, v) ∈ spec_gated_fields data) :
    notifications m.sink (R24_parse_data_frame s data len)
        = notifications m.sink s + (if m.cache s = v then 0 else 1)
      ∧ m.cache (R24_parse_data_frame s data len) = v := by
  unfold spec_gated_fields at hm
  simp only [] at hm
  split_ifs at hm with h1 h2 h3 h4 h5 h6 h7 h8
  · simp only [List.mem_singleton, Prod.mk.injEq] at hm
    obtain ⟨rfl, rfl⟩ := hm
    rw [parse_movementSigns s data len (Or.inl h1), movementSigns_report_eq]
    by_cases hv : s.sg_movementSigns_bak = rd data FRAME_DATA_INDEX
    · simp [hv, Metric.cache, Metric.sink, notifications]
    · simp [hv, Metric.cache, Metric.sink, notifications]
  · simp only [List.mem_singleton, Prod.mk.injEq] at hm
    obtain ⟨rfl, rfl⟩ := hm
    rw [parse_movementSigns s data len (Or.inr h2), movementSigns_report_eq]
    by_cases hv : s.sg_movementSigns_bak = rd data FRAME_DATA_INDEX
    · simp [hv, Metric.cache, Metric.sink, notifications]
    · simp [hv, Metric.cache, Metric.sink, notifications]
  · rw [parse_radar_report s data len h3.1 h3.2]
    have hp := radar_report_published
      { s with dispatched := s.dispatched ++ [data.take len] } data
    have hb := radar_report_bak
      { s with dispatched := s.dispatched ++ [data.take len] } data
    simp only [List.mem_cons, List.mem_singleton, Prod.mk.injEq, List.not_mem_nil,
      or_false] at hm
    rcases hm with ⟨rfl, rfl⟩ | ⟨rfl, rfl⟩ | ⟨rfl, rfl⟩ | ⟨rfl, rfl⟩ | ⟨rfl, rfl⟩
    · refine ⟨?_, hb.1⟩
      unfold notifications
      rw [hp]
      simp only [Metric.sink, Metric.cache, List.filter_append, List.length_append,
        gate_filter_length, reduceCtorEq, false_and, true_and, if_false, Nat.add_zero]
      split_ifs <;> rfl
    · refine ⟨?_, hb.2.1⟩
      unfold notifications
      rw [hp]
      simp only [Metric.sink, Metric.cache, List.filter_append, List.length_append,
        gate_filter_length, reduceCtorEq, false_and, true_and, if_false, Nat.add_zero]
      split_ifs <;> rfl
    · refine ⟨?_, hb.2.2.1⟩
      unfold notifications
      rw [hp]
      simp only [Metric.sink, Metric.cache, List.filter_append, List.length_append,
        gate_filter_length, reduceCtorEq, false_and, true_and, if_false, Nat.add_zero]
      split_ifs <;> rfl
    · refine ⟨?_, hb.2.2.2.1⟩
      unfold notifications
      rw [hp]
      simp only [Metric.sink, Metric.cache, List.filter_append, List.length_append,
        gate_filter_length, reduceCtorEq, false_and, true_and, if_false, Nat.add_zero]
      split_ifs <;> rfl
    · refine ⟨?_, hb.2.2.2.2⟩
      unfold notifications
      rw [hp]
      simp only [Metric.sink, Metric.cache, List.filter_append, List.length_append,
        gate_filter_length, reduceCtorEq, false_and, true_and, if_false, Nat.add_zero]
      split_ifs <;> rfl
  · simp only [List.mem_singleton, Prod.mk.injEq] at hm
    obtain ⟨rfl, rfl⟩ := hm
    rw [parse_motion_distance s data len h4.1 h4.2, report_motion_distance_eq]
    by_cases hv : s.sg_motion_distance_bak = rd data FRAME_DATA_INDEX
    · simp [hv, Metric.cache, Metric.sink, notifications]
    · simp [hv, Metric.cache, Metric.sink, notifications]
  · simp only [List.mem_singleton, Prod.mk.injEq] at hm
    obtain ⟨rfl, rfl⟩ := hm
    rw [parse_motion_speed s data len h5.1 h5.2, report_motion_speed_eq]
    by_cases hv : s.sg_motion_speed_bak = rd data FRAME_DATA_INDEX
    · simp [hv, Metric.cache, Metric.sink, notifications]
    · simp [hv, Metric.cache, Metric.sink, notifications]
  · simp only [List.mem_singleton, Prod.mk.injEq] at hm
    obtain ⟨rfl, rfl⟩ := hm
    rw [spec_timer_value_eq data hb, parse_motion_trigger_time s data len h6.1 h6.2]
    by_cases hv : s.sg_motion_trigger_time_bak = timer_value data
    · simp [hv, Metric.cache, Metric.sink, notifications]
    · simp [hv, Metric.cache, Metric.sink, notifications]
  · simp only [List.mem_singleton, Prod.mk.injEq] at hm
    obtain ⟨rfl, rfl⟩ := hm
    rw [spec_timer_value_eq data hb, parse_move_to_rest_time s data len h7.1 h7.2]
    by_cases hv : s.sg_move_to_rest_time_bak = timer_value data
    · simp [hv, Metric.cache, Metric.sink, notifications]
    · simp [hv, Metric.cache, Metric.sink, notifications]
  · simp only [List.mem_singleton, Prod.mk.injEq] at hm
    obtain ⟨rfl, rfl⟩ := hm
    rw [spec_timer_value_eq data hb, parse_enter_unmanned_time s data len h8.1 h8.2]
    by_cases hv : s.sg_enter_unmanned_time_bak = timer_value data
    · simp [hv, Metric.cache, Metric.sink, notifications]
    · simp [hv, Metric.cache, Metric.sink, notifications]
  · simp at hm

/-- Every value is carried by some frame of bytes: every byte for each of the
six one-byte metrics, every 32-bit value for each of the three timers. -/
theorem spec_gated_fields_cover (m : Metric) (v : Nat)
    (hv : if m = Metric.motion_trigger_time ∨ m = Metric.move_to_rest_time
            ∨ m = Metric.enter_unmanned_time then v < 2 ^ 32 else v < 256) :
    ∃ data : List Nat, (∀ b ∈ data, b < 256) ∧ (m, v) ∈ spec_gated_fields data := by
  cases m
  · refine ⟨[0x53, 0x59, 0x80, 0x03, 0x00, 0x01, v], ?_, ?_⟩
    · simp at hv ⊢
      exact hv
    · simp [spec_gated_fields, rd, FRAME_CONTROL_WORD_INDEX, FRAME_COMMAND_WORD_INDEX,
        FRAME_DATA_INDEX]
  · refine ⟨[0x53, 0x59, 0x08, 0x01, 0x00, 0x05, v, 0, 0, 0, 0], ?_, ?_⟩
    · simp at hv ⊢
      exact hv
    · simp [spec_gated_fields, rd, FRAME_CONTROL_WORD_INDEX, FRAME_COMMAND_WORD_INDEX,
        FRAME_DATA_INDEX]
  · refine ⟨[0x53, 0x59, 0x08, 0x01, 0x00, 0x05, 0, v, 0, 0, 0], ?_, ?_⟩
    · simp at hv ⊢
      exact hv
    · simp [spec_gated_fields, rd, FRAME_CONTROL_WORD_INDEX, FRAME_COMMAND_WORD_INDEX,
        FRAME_DATA_INDEX]
  · refine ⟨[0x53, 0x59, 0x08, 0x01, 0x00, 0x05, 0, 0, v, 0, 0], ?_, ?_⟩
    · simp at hv ⊢
      exact hv
    · simp [spec_gated_fields, rd, FRAME_CONTROL_WORD_INDEX, FRAME_COMMAND_WORD_INDEX,
        FRAME_DATA_INDEX]
  · refine ⟨[0x53, 0x59, 0x08, 0x84, 0x00, 0x01, v], ?_, ?_⟩
    · simp at hv ⊢
      exact hv
    · simp [spec_gated_fields, rd, FRAME_CONTROL_WORD_INDEX, FRAME_COMMAND_WORD_INDEX,
        FRAME_DATA_INDEX]
  · refine ⟨[0x53, 0x59, 0x08, 0x85, 0x00, 0x01, v], ?_, ?_⟩
    · simp at hv ⊢
      exact hv
    · simp [spec_gated_fields, rd, FRAME_CONTROL_WORD_INDEX, FRAME_COMMAND_WORD_INDEX,
        FRAME_DATA_INDEX]
  · refine ⟨[0x53, 0x59, 0x08, 0x8c, 0x00, 0x04, v / 16777216, v / 65536 % 256,
      v / 256 % 256, v % 256], ?_, ?_⟩
    · simp at hv ⊢
      omega
    · simp [spec_gated_fields, spec_timer_value, rd, FRAME_CONTROL_WORD_INDEX,
        FRAME_COMMAND_WORD_INDEX, FRAME_DATA_INDEX]
      omega
  · refine ⟨[0x53, 0x59, 0x08, 0x8d, 0x00, 0x04, v / 16777216, v / 65536 % 256,
      v / 256 % 256, v % 256], ?_, ?_⟩
    · simp at hv ⊢
      omega
    · simp [spec_gated_fields, spec_timer_value, rd, FRAME_CONTROL_WORD_INDEX,
        FRAME_COMMAND_WORD_INDEX, FRAME_DATA_INDEX]
      omega
  · refine ⟨[0x53, 0x59, 0x08, 0x8e, 0x00, 0x04, v / 16777216, v / 65536 % 256,
      v / 256 % 256, v % 256], ?_, ?_⟩
    · simp at hv ⊢
      omega
    · simp [spec_gated_fields, spec_timer_value, rd, FRAME_CONTROL_WORD_INDEX,
        FRAME_COMMAND_WORD_INDEX, FRAME_DATA_INDEX]
      omega

/-! ## The change-cache claims -/

/-- Counterexample to C21 as stated: the body-movement report `53 59 80 03
00 01 00 30 54 43` (value 0, equal to the zero-initialised backup) decoded
twice from the initial state is dispatched twice and notifies the sink zero
times, not once; and the motion-trigger-time reply with payload `00 00 00 00`
(`53 59 08 8C 00 04 00 00 00 00 44 54 43`) decoded twice does the same. -/
theorem C21_cached_value_twice_publishes_nothing :
    (feed (initState 4 10 10)
        ([0x53, 0x59, 0x80, 0x03, 0x00, 0x01, 0x00, 0x30, 0x54, 0x43]
          ++ [0x53, 0x59, 0x80, 0x03, 0x00, 0x01, 0x00, 0x30, 0x54, 0x43])).dispatched
        = [[0x53, 0x59, 0x80, 0x03, 0x00, 0x01, 0x00, 0x30, 0x54, 0x43],
            [0x53, 0x59, 0x80, 0x03, 0x00, 0x01, 0x00, 0x30, 0x54, 0x43]]
      ∧ notifications Sink.movementSigns
          (feed (initState 4 10 10)
            ([0x53, 0x59, 0x80, 0x03, 0x00, 0x01, 0x00, 0x30, 0x54, 0x43]
              ++ [0x53, 0x59, 0x80, 0x03, 0x00, 0x01, 0x00, 0x30, 0x54, 0x43])) = 0
      ∧ (Metric.movementSigns, 0)
          ∈ spec_gated_fields [0x53, 0x59, 0x80, 0x03, 0x00, 0x01, 0x00, 0x30, 0x54, 0x43]
      ∧ notifications Sink.custom_motion_trigger_time
          (feed (initState 4 10 10)
            ([0x53, 0x59, 0x08, 0x8C, 0x00, 0x04, 0x00, 0x00, 0x00, 0x00, 0x44, 0x54, 0x43]
              ++ [0x53, 0x59, 0x08, 0x8C, 0x00, 0x04, 0x00, 0x00, 0x00, 0x00, 0x44, 0x54,
                0x43])) = 0
      ∧ (feed (initState 4 10 10)
            ([0x53, 0x59, 0x08, 0x8C, 0x00, 0x04, 0x00, 0x00, 0x00, 0x00, 0x44, 0x54, 0x43]
              ++ [0x53, 0x59, 0x08, 0x8C, 0x00, 0x04, 0x00, 0x00, 0x00, 0x00, 0x44, 0x54,
                0x43])).dispatched.length = 2 := by
  decide

/-- C21, amended. For every change-cache-gated metric a frame of bytes
carries and every value `v` it carries for it (for a timer the big-endian
number of its four payload bytes), dispatching the same frame twice in a row
from any state notifies the sink of that metric exactly once when `v` differs
from the backup held before the first dispatch and not at all when `v` equals
it; the second dispatch never notifies. -/
theorem C21_change_cache_idempotence (s : State) (data : List Nat) (len : Nat)
    (m : Metric) (v : Nat) (hb : ∀ b ∈ data, b < 256)
    (hm : (m, v) ∈ spec_gated_fields data) :
    notifications m.sink (R24_parse_data_frame (R24_parse_data_frame s data len) data len)
        = notifications m.sink s + (if m.cache s = v then 0 else 1)
      ∧ notifications m.sink (R24_parse_data_frame (R24_parse_data_frame s data len) data len)
        = notifications m.sink (R24_parse_data_frame s data len) := by
  have h1 := gated_field_decode s data len m v hb hm
  have h2 := gated_field_decode (R24_parse_data_frame s data len) data len m v hb hm
  rw [if_pos h1.2, Nat.add_zero] at h2
  exact ⟨h2.1.trans h1.1, h2.1⟩

/-- Witness of C21 (amended): the motion-trigger-time reply with payload
`01 02 03 04` (`53 59 08 8C 00 04 01 02 03 04 4E 54 43`) carries the value
16909060; dispatched twice from the initial state it notifies the sink once,
with that value. -/
theorem C21_change_cache_idempotence_witness :
    (Metric.motion_trigger_time, 16909060)
        ∈ spec_gated_fields
          [0x53, 0x59, 0x08, 0x8C, 0x00, 0x04, 0x01, 0x02, 0x03, 0x04, 0x4E, 0x54, 0x43]
      ∧ notifications Sink.custom_motion_trigger_time
          (R24_parse_data_frame
            (R24_parse_data_frame (initState 4 10 10)
              [0x53, 0x59, 0x08, 0x8C, 0x00, 0x04, 0x01, 0x02, 0x03, 0x04, 0x4E, 0x54, 0x43] 13)
            [0x53, 0x59, 0x08, 0x8C, 0x00, 0x04, 0x01, 0x02, 0x03, 0x04, 0x4E, 0x54, 0x43] 13)
          = 1
      ∧ (R24_parse_data_frame
            (R24_parse_data_frame (initState 4 10 10)
              [0x53, 0x59, 0x08, 0x8C, 0x00, 0x04, 0x01, 0x02, 0x03, 0x04, 0x4E, 0x54, 0x43] 13)
            [0x53, 0x59, 0x08, 0x8C, 0x00, 0x04, 0x01, 0x02, 0x03, 0x04, 0x4E, 0x54, 0x43]
            13).published
          = [(Sink.custom_motion_trigger_time, Value.num 16909060)] :=
  ⟨by decide,
    (C21_change_cache_idempotence (initState 4 10 10)
      [0x53, 0x59, 0x08, 0x8C, 0x00, 0x04, 0x01, 0x02, 0x03, 0x04, 0x4E, 0x54, 0x43] 13
      Metric.motion_trigger_time 16909060 (by decide) (by decide)).1,
    by decide⟩

/-- C22. Timer scenario: from the initial state, the OpenInfo frame with
command 0x8c and payload `00 00 00 05` (`53 59 08 8C 00 04 00 00 00 05 49 54
43`) publishes motion-trigger-time = 5, and a second identical frame is
dispatched and publishes nothing. In general, for every timer command and
every value different from the backup, dispatching the frame publishes the
value to the timer's sink, and dispatching the same frame again publishes
nothing. -/
theorem C22_timer_scenario (s : State) (data : List Nat) (len : Nat)
    (hc : rd data FRAME_CONTROL_WORD_INDEX = 0x08) :
    ((feed (initState 4 10 10)
          [0x53, 0x59, 0x08, 0x8C, 0x00, 0x04, 0x00, 0x00, 0x00, 0x05, 0x49, 0x54,
            0x43]).published
        = [(Sink.custom_motion_trigger_time, Value.num 5)]
      ∧ (feed (initState 4 10 10)
          ([0x53, 0x59, 0x08, 0x8C, 0x00, 0x04, 0x00, 0x00, 0x00, 0x05, 0x49, 0x54, 0x43]
            ++ [0x53, 0x59, 0x08, 0x8C, 0x00, 0x04, 0x00, 0x00, 0x00, 0x05, 0x49, 0x54,
              0x43])).published
        = [(Sink.custom_motion_trigger_time, Value.num 5)]
      ∧ (feed (initState 4 10 10)
          ([0x53, 0x59, 0x08, 0x8C, 0x00, 0x04, 0x00, 0x00, 0x00, 0x05, 0x49, 0x54, 0x43]
            ++ [0x53, 0x59, 0x08, 0x8C, 0x00, 0x04, 0x00, 0x00, 0x00, 0x05, 0x49, 0x54,
              0x43])).dispatched.length = 2)
      ∧ (rd data FRAME_COMMAND_WORD_INDEX = 0x0c ∨ rd data FRAME_COMMAND_WORD_INDEX = 0x8c →
          s.sg_motion_trigger_time_bak ≠ timer_value data →
          (R24_parse_data_frame s data len).published
              = s.published
                ++ [(Sink.custom_motion_trigger_time, Value.num (timer_value data))]
            ∧ (R24_parse_data_frame (R24_parse_data_frame s data len) data len).published
              = (R24_parse_data_frame s data len).published)
      ∧ (rd data FRAME_COMMAND_WORD_INDEX = 0x0d ∨ rd data FRAME_COMMAND_WORD_INDEX = 0x8d →
          s.sg_move_to_rest_time_bak ≠ timer_value data →
          (R24_parse_data_frame s data len).published
              = s.published
                ++ [(Sink.custom_movement_to_rest_time, Value.num (timer_value data))]
            ∧ (R24_parse_data_frame (R24_parse_data_frame s data len) data len).published
              = (R24_parse_data_frame s data len).published)
      ∧ (rd data FRAME_COMMAND_WORD_INDEX = 0x0e ∨ rd data FRAME_COMMAND_WORD_INDEX = 0x8e →
          s.sg_enter_unmanned_time_bak ≠ timer_value data →
          (R24_parse_data_frame s data len).published
              = s.published
                ++ [(Sink.custom_time_of_enter_unmanned, Value.num (timer_value data))]
            ∧ (R24_parse_data_frame (R24_parse_data_frame s data len) data len).published
              = (R24_parse_data_frame s data len).published) := by
  refine ⟨by decide, ?_, ?_, ?_⟩
  · intro hs hv
    have h1 := parse_motion_trigger_time s data len hc hs
    rw [if_neg hv] at h1
    have h2 := parse_motion_trigger_time (R24_parse_data_frame s data len) data len hc hs
    rw [if_pos (by rw [h1])] at h2
    exact ⟨by rw [h1], by rw [h2]⟩
  · intro hs hv
    have h1 := parse_move_to_rest_time s data len hc hs
    rw [if_neg hv] at h1
    have h2 := parse_move_to_rest_time (R24_parse_data_frame s data len) data len hc hs
    rw [if_pos (by rw [h1])] at h2
    exact ⟨by rw [h1], by rw [h2]⟩
  · intro hs hv
    have h1 := parse_enter_unmanned_time s data len hc hs
    rw [if_neg hv] at h1
    have h2 := parse_enter_unmanned_time (R24_parse_data_frame s data len) data len hc hs
    rw [if_pos (by rw [h1])] at h2
    exact ⟨by rw [h1], by rw [h2]⟩

/-- Witness of C22: the movement-to-rest-time reply `53 59 08 8D 00 04 00
00 01 00 46 54 43` (value 256) dispatched from the initial state, whose
backup is 0. -/
theorem C22_timer_scenario_witness :
    rd [0x53, 0x59, 0x08, 0x8D, 0x00, 0x04, 0x00, 0x00, 0x01, 0x00, 0x46, 0x54, 0x43]
        FRAME_CONTROL_WORD_INDEX = 0x08
      ∧ (R24_parse_data_frame (initState 4 10 10)
          [0x53, 0x59, 0x08, 0x8D, 0x00, 0x04, 0x00, 0x00, 0x01, 0x00, 0x46, 0x54, 0x43]
          13).published
        = (initState 4 10 10).published
          ++ [(Sink.custom_movement_to_rest_time,
              Value.num (timer_value
                [0x53, 0x59, 0x08, 0x8D, 0x00, 0x04, 0x00, 0x00, 0x01, 0x00, 0x46, 0x54,
                  0x43]))] :=
  ⟨by decide,
    ((C22_timer_scenario (initState 4 10 10)
      [0x53, 0x59, 0x08, 0x8D, 0x00, 0x04, 0x00, 0x00, 0x01, 0x00, 0x46, 0x54, 0x43] 13
      (by decide)).2.2.1 (Or.inr (by decide)) (by decide)).1⟩

/-- C23. Timer decode: for OpenInfo commands 0x0c/0x8c, 0x0d/0x8d and
0x0e/0x8e the decoded 32-bit value of payload bytes `b0..b3` (any bytes,
also `b0 >= 0x80`) is `b0*2^24 + b1*2^16 + b2*2^8 + b3`, and dispatching the
frame publishes it to the motion-trigger-time, movement-to-rest-time and
enter-unmanned-time sink respectively, and stores it in that timer's backup,
exactly when it differs from the backup; when it equals the backup nothing is
published. -/
theorem C23_timer_decode (s : State) (data : List Nat) (len : Nat)
    (hc : rd data FRAME_CONTROL_WORD_INDEX = 0x08)
    (h0 : rd data FRAME_DATA_INDEX < 256) (h1 : rd data (FRAME_DATA_INDEX + 1) < 256)
    (h2 : rd data (FRAME_DATA_INDEX + 2) < 256) (h3 : rd data (FRAME_DATA_INDEX + 3) < 256) :
    timer_value data
        = rd data FRAME_DATA_INDEX * 2 ^ 24 + rd data (FRAME_DATA_INDEX + 1) * 2 ^ 16
          + rd data (FRAME_DATA_INDEX + 2) * 2 ^ 8 + rd data (FRAME_DATA_INDEX + 3)
      ∧ (rd data FRAME_COMMAND_WORD_INDEX = 0x0c ∨ rd data FRAME_COMMAND_WORD_INDEX = 0x8c →
          R24_parse_data_frame s data len
            = if s.sg_motion_trigger_time_bak = timer_value data then
                { s with dispatched := s.dispatched ++ [data.take len] }
              else
                { s with dispatched := s.dispatched ++ [data.take len]
                         published := s.published
                           ++ [(Sink.custom_motion_trigger_time,
                                Value.num (timer_value data))]
                         sg_motion_trigger_time_bak := timer_value data })
      ∧ (rd data FRAME_COMMAND_WORD_INDEX = 0x0d ∨ rd data FRAME_COMMAND_WORD_INDEX = 0x8d →
          R24_parse_data_frame s data len
            = if s.sg_move_to_rest_time_bak = timer_value data then
                { s with dispatched := s.dispatched ++ [data.take len] }
              else
                { s with dispatched := s.dispatched ++ [data.take len]
                         published := s.published
                           ++ [(Sink.custom_movement_to_rest_time,
                                Value.num (timer_value data))]
                         sg_move_to_rest_time_bak := timer_value data })
      ∧ (rd data FRAME_COMMAND_WORD_INDEX = 0x0e ∨ rd data FRAME_COMMAND_WORD_INDEX = 0x8e →
          R24_parse_data_frame s data len
            = if s.sg_enter_unmanned_time_bak = timer_value data then
                { s with dispatched := s.dispatched ++ [data.take len] }
              else
                { s with dispatched := s.dispatched ++ [data.take len]
                         published := s.published
                           ++ [(Sink.custom_time_of_enter_unmanned,
                                Value.num (timer_value data))]
                         sg_enter_unmanned_time_bak := timer_value data }) :=
  ⟨timer_value_bytes data h0 h1 h2 h3,
    parse_motion_trigger_time s data len hc,
    parse_move_to_rest_time s data len hc,
    parse_enter_unmanned_time s data len hc⟩

/-- Witness of C23: the enter-unmanned-time reply with payload `80 00 01
02` (`b0 = 0x80`): the decoded value is 2147483906. -/
theorem C23_timer_decode_witness :
    rd [0x53, 0x59, 0x08, 0x8E, 0x00, 0x04, 0x80, 0x00, 0x01, 0x02, 0xC9, 0x54, 0x43]
        FRAME_CONTROL_WORD_INDEX = 0x08
      ∧ timer_value
          [0x53, 0x59, 0x08, 0x8E, 0x00, 0x04, 0x80, 0x00, 0x01, 0x02, 0xC9, 0x54, 0x43]
        = 2147483906 :=
  ⟨by decide,
    (C23_timer_decode (initState 4 10 10)
      [0x53, 0x59, 0x08, 0x8E, 0x00, 0x04, 0x80, 0x00, 0x01, 0x02, 0xC9, 0x54, 0x43] 13
      (by decide) (by decide) (by decide) (by decide) (by decide)).1⟩

/-- C24. Burst-report scaling: dispatching the OpenInfo 0x01 report
publishes, for each of its five fields whose byte differs from the backup,
one entry, in field order: the static distance as `raw * 0.5`, the motion
distance as `raw * 0.5`, the motion speed as `(raw - 10) * 0.5` with the
subtraction in signed arithmetic (the replies 0x84 and 0x85 publish the
motion distance and the motion speed the same way). As numbers these are
`raw/2`, `raw/2` and `(raw - 10)/2`: raw 10 gives speed 0, every raw above 10
a positive speed, every raw below 10 a negative speed, and raw 0 gives -5. -/
theorem C24_burst_report_scaling (s : State) (data : List Nat) (len : Nat) (raw : Nat)
    (hc : rd data FRAME_CONTROL_WORD_INDEX = 0x08) :
    (rd data FRAME_COMMAND_WORD_INDEX = 0x01 →
      (R24_parse_data_frame s data len).published
        = s.published
          ++ (if s.sg_spatial_static_value_bak = rd data FRAME_DATA_INDEX then []
              else [(Sink.custom_spatial_static_value, Value.num (rd data FRAME_DATA_INDEX))])
          ++ (if s.sg_static_distance_bak = rd data (FRAME_DATA_INDEX + 1) then []
              else [(Sink.custom_static_distance,
                      Value.half (rd data (FRAME_DATA_INDEX + 1)))])
          ++ (if s.sg_spatial_motion_value_bak = rd data (FRAME_DATA_INDEX + 2) then []
              else [(Sink.custom_spatial_motion_value,
                      Value.num (rd data (FRAME_DATA_INDEX + 2)))])
          ++ (if s.sg_motion_distance_bak = rd data (FRAME_DATA_INDEX + 3) then []
              else [(Sink.custom_motion_distance,
                      Value.half (rd data (FRAME_DATA_INDEX + 3)))])
          ++ (if s.sg_motion_speed_bak = rd data (FRAME_DATA_INDEX + 4) then []
              else [(Sink.custom_motion_speed,
                      Value.half ((rd data (FRAME_DATA_INDEX + 4) : Int) - 10))]))
      ∧ (rd data FRAME_COMMAND_WORD_INDEX = 0x84 →
        (R24_parse_data_frame s data len).published
          = s.published
            ++ (if s.sg_motion_distance_bak = rd data FRAME_DATA_INDEX then []
                else [(Sink.custom_motion_distance, Value.half (rd data FRAME_DATA_INDEX))]))
      ∧ (rd data FRAME_COMMAND_WORD_INDEX = 0x85 →
        (R24_parse_data_frame s data len).published
          = s.published
            ++ (if s.sg_motion_speed_bak = rd data FRAME_DATA_INDEX then []
                else [(Sink.custom_motion_speed,
                        Value.half ((rd data FRAME_DATA_INDEX : Int) - 10))]))
      ∧ (Value.half (raw : Int)).number = some ((raw : Rat) / 2)
      ∧ (Value.half ((raw : Int) - 10)).number = some (((raw : Rat) - 10) / 2)
      ∧ (raw = 10 → (Value.half ((raw : Int) - 10)).number = some 0)
      ∧ (10 < raw → ∃ q : Rat, 0 < q ∧ (Value.half ((raw : Int) - 10)).number = some q)
      ∧ (raw < 10 → ∃ q : Rat, q < 0 ∧ (Value.half ((raw : Int) - 10)).number = some q)
      ∧ (raw = 0 → (Value.half ((raw : Int) - 10)).number = some (-5)) := by
  refine ⟨?_, ?_, ?_, ?_, ?_, ?_, ?_, ?_, ?_⟩
  · intro hs
    rw [parse_radar_report s data len hc hs]
    exact radar_report_published _ data
  · intro hs
    rw [parse_motion_distance s data len hc hs, report_motion_distance_eq]
    by_cases hv : s.sg_motion_distance_bak = rd data FRAME_DATA_INDEX
    · rw [if_pos hv, if_pos hv, List.append_nil]
    · rw [if_neg hv, if_neg hv]
  · intro hs
    rw [parse_motion_speed s data len hc hs, report_motion_speed_eq]
    by_cases hv : s.sg_motion_speed_bak = rd data FRAME_DATA_INDEX
    · rw [if_pos hv, if_pos hv, List.append_nil]
    · rw [if_neg hv, if_neg hv]
  · simp [Value.number]
  · simp [Value.number]
  · intro h
    subst h
    simp [Value.number]
  · intro h
    refine ⟨((raw : Rat) - 10) / 2, ?_, by simp [Value.number]⟩
    have h1 : (10 : Rat) < (raw : Rat) := by exact_mod_cast h
    linarith
  · intro h
    refine ⟨((raw : Rat) - 10) / 2, ?_, by simp [Value.number]⟩
    have h1 : (raw : Rat) < 10 := by exact_mod_cast h
    linarith
  · intro h
    subst h
    simp only [Value.number]
    norm_num

/-- Witness of C24: the report `53 59 08 01 00 05 28 03 32 04 04 1F 54 43`
(static distance raw 3, motion distance raw 4, motion speed raw 4) dispatched
from the initial state: all five fields are published, the speed as
`(4 - 10) * 0.5`. -/
theorem C24_burst_report_scaling_witness :
    rd [0x53, 0x59, 0x08, 0x01, 0x00, 0x05, 0x28, 0x03, 0x32, 0x04, 0x04, 0x1F, 0x54, 0x43]
        FRAME_CONTROL_WORD_INDEX = 0x08
      ∧ (R24_parse_data_frame (initState 4 10 10)
          [0x53, 0x59, 0x08, 0x01, 0x00, 0x05, 0x28, 0x03, 0x32, 0x04, 0x04, 0x1F, 0x54, 0x43]
          14).published
        = [(Sink.custom_spatial_static_value, Value.num 0x28),
            (Sink.custom_static_distance, Value.half 3),
            (Sink.custom_spatial_motion_value, Value.num 0x32),
            (Sink.custom_motion_distance, Value.half 4),
            (Sink.custom_motion_speed, Value.half (-6))] :=
  ⟨by decide,
    (C24_burst_report_scaling (initState 4 10 10)
      [0x53, 0x59, 0x08, 0x01, 0x00, 0x05, 0x28, 0x03, 0x32, 0x04, 0x04, 0x1F, 0x54, 0x43]
      14 4 (by decide)).1 (by decide)⟩

/-! ## The decode claims -/

/-- C25. Detection-range decode: for control 0x07 the published distance
is `256*b0 + b1` (between 0 and 65535 when `b0` and `b1` are bytes); commands
0x01 and 0x81 publish it as the moving-target maximum distance, commands 0x04
and 0x84 as the static-target maximum distance, and any other command
publishes nothing (only the dispatch log grows). -/
theorem C25_detection_range_decode (s : State) (data : List Nat) (len : Nat)
    (hc : rd data FRAME_CONTROL_WORD_INDEX = 0x07) :
    (detection_distance data
        = 256 * (rd data FRAME_DATA_INDEX : Int) + (rd data (FRAME_DATA_INDEX + 1) : Int))
      ∧ (rd data FRAME_DATA_INDEX < 256 → rd data (FRAME_DATA_INDEX + 1) < 256 →
          0 ≤ detection_distance data ∧ detection_distance data ≤ 65535)
      ∧ (rd data FRAME_COMMAND_WORD_INDEX = 0x01 ∨ rd data FRAME_COMMAND_WORD_INDEX = 0x81 →
          R24_parse_data_frame s data len
            = { s with dispatched := s.dispatched ++ [data.take len]
                       published := s.published
                         ++ [(Sink.moving_target_detection_max_distance,
                              Value.num (detection_distance data))] })
      ∧ (rd data FRAME_COMMAND_WORD_INDEX = 0x04 ∨ rd data FRAME_COMMAND_WORD_INDEX = 0x84 →
          R24_parse_data_frame s data len
            = { s with dispatched := s.dispatched ++ [data.take len]
                       published := s.published
                         ++ [(Sink.static_target_detection_max_distance,
                              Value.num (detection_distance data))] })
      ∧ (rd data FRAME_COMMAND_WORD_INDEX ∉ [0x01, 0x04, 0x81, 0x84] →
          R24_parse_data_frame s data len
            = { s with dispatched := s.dispatched ++ [data.take len] }) := by
  rw [parse_detection_range s data len hc]
  refine ⟨?_, ?_, ?_, ?_, ?_⟩
  · unfold detection_distance
    ring
  · intro h0 h1
    unfold detection_distance
    omega
  · rintro (h | h)
    · rw [detection_range_cmd_01 _ _ h]; rfl
    · rw [detection_range_cmd_81 _ _ h]; rfl
  · rintro (h | h)
    · rw [detection_range_cmd_04 _ _ h]; rfl
    · rw [detection_range_cmd_84 _ _ h]; rfl
  · intro h
    rw [detection_range_unhandled _ _ (fun c hm e => h (e ▸ hm))]

/-- Witness of C25: the moving-target reply `53 59 07 81 00 02 01 2C 63 54
43` (distance 0x012C = 300) dispatched from the initial state. -/
theorem C25_detection_range_decode_witness :
    rd [0x53, 0x59, 0x07, 0x81, 0x00, 0x02, 0x01, 0x2C, 0x63, 0x54, 0x43]
        FRAME_CONTROL_WORD_INDEX = 0x07
      ∧ (R24_parse_data_frame (initState 4 10 10)
          [0x53, 0x59, 0x07, 0x81, 0x00, 0x02, 0x01, 0x2C, 0x63, 0x54, 0x43] 11).published
        = [(Sink.moving_target_detection_max_distance, Value.num 300)] :=
  ⟨by decide, by
    rw [(C25_detection_range_decode (initState 4 10 10)
      [0x53, 0x59, 0x07, 0x81, 0x00, 0x02, 0x01, 0x2C, 0x63, 0x54, 0x43] 11 (by decide)).2.2.1
      (Or.inr (by decide))]
    rfl⟩

/-- C26. Human-family bounded enumerations: for control 0x80, commands
0x02/0x82 publish `s_motion_status_str[b]` when payload byte `b <= 2`,
commands 0x0A/0x8A publish `s_unmanned_time_str[b]` when `b <= 8`, and
commands 0x0B/0x8B publish `s_keep_away_str[b]` when `b <= 2`; for any larger
`b` nothing is published (only the dispatch log grows). -/
theorem C26_human_bounded_enumerations (s : State) (data : List Nat) (len : Nat)
    (hc : rd data FRAME_CONTROL_WORD_INDEX = 0x80) :
    (rd data FRAME_COMMAND_WORD_INDEX = 0x02 ∨ rd data FRAME_COMMAND_WORD_INDEX = 0x82 →
        (rd data FRAME_DATA_INDEX ≤ 2 →
          ∃ name, s_motion_status_str[rd data FRAME_DATA_INDEX]? = some name
            ∧ R24_parse_data_frame s data len
              = { s with dispatched := s.dispatched ++ [data.take len]
                         published := s.published ++ [(Sink.motion_status, Value.text name)] })
        ∧ (2 < rd data FRAME_DATA_INDEX →
          R24_parse_data_frame s data len
            = { s with dispatched := s.dispatched ++ [data.take len] }))
      ∧ (rd data FRAME_COMMAND_WORD_INDEX = 0x0A ∨ rd data FRAME_COMMAND_WORD_INDEX = 0x8A →
        (rd data FRAME_DATA_INDEX ≤ 8 →
          ∃ name, s_unmanned_time_str[rd data FRAME_DATA_INDEX]? = some name
            ∧ R24_parse_data_frame s data len
              = { s with dispatched := s.dispatched ++ [data.take len]
                         published := s.published ++ [(Sink.unmanned_time, Value.text name)] })
        ∧ (8 < rd data FRAME_DATA_INDEX →
          R24_parse_data_frame s data len
            = { s with dispatched := s.dispatched ++ [data.take len] }))
      ∧ (rd data FRAME_COMMAND_WORD_INDEX = 0x0B ∨ rd data FRAME_COMMAND_WORD_INDEX = 0x8B →
        (rd data FRAME_DATA_INDEX ≤ 2 →
          ∃ name, s_keep_away_str[rd data FRAME_DATA_INDEX]? = some name
            ∧ R24_parse_data_frame s data len
              = { s with dispatched := s.dispatched ++ [data.take len]
                         published := s.published ++ [(Sink.keep_away, Value.text name)] })
        ∧ (2 < rd data FRAME_DATA_INDEX →
          R24_parse_data_frame s data len
            = { s with dispatched := s.dispatched ++ [data.take len] })) := by
  rw [parse_human s data len hc]
  refine ⟨?_, ?_, ?_⟩
  · intro hs
    have hb : R24_frame_parse_human_information
          { s with dispatched := s.dispatched ++ [data.take len] } data
        = if rd data FRAME_DATA_INDEX < 3 ∧ rd data FRAME_DATA_INDEX ≥ 0 then
            publish { s with dispatched := s.dispatched ++ [data.take len] } Sink.motion_status
              (table_entry s_motion_status_str (rd data FRAME_DATA_INDEX))
          else { s with dispatched := s.dispatched ++ [data.take len] } := by
      rcases hs with h | h
      · exact human_cmd_02 _ _ h
      · exact human_cmd_82 _ _ h
    rw [hb]
    constructor
    · intro h2
      rw [if_pos ⟨by omega, Nat.zero_le _⟩]
      generalize rd data FRAME_DATA_INDEX = b at h2
      interval_cases b
      · exact ⟨_, rfl, rfl⟩
      · exact ⟨_, rfl, rfl⟩
      · exact ⟨_, rfl, rfl⟩
    · intro h2
      rw [if_neg (by omega)]
  · intro hs
    have hb : R24_frame_parse_human_information
          { s with dispatched := s.dispatched ++ [data.take len] } data
        = if rd data FRAME_DATA_INDEX < 9 ∧ rd data FRAME_DATA_INDEX ≥ 0 then
            publish { s with dispatched := s.dispatched ++ [data.take len] } Sink.unmanned_time
              (table_entry s_unmanned_time_str (rd data FRAME_DATA_INDEX))
          else { s with dispatched := s.dispatched ++ [data.take len] } := by
      rcases hs with h | h
      · exact human_cmd_0A _ _ h
      · exact human_cmd_8A _ _ h
    rw [hb]
    constructor
    · intro h2
      rw [if_pos ⟨by omega, Nat.zero_le _⟩]
      generalize rd data FRAME_DATA_INDEX = b at h2
      interval_cases b
      · exact ⟨_, rfl, rfl⟩
      · exact ⟨_, rfl, rfl⟩
      · exact ⟨_, rfl, rfl⟩
      · exact ⟨_, rfl, rfl⟩
      · exact ⟨_, rfl, rfl⟩
      · exact ⟨_, rfl, rfl⟩
      · exact ⟨_, rfl, rfl⟩
      · exact ⟨_, rfl, rfl⟩
      · exact ⟨_, rfl, rfl⟩
    · intro h2
      rw [if_neg (by omega)]
  · intro hs
    have hb : R24_frame_parse_human_information
          { s with dispatched := s.dispatched ++ [data.take len] } data
        = if rd data FRAME_DATA_INDEX < 3 ∧ rd data FRAME_DATA_INDEX ≥ 0 then
            publish { s with dispatched := s.dispatched ++ [data.take len] } Sink.keep_away
              (table_entry s_keep_away_str (rd data FRAME_DATA_INDEX))
          else { s with dispatched := s.dispatched ++ [data.take len] } := by
      rcases hs with h | h
      · exact human_cmd_0B _ _ h
      · exact human_cmd_8B _ _ h
    rw [hb]
    constructor
    · intro h2
      rw [if_pos ⟨by omega, Nat.zero_le _⟩]
      generalize rd data FRAME_DATA_INDEX = b at h2
      interval_cases b
      · exact ⟨_, rfl, rfl⟩
      · exact ⟨_, rfl, rfl⟩
      · exact ⟨_, rfl, rfl⟩
    · intro h2
      rw [if_neg (by omega)]

/-- Witness of C26: the motion-status report `53 59 80 02 00 01 03 32 54
43` (payload 3, out of range) dispatched from the initial state publishes
nothing. -/
theorem C26_human_bounded_enumerations_witness :
    rd [0x53, 0x59, 0x80, 0x02, 0x00, 0x01, 0x03, 0x32, 0x54, 0x43] FRAME_CONTROL_WORD_INDEX
        = 0x80
      ∧ (R24_parse_data_frame (initState 4 10 10)
          [0x53, 0x59, 0x80, 0x02, 0x00, 0x01, 0x03, 0x32, 0x54, 0x43] 10).published = [] :=
  ⟨by decide, by
    rw [((C26_human_bounded_enumerations (initState 4 10 10)
      [0x53, 0x59, 0x80, 0x02, 0x00, 0x01, 0x03, 0x32, 0x54, 0x43] 10 (by decide)).1
      (Or.inl (by decide))).2 (by decide)]
    rfl⟩

/-- C27. Unknown frames are discarded: dispatching a frame whose control
word is not one of 0x01, 0x02, 0x05, 0x07, 0x08, 0x80 (no command word is
handled for it), or whose command word is not among those its family decoder
tests, publishes nothing and changes no variable: the dialect flag, the
cursor, the backup variables and the heartbeat flag are unchanged, and only
the dispatch log records the call. -/
theorem C27_unknown_frames_discarded (s : State) (data : List Nat) (len : Nat)
    (h : rd data FRAME_COMMAND_WORD_INDEX
      ∉ handled_commands (rd data FRAME_CONTROL_WORD_INDEX)) :
    R24_parse_data_frame s data len
      = { s with dispatched := s.dispatched ++ [data.take len] } := by
  unfold handled_commands at h
  by_cases h1 : rd data FRAME_CONTROL_WORD_INDEX = 0x01
  · rw [if_pos h1] at h
    exact parse_system s data len h1 (fun e => h (by rw [e]; decide))
  rw [if_neg h1] at h
  by_cases h2 : rd data FRAME_CONTROL_WORD_INDEX = 0x02
  · rw [if_pos h2] at h
    rw [parse_product s data len h2, product_unhandled _ _ (fun c hm e => h (e ▸ hm))]
  rw [if_neg h2] at h
  by_cases h5 : rd data FRAME_CONTROL_WORD_INDEX = 0x05
  · rw [if_pos h5] at h
    rw [parse_work_status s data len h5, work_status_unhandled _ _ (fun c hm e => h (e ▸ hm))]
  rw [if_neg h5] at h
  by_cases h7 : rd data FRAME_CONTROL_WORD_INDEX = 0x07
  · rw [if_pos h7] at h
    rw [parse_detection_range s data len h7,
      detection_range_unhandled _ _ (fun c hm e => h (e ▸ hm))]
  rw [if_neg h7] at h
  by_cases h8 : rd data FRAME_CONTROL_WORD_INDEX = 0x08
  · rw [if_pos h8] at h
    rw [parse_open s data len h8, open_unhandled _ _ (fun c hm e => h (e ▸ hm))]
  rw [if_neg h8] at h
  by_cases h80 : rd data FRAME_CONTROL_WORD_INDEX = 0x80
  · rw [if_pos h80] at h
    rw [parse_human s data len h80, human_unhandled _ _ (fun c hm e => h (e ▸ hm))]
  apply parse_unknown_control
  intro c hm
  simp only [List.mem_cons, List.mem_singleton, List.not_mem_nil, or_false] at hm
  rcases hm with e | e | e | e | e | e <;> rw [e] <;> assumption

/-- Witness of C27: a frame with the unknown control word 0x03 (`53 59 03
01 00 01 0F C0 54 43`) dispatched from the initial state leaves every
variable as it was. -/
theorem C27_unknown_frames_discarded_witness :
    rd [0x53, 0x59, 0x03, 0x01, 0x00, 0x01, 0x0F, 0xC0, 0x54, 0x43] FRAME_COMMAND_WORD_INDEX
        ∉ handled_commands
          (rd [0x53, 0x59, 0x03, 0x01, 0x00, 0x01, 0x0F, 0xC0, 0x54, 0x43]
            FRAME_CONTROL_WORD_INDEX)
      ∧ R24_parse_data_frame (initState 4 10 10)
          [0x53, 0x59, 0x03, 0x01, 0x00, 0x01, 0x0F, 0xC0, 0x54, 0x43] 10
        = { initState 4 10 10 with
            dispatched := [[0x53, 0x59, 0x03, 0x01, 0x00, 0x01, 0x0F, 0xC0, 0x54, 0x43]] } :=
  ⟨by decide,
    C27_unknown_frames_discarded (initState 4 10 10)
      [0x53, 0x59, 0x03, 0x01, 0x00, 0x01, 0x0F, 0xC0, 0x54, 0x43] 10 (by decide)⟩

/-- C28. Protocol-type decode: dispatching a Product frame (control 0x02)
with command 0xA5 stores payload byte 0 in `u_protocol_type` and publishes
exactly one string to the protocol-type sink: "Common protocols" if and only
if the byte is 1, "Tuya WIFI protocol" if and only if it is 3, and "Unknown
agreement type" for every other byte value. -/
theorem C28_protocol_type_decode (s : State) (data : List Nat) (len : Nat)
    (hc : rd data FRAME_CONTROL_WORD_INDEX = 0x02)
    (hs : rd data FRAME_COMMAND_WORD_INDEX = 0xA5) :
    ∃ str : String,
      R24_parse_data_frame s data len
          = { s with dispatched := s.dispatched ++ [data.take len]
                     u_protocol_type := rd data FRAME_DATA_INDEX
                     published := s.published ++ [(Sink.protocol_type, Value.text str)] }
        ∧ (str = "Common protocols" ↔ rd data FRAME_DATA_INDEX = 1)
        ∧ (str = "Tuya WIFI protocol" ↔ rd data FRAME_DATA_INDEX = 3)
        ∧ (str = "Unknown agreement type"
            ↔ rd data FRAME_DATA_INDEX ≠ 1 ∧ rd data FRAME_DATA_INDEX ≠ 3) := by
  rw [parse_product s data len hc, product_cmd_A5 _ _ hs]
  by_cases h1 : rd data FRAME_DATA_INDEX = 1
  · refine ⟨"Common protocols", ?_, ?_, ?_, ?_⟩
    · simp only [h1]
      rfl
    · simp [h1]
    · simp [h1]
    · simp [h1]
  · by_cases h3 : rd data FRAME_DATA_INDEX = 3
    · refine ⟨"Tuya WIFI protocol", ?_, ?_, ?_, ?_⟩
      · simp only [h3]
        rfl
      · simp [h3]
      · simp [h3]
      · simp [h3]
    · refine ⟨"Unknown agreement type", ?_, ?_, ?_, ?_⟩
      · simp only [h1, h3, if_false]
        rfl
      · simp [h1]
      · simp [h3]
      · simp [h1, h3]

/-- Witness of C28: the protocol-type reply `53 59 02 A5 00 01 03 57 54 43`
(payload 3) dispatched from the initial state publishes "Tuya WIFI
protocol". -/
theorem C28_protocol_type_decode_witness :
    rd [0x53, 0x59, 0x02, 0xA5, 0x00, 0x01, 0x03, 0x57, 0x54, 0x43] FRAME_CONTROL_WORD_INDEX
        = 0x02
      ∧ rd [0x53, 0x59, 0x02, 0xA5, 0x00, 0x01, 0x03, 0x57, 0x54, 0x43]
          FRAME_COMMAND_WORD_INDEX = 0xA5
      ∧ ∃ str : String,
          R24_parse_data_frame (initState 4 10 10)
              [0x53, 0x59, 0x02, 0xA5, 0x00, 0x01, 0x03, 0x57, 0x54, 0x43] 10
            = { initState 4 10 10 with
                dispatched := (initState 4 10 10).dispatched
                  ++ [[0x53, 0x59, 0x02, 0xA5, 0x00, 0x01, 0x03, 0x57, 0x54, 0x43].take 10]
                u_protocol_type :=
                  rd [0x53, 0x59, 0x02, 0xA5, 0x00, 0x01, 0x03, 0x57, 0x54, 0x43]
                    FRAME_DATA_INDEX
                published := (initState 4 10 10).published
                  ++ [(Sink.protocol_type, Value.text str)] }
            ∧ str = "Tuya WIFI protocol" :=
  ⟨by decide, by decide, by
    obtain ⟨str, h1, _, h3, _⟩ := C28_protocol_type_decode (initState 4 10 10)
      [0x53, 0x59, 0x02, 0xA5, 0x00, 0x01, 0x03, 0x57, 0x54, 0x43] 10 (by decide) (by decide)
    exact ⟨str, h1, h3.2 (by decide)⟩⟩

/-- C29. System-family decode: dispatching a frame with control 0x01 and
command 0x01 sets `sg_heartbeat_flag` to 1 (Normal) and changes nothing else
(the call is recorded in the dispatch log); a frame with control 0x01 and
command 0x02 changes no state and publishes nothing. -/
theorem C29_system_family_decode (s : State) (data : List Nat) (len : Nat)
    (hc : rd data FRAME_CONTROL_WORD_INDEX = 0x01) :
    (rd data FRAME_COMMAND_WORD_INDEX = 0x01 →
        R24_parse_data_frame s data len
          = { s with dispatched := s.dispatched ++ [data.take len], sg_heartbeat_flag := 1 })
      ∧ (rd data FRAME_COMMAND_WORD_INDEX = 0x02 →
        R24_parse_data_frame s data len
          = { s with dispatched := s.dispatched ++ [data.take len] }) := by
  constructor
  · intro hs
    exact parse_heartbeat s data len hc hs
  · intro hs
    exact parse_system s data len hc (by rw [hs]; decide)

/-- Witness of C29: the heartbeat reply `53 59 01 01 00 01 0F BE 54 43`
dispatched from the initial state. -/
theorem C29_system_family_decode_witness :
    rd [0x53, 0x59, 0x01, 0x01, 0x00, 0x01, 0x0F, 0xBE, 0x54, 0x43] FRAME_CONTROL_WORD_INDEX
        = 0x01
      ∧ (R24_parse_data_frame (initState 4 10 10)
          [0x53, 0x59, 0x01, 0x01, 0x00, 0x01, 0x0F, 0xBE, 0x54, 0x43] 10).sg_heartbeat_flag = 1
      ∧ (R24_parse_data_frame (initState 4 10 10)
          [0x53, 0x59, 0x01, 0x01, 0x00, 0x01, 0x0F, 0xBE, 0x54, 0x43] 10).published = [] :=
  ⟨by decide, by
    rw [(C29_system_family_decode (initState 4 10 10)
      [0x53, 0x59, 0x01, 0x01, 0x00, 0x01, 0x0F, 0xBE, 0x54, 0x43] 10 (by decide)).1
      (by decide)], by
    rw [(C29_system_family_decode (initState 4 10 10)
      [0x53, 0x59, 0x01, 0x01, 0x00, 0x01, 0x0F, 0xBE, 0x54, 0x43] 10 (by decide)).1
      (by decide)]
    rfl⟩

/-- C30. Malformed length-high byte: in state `FRAME_DATA_LEN_H` every
byte greater than 4 moves the decoder to `FRAME_IDLE` with `sg_data_len`
reset to 0 and changes nothing else; and the bytes `53 59 CC SS h` with
`h > 4`, fed to an idle decoder, dispatch no frame and leave the decoder idle
with `sg_data_len = 0`. -/
theorem C30_malformed_length_high (s t : State) (cc ss h : Nat)
    (hs : s.sg_recv_data_state = FRAME_DATA_LEN_H)
    (ht : t.sg_recv_data_state = FRAME_IDLE)
    (hh : 4 < h) :
    R24_split_data_frame s h = { s with sg_data_len := 0, sg_recv_data_state := FRAME_IDLE }
      ∧ (feed t [0x53, 0x59, cc, ss, h]).dispatched = t.dispatched
      ∧ (feed t [0x53, 0x59, cc, ss, h]).published = t.published
      ∧ (feed t [0x53, 0x59, cc, ss, h]).sg_recv_data_state = FRAME_IDLE
      ∧ (feed t [0x53, 0x59, cc, ss, h]).sg_data_len = 0 := by
  have hh4 : ¬ h ≤ 4 := by omega
  refine ⟨?_, ?_⟩
  · unfold R24_split_data_frame
    rw [if_neg (by rw [hs]; decide), if_neg (by rw [hs]; decide), if_neg (by rw [hs]; decide),
      if_neg (by rw [hs]; decide), if_pos hs, if_neg hh4]
  · simp [feed, R24_split_data_frame, frame_buf_store, store_length, store_length_else, ht, hh4,
      FRAME_IDLE, FRAME_HEADER2, FRAME_CTL_WORLD, FRAME_CMD_WORLD, FRAME_DATA_LEN_H,
      FRAME_HEADER1_VALUE, FRAME_HEADER2_VALUE]

/-- Witness of C30: the byte 0x06 in state `FRAME_DATA_LEN_H` (reached from
the initial state by `53 59 01 01`), and the bytes `53 59 01 01 06` fed to
the initial state. -/
theorem C30_malformed_length_high_witness :
    (feed (initState 4 10 10) [0x53, 0x59, 0x01, 0x01]).sg_recv_data_state = FRAME_DATA_LEN_H
      ∧ (R24_split_data_frame (feed (initState 4 10 10) [0x53, 0x59, 0x01, 0x01])
          0x06).sg_recv_data_state = FRAME_IDLE
      ∧ (feed (initState 4 10 10) [0x53, 0x59, 0x01, 0x01, 0x06]).dispatched = [] :=
  ⟨by decide, by
    rw [(C30_malformed_length_high (feed (initState 4 10 10) [0x53, 0x59, 0x01, 0x01])
      (initState 4 10 10) 0x01 0x01 0x06 (by decide) (by decide) (by decide)).1],
    (C30_malformed_length_high (feed (initState 4 10 10) [0x53, 0x59, 0x01, 0x01])
      (initState 4 10 10) 0x01 0x01 0x06 (by decide) (by decide) (by decide)).2.1⟩

/-! ## Tail, cache and sweep-restart claims -/

/-- The `FRAME_TAIL2` case of `R24_split_data_frame`, unfolded. -/
theorem split_tail2 (s : State) (value : Nat) (h : s.sg_recv_data_state = FRAME_TAIL2) :
    R24_split_data_frame s value
      = frame_reset
          (if FRAME_TAIL2_VALUE = value then
            (if get_frame_check_status
                  (memcpy (frame_buf_push (frame_buf_push s FRAME_TAIL1_VALUE)
                      FRAME_TAIL2_VALUE).sg_frame_prase_buf
                    (frame_buf_push (frame_buf_push s FRAME_TAIL1_VALUE)
                      FRAME_TAIL2_VALUE).sg_frame_buf
                    (frame_buf_push (frame_buf_push s FRAME_TAIL1_VALUE)
                      FRAME_TAIL2_VALUE).sg_frame_len)
                  (frame_buf_push (frame_buf_push s FRAME_TAIL1_VALUE)
                      FRAME_TAIL2_VALUE).sg_frame_len ≠ 0 then
              R24_parse_data_frame
                { frame_buf_push (frame_buf_push s FRAME_TAIL1_VALUE) FRAME_TAIL2_VALUE with
                  sg_frame_prase_buf := memcpy (frame_buf_push (frame_buf_push s FRAME_TAIL1_VALUE)
                      FRAME_TAIL2_VALUE).sg_frame_prase_buf
                    (frame_buf_push (frame_buf_push s FRAME_TAIL1_VALUE)
                      FRAME_TAIL2_VALUE).sg_frame_buf
                    (frame_buf_push (frame_buf_push s FRAME_TAIL1_VALUE)
                      FRAME_TAIL2_VALUE).sg_frame_len }
                (memcpy (frame_buf_push (frame_buf_push s FRAME_TAIL1_VALUE)
                      FRAME_TAIL2_VALUE).sg_frame_prase_buf
                    (frame_buf_push (frame_buf_push s FRAME_TAIL1_VALUE)
                      FRAME_TAIL2_VALUE).sg_frame_buf
                    (frame_buf_push (frame_buf_push s FRAME_TAIL1_VALUE)
                      FRAME_TAIL2_VALUE).sg_frame_len)
                (frame_buf_push (frame_buf_push s FRAME_TAIL1_VALUE)
                      FRAME_TAIL2_VALUE).sg_frame_len
            else
              { frame_buf_push (frame_buf_push s FRAME_TAIL1_VALUE) FRAME_TAIL2_VALUE with
                  sg_frame_prase_buf := memcpy (frame_buf_push (frame_buf_push s FRAME_TAIL1_VALUE)
                      FRAME_TAIL2_VALUE).sg_frame_prase_buf
                    (frame_buf_push (frame_buf_push s FRAME_TAIL1_VALUE)
                      FRAME_TAIL2_VALUE).sg_frame_buf
                    (frame_buf_push (frame_buf_push s FRAME_TAIL1_VALUE)
                      FRAME_TAIL2_VALUE).sg_frame_len })
          else s) := by
  unfold R24_split_data_frame
  rw [if_neg (by rw [h]; decide), if_neg (by rw [h]; decide), if_neg (by rw [h]; decide),
    if_neg (by rw [h]; decide), if_neg (by rw [h]; decide), if_neg (by rw [h]; decide),
    if_neg (by rw [h]; decide), if_neg (by rw [h]; decide), if_neg (by rw [h]; decide),
    if_pos h]

/-- The `FRAME_TAIL1` case of `R24_split_data_frame`, unfolded. -/
theorem split_tail1 (s : State) (value : Nat) (h : s.sg_recv_data_state = FRAME_TAIL1) :
    R24_split_data_frame s value
      = if FRAME_TAIL1_VALUE = value then { s with sg_recv_data_state := FRAME_TAIL2 }
        else { s with sg_recv_data_state := FRAME_IDLE, sg_frame_len := 0, sg_data_len := 0 } := by
  unfold R24_split_data_frame
  rw [if_neg (by rw [h]; decide), if_neg (by rw [h]; decide), if_neg (by rw [h]; decide),
    if_neg (by rw [h]; decide), if_neg (by rw [h]; decide), if_neg (by rw [h]; decide),
    if_neg (by rw [h]; decide), if_neg (by rw [h]; decide), if_pos h]

theorem parse_frame_buf (s : State) (data : List Nat) (len : Nat) :
    (R24_parse_data_frame s data len).sg_frame_buf = s.sg_frame_buf := by
  unfold R24_parse_data_frame
  exact (dispatchFrame_control_word _ _).2.2.2.1

theorem parse_frame_prase_buf (s : State) (data : List Nat) (len : Nat) :
    (R24_parse_data_frame s data len).sg_frame_prase_buf = s.sg_frame_prase_buf := by
  unfold R24_parse_data_frame
  exact (dispatchFrame_control_word _ _).2.2.2.2.1

theorem parse_frame_len (s : State) (data : List Nat) (len : Nat) :
    (R24_parse_data_frame s data len).sg_frame_len = s.sg_frame_len := by
  unfold R24_parse_data_frame
  exact (dispatchFrame_control_word _ _).2.1

/-- C31. Tail mismatch: in state `FRAME_TAIL1` every byte other than 0x54
returns the decoder to `FRAME_IDLE` with `sg_frame_len = 0` and
`sg_data_len = 0` and changes nothing else; in state `FRAME_TAIL2` every byte
other than 0x43 runs only the final reset (both buffers cleared, both lengths
zeroed, `FRAME_IDLE`); in neither case is `R24_parse_data_frame` called (the
dispatch log is unchanged). -/
theorem C31_tail_mismatch (s : State) (value : Nat) :
    (s.sg_recv_data_state = FRAME_TAIL1 → value ≠ 0x54 →
        R24_split_data_frame s value
          = { s with sg_recv_data_state := FRAME_IDLE, sg_frame_len := 0, sg_data_len := 0 })
      ∧ (s.sg_recv_data_state = FRAME_TAIL2 → value ≠ 0x43 →
        R24_split_data_frame s value = frame_reset s
          ∧ (R24_split_data_frame s value).sg_recv_data_state = FRAME_IDLE
          ∧ (R24_split_data_frame s value).sg_frame_len = 0
          ∧ (R24_split_data_frame s value).sg_data_len = 0
          ∧ (R24_split_data_frame s value).dispatched = s.dispatched) := by
  constructor
  · intro h hv
    rw [split_tail1 s value h, if_neg (fun e => hv e.symm)]
  · intro h hv
    rw [split_tail2 s value h, if_neg (fun e => hv e.symm)]
    exact ⟨rfl, rfl, rfl, rfl, rfl⟩

/-- Witness of C31: the frame `53 59 01 01 00 01 0F BE` followed by 0x55
instead of the first tail byte, and followed by `54 44` instead of the tail,
fed from the initial state. -/
theorem C31_tail_mismatch_witness :
    (feed (initState 4 10 10)
        [0x53, 0x59, 0x01, 0x01, 0x00, 0x01, 0x0F, 0xBE]).sg_recv_data_state = FRAME_TAIL1
      ∧ (R24_split_data_frame
          (feed (initState 4 10 10) [0x53, 0x59, 0x01, 0x01, 0x00, 0x01, 0x0F, 0xBE])
          0x55).sg_recv_data_state = FRAME_IDLE
      ∧ (feed (initState 4 10 10)
        [0x53, 0x59, 0x01, 0x01, 0x00, 0x01, 0x0F, 0xBE, 0x54]).sg_recv_data_state = FRAME_TAIL2
      ∧ (R24_split_data_frame
          (feed (initState 4 10 10) [0x53, 0x59, 0x01, 0x01, 0x00, 0x01, 0x0F, 0xBE, 0x54])
          0x44).dispatched = [] :=
  ⟨by decide, by
    rw [(C31_tail_mismatch
      (feed (initState 4 10 10) [0x53, 0x59, 0x01, 0x01, 0x00, 0x01, 0x0F, 0xBE]) 0x55).1
      (by decide) (by decide)],
    by decide,
    ((C31_tail_mismatch
      (feed (initState 4 10 10) [0x53, 0x59, 0x01, 0x01, 0x00, 0x01, 0x0F, 0xBE, 0x54])
      0x44).2 (by decide) (by decide)).2.2.2.2⟩

/-- C32. Unconditional reset after the final tail byte: in state
`FRAME_TAIL2`, for every input byte (tail matching or not, checksum valid or
not), after the step the decoder is in `FRAME_IDLE`, `sg_frame_len = 0`,
`sg_data_len = 0`, and the 128 entries of `sg_frame_buf` and of
`sg_frame_prase_buf` are zero. -/
theorem C32_unconditional_reset (s : State) (value : Nat)
    (h : s.sg_recv_data_state = FRAME_TAIL2)
    (hb : s.sg_frame_buf.length = FRAME_BUF_MAX_SIZE)
    (hp : s.sg_frame_prase_buf.length = FRAME_BUF_MAX_SIZE) :
    (R24_split_data_frame s value).sg_recv_data_state = FRAME_IDLE
      ∧ (R24_split_data_frame s value).sg_frame_len = 0
      ∧ (R24_split_data_frame s value).sg_data_len = 0
      ∧ (R24_split_data_frame s value).sg_frame_buf = List.replicate FRAME_BUF_MAX_SIZE 0
      ∧ (R24_split_data_frame s value).sg_frame_prase_buf
        = List.replicate FRAME_BUF_MAX_SIZE 0 := by
  rw [split_tail2 s value h]
  refine ⟨rfl, rfl, rfl, ?_, ?_⟩
  · show memset0 _ FRAME_BUF_MAX_SIZE = _
    have hl : ∀ buf : List Nat, buf.length = FRAME_BUF_MAX_SIZE →
        memset0 buf FRAME_BUF_MAX_SIZE = List.replicate FRAME_BUF_MAX_SIZE 0 := by
      intro buf hbuf
      unfold memset0
      rw [List.drop_eq_nil_of_le (by omega), List.append_nil]
    apply hl
    split
    · split
      · rw [parse_frame_buf]
        simp [frame_buf_push, frame_buf_store, store_length, store_length_else, hb]
      · simp [frame_buf_push, frame_buf_store, store_length, store_length_else, hb]
    · exact hb
  · show memset0 _ FRAME_BUF_MAX_SIZE = _
    have hl : ∀ buf : List Nat, buf.length = FRAME_BUF_MAX_SIZE →
        memset0 buf FRAME_BUF_MAX_SIZE = List.replicate FRAME_BUF_MAX_SIZE 0 := by
      intro buf hbuf
      unfold memset0
      rw [List.drop_eq_nil_of_le (by omega), List.append_nil]
    apply hl
    have hm : ∀ n : Nat, (memcpy (frame_buf_push (frame_buf_push s FRAME_TAIL1_VALUE)
                      FRAME_TAIL2_VALUE).sg_frame_prase_buf
        (frame_buf_push (frame_buf_push s FRAME_TAIL1_VALUE) FRAME_TAIL2_VALUE).sg_frame_buf
        n).length = FRAME_BUF_MAX_SIZE := by
      intro n
      simp only [memcpy, frame_buf_push, frame_buf_store, store_length, store_length_else, List.length_append, List.length_take,
        List.length_drop, List.length_set, hb, hp, FRAME_BUF_MAX_SIZE]
      omega
    split
    · split
      · rw [parse_frame_prase_buf]
        exact hm _
      · exact hm _
    · exact hp

/-- Witness of C32: the last byte of the frame `53 59 01 01 00 01 0F BE 54
43` fed from the initial state. -/
theorem C32_unconditional_reset_witness :
    (feed (initState 4 10 10)
        [0x53, 0x59, 0x01, 0x01, 0x00, 0x01, 0x0F, 0xBE, 0x54]).sg_recv_data_state = FRAME_TAIL2
      ∧ (R24_split_data_frame
          (feed (initState 4 10 10) [0x53, 0x59, 0x01, 0x01, 0x00, 0x01, 0x0F, 0xBE, 0x54])
          0x43).sg_frame_buf = List.replicate FRAME_BUF_MAX_SIZE 0 :=
  ⟨by decide,
    (C32_unconditional_reset
      (feed (initState 4 10 10) [0x53, 0x59, 0x01, 0x01, 0x00, 0x01, 0x0F, 0xBE, 0x54])
      0x43 (by decide) (by decide) (by decide)).2.2.2.1⟩

/-- C33. Change-cache invariant: for every change-cache-gated metric `m` a
frame of bytes carries with value `v` (body-movement amplitude, spatial static
value, static distance, spatial motion value, motion distance, motion speed:
the payload byte; the three timers: the big-endian number of the four payload
bytes) and every state, dispatching the frame notifies the sink of `m` once if
`v` differs from the backup and not at all if it equals it, and the backup
equals `v` afterwards in both cases. -/
theorem C33_change_cache_invariant (s : State) (data : List Nat) (len : Nat)
    (m : Metric) (v : Nat) (hb : ∀ b ∈ data, b < 256)
    (hm : (m, v) ∈ spec_gated_fields data) :
    (m.cache s ≠ v →
        notifications m.sink (R24_parse_data_frame s data len) = notifications m.sink s + 1)
      ∧ (m.cache s = v →
        notifications m.sink (R24_parse_data_frame s data len) = notifications m.sink s)
      ∧ (notifications m.sink (R24_parse_data_frame s data len) ≠ notifications m.sink s
          ↔ m.cache s ≠ v)
      ∧ m.cache (R24_parse_data_frame s data len) = v := by
  obtain ⟨h1, h2⟩ := gated_field_decode s data len m v hb hm
  refine ⟨?_, ?_, ?_, h2⟩
  · intro hv
    rw [h1, if_neg hv]
  · intro hv
    rw [h1, if_pos hv, Nat.add_zero]
  · rw [h1]
    by_cases hv : m.cache s = v
    · simp [hv]
    · simp [hv]

/-- Witness of C33: the enter-unmanned-time reply with payload `00 01 E2
40` (`53 59 08 8E 00 04 00 01 E2 40 69 54 43`) carries the value 123456;
dispatched from the initial state (backup 0) it notifies the sink once and
leaves 123456 in the backup, and dispatched again it does not notify. The
radar report `53 59 08 01 00 05 28 03 32 04 04 1F 54 43` carries the
motion-speed byte 4. -/
theorem C33_change_cache_invariant_witness :
    (Metric.enter_unmanned_time, 123456)
        ∈ spec_gated_fields
          [0x53, 0x59, 0x08, 0x8E, 0x00, 0x04, 0x00, 0x01, 0xE2, 0x40, 0x69, 0x54, 0x43]
      ∧ notifications Sink.custom_time_of_enter_unmanned
          (R24_parse_data_frame (initState 4 10 10)
            [0x53, 0x59, 0x08, 0x8E, 0x00, 0x04, 0x00, 0x01, 0xE2, 0x40, 0x69, 0x54, 0x43] 13)
          = notifications Sink.custom_time_of_enter_unmanned (initState 4 10 10) + 1
      ∧ (R24_parse_data_frame (initState 4 10 10)
          [0x53, 0x59, 0x08, 0x8E, 0x00, 0x04, 0x00, 0x01, 0xE2, 0x40, 0x69, 0x54, 0x43]
          13).sg_enter_unmanned_time_bak = 123456
      ∧ notifications Sink.custom_time_of_enter_unmanned
          (R24_parse_data_frame
            (R24_parse_data_frame (initState 4 10 10)
              [0x53, 0x59, 0x08, 0x8E, 0x00, 0x04, 0x00, 0x01, 0xE2, 0x40, 0x69, 0x54, 0x43] 13)
            [0x53, 0x59, 0x08, 0x8E, 0x00, 0x04, 0x00, 0x01, 0xE2, 0x40, 0x69, 0x54, 0x43] 13)
          = notifications Sink.custom_time_of_enter_unmanned
            (R24_parse_data_frame (initState 4 10 10)
              [0x53, 0x59, 0x08, 0x8E, 0x00, 0x04, 0x00, 0x01, 0xE2, 0x40, 0x69, 0x54, 0x43] 13)
      ∧ (R24_parse_data_frame (initState 4 10 10)
          [0x53, 0x59, 0x08, 0x01, 0x00, 0x05, 0x28, 0x03, 0x32, 0x04, 0x04, 0x1F, 0x54, 0x43]
          14).sg_motion_speed_bak = 4 :=
  ⟨by decide,
    (C33_change_cache_invariant (initState 4 10 10)
      [0x53, 0x59, 0x08, 0x8E, 0x00, 0x04, 0x00, 0x01, 0xE2, 0x40, 0x69, 0x54, 0x43] 13
      Metric.enter_unmanned_time 123456 (by decide) (by decide)).1 (by decide),
    (C33_change_cache_invariant (initState 4 10 10)
      [0x53, 0x59, 0x08, 0x8E, 0x00, 0x04, 0x00, 0x01, 0xE2, 0x40, 0x69, 0x54, 0x43] 13
      Metric.enter_unmanned_time 123456 (by decide) (by decide)).2.2.2,
    (C33_change_cache_invariant
      (R24_parse_data_frame (initState 4 10 10)
        [0x53, 0x59, 0x08, 0x8E, 0x00, 0x04, 0x00, 0x01, 0xE2, 0x40, 0x69, 0x54, 0x43] 13)
      [0x53, 0x59, 0x08, 0x8E, 0x00, 0x04, 0x00, 0x01, 0xE2, 0x40, 0x69, 0x54, 0x43] 13
      Metric.enter_unmanned_time 123456 (by decide) (by decide)).2.1 (by decide),
    (C33_change_cache_invariant (initState 4 10 10)
      [0x53, 0x59, 0x08, 0x01, 0x00, 0x05, 0x28, 0x03, 0x32, 0x04, 0x04, 0x1F, 0x54, 0x43] 14
      Metric.motion_speed 4 (by decide) (by decide)).2.2.2⟩

/-- C38. What `update` does to the cursor: when `sg_init_flag` is set, after
`update` the cursor `sg_start_query_data` is
`STANDARD_FUNCTION_QUERY_PRODUCT_MODE` (0) if the dialect flag is
`OUTPUT_SWTICH_OFF` (Standard) and
`CUSTOM_FUNCTION_QUERY_RADAR_OUITPUT_INFORMATION_SWITCH` (14) if it is
`OUTPUT_SWITCH_INIT` (Unknown) or `OUTPUT_SWTICH_ON` (Custom), whatever the
cursor was; when `sg_init_flag` is clear `update` returns the state
unchanged. -/
theorem C38_update_restarts_sweep (s : State) :
    (s.sg_init_flag = true →
        (s.s_output_info_switch_flag = OUTPUT_SWTICH_OFF →
          (update s).sg_start_query_data = STANDARD_FUNCTION_QUERY_PRODUCT_MODE
            ∧ (update s).sg_start_query_data = 0)
        ∧ (s.s_output_info_switch_flag = OUTPUT_SWITCH_INIT
            ∨ s.s_output_info_switch_flag = OUTPUT_SWTICH_ON →
          (update s).sg_start_query_data
              = CUSTOM_FUNCTION_QUERY_RADAR_OUITPUT_INFORMATION_SWITCH
            ∧ (update s).sg_start_query_data = 14))
      ∧ (s.sg_init_flag = false → update s = s) := by
  constructor
  · intro hinit
    obtain ⟨_, _, _, h4, h5, h6⟩ := update_sched s hinit
    constructor
    · intro hf
      exact ⟨h5 hf, h5 hf⟩
    · rintro (hf | hf)
      · exact ⟨h4 hf, h4 hf⟩
      · exact ⟨h6 hf, h6 hf⟩
  · intro hinit
    unfold update
    rw [if_pos (by rw [hinit]; decide)]

/-- Witness of C38: `update` in the Standard dialect with the cursor parked
at 14, and `update` before `setup`. -/
theorem C38_update_restarts_sweep_witness :
    ({ setup (initState 4 10 10) with
          s_output_info_switch_flag := OUTPUT_SWTICH_OFF
          sg_start_query_data := 14 } : State).sg_init_flag = true
      ∧ (update { setup (initState 4 10 10) with
          s_output_info_switch_flag := OUTPUT_SWTICH_OFF
          sg_start_query_data := 14 }).sg_start_query_data = 0
      ∧ update (initState 4 10 10) = initState 4 10 10 :=
  ⟨by decide,
    (((C38_update_restarts_sweep { setup (initState 4 10 10) with
          s_output_info_switch_flag := OUTPUT_SWTICH_OFF
          sg_start_query_data := 14 }).1 (by decide)).1 (by decide)).2,
    (C38_update_restarts_sweep (initState 4 10 10)).2 (by decide)⟩

/-- C39. Shared body-movement cache: the Human commands 0x03/0x83 (control
0x80) and the OpenInfo commands 0x07/0x87 (control 0x08) gate the
movementSigns sink through the one backup `sg_movementSigns_bak`: after a
frame of either family carrying `v` is dispatched the backup is `v`, so a
following frame of the other family (or of the same) carrying the same `v`
publishes nothing and changes nothing but the dispatch log. -/
theorem C39_shared_movement_cache (s : State) (d1 d2 : List Nat) (len1 len2 : Nat)
    (h1 : (rd d1 FRAME_CONTROL_WORD_INDEX = 0x80
          ∧ (rd d1 FRAME_COMMAND_WORD_INDEX = 0x03 ∨ rd d1 FRAME_COMMAND_WORD_INDEX = 0x83))
        ∨ (rd d1 FRAME_CONTROL_WORD_INDEX = 0x08
          ∧ (rd d1 FRAME_COMMAND_WORD_INDEX = 0x07 ∨ rd d1 FRAME_COMMAND_WORD_INDEX = 0x87)))
    (h2 : (rd d2 FRAME_CONTROL_WORD_INDEX = 0x80
          ∧ (rd d2 FRAME_COMMAND_WORD_INDEX = 0x03 ∨ rd d2 FRAME_COMMAND_WORD_INDEX = 0x83))
        ∨ (rd d2 FRAME_CONTROL_WORD_INDEX = 0x08
          ∧ (rd d2 FRAME_COMMAND_WORD_INDEX = 0x07 ∨ rd d2 FRAME_COMMAND_WORD_INDEX = 0x87)))
    (hv : rd d2 FRAME_DATA_INDEX = rd d1 FRAME_DATA_INDEX) :
    (R24_parse_data_frame s d1 len1).sg_movementSigns_bak = rd d1 FRAME_DATA_INDEX
      ∧ (R24_parse_data_frame s d1 len1).published
        = s.published
          ++ (if s.sg_movementSigns_bak = rd d1 FRAME_DATA_INDEX then []
              else [(Sink.movementSigns, Value.num (rd d1 FRAME_DATA_INDEX))])
      ∧ R24_parse_data_frame (R24_parse_data_frame s d1 len1) d2 len2
        = { R24_parse_data_frame s d1 len1 with
            dispatched := (R24_parse_data_frame s d1 len1).dispatched ++ [d2.take len2] } := by
  have hbak : (R24_parse_data_frame s d1 len1).sg_movementSigns_bak
      = rd d1 FRAME_DATA_INDEX := by
    rw [parse_movementSigns s d1 len1 h1, movementSigns_report_eq]
    by_cases hc : s.sg_movementSigns_bak = rd d1 FRAME_DATA_INDEX
    · rw [if_pos hc]
      exact hc
    · rw [if_neg hc]
  refine ⟨hbak, ?_, ?_⟩
  · rw [parse_movementSigns s d1 len1 h1, movementSigns_report_eq]
    by_cases hc : s.sg_movementSigns_bak = rd d1 FRAME_DATA_INDEX
    · rw [if_pos hc, if_pos hc, List.append_nil]
    · rw [if_neg hc, if_neg hc]
  · rw [parse_movementSigns (R24_parse_data_frame s d1 len1) d2 len2 h2,
      movementSigns_report_eq, if_pos (by rw [hv]; exact hbak)]

/-- Witness of C39: the Human report `53 59 80 03 00 01 28 58 54 43` followed
by the OpenInfo reply `53 59 08 87 00 01 28 64 54 43` with the same value
0x28, from the initial state: one publish in all. -/
theorem C39_shared_movement_cache_witness :
    rd [0x53, 0x59, 0x08, 0x87, 0x00, 0x01, 0x28, 0x64, 0x54, 0x43] FRAME_DATA_INDEX
        = rd [0x53, 0x59, 0x80, 0x03, 0x00, 0x01, 0x28, 0x58, 0x54, 0x43] FRAME_DATA_INDEX
      ∧ (R24_parse_data_frame
          (R24_parse_data_frame (initState 4 10 10)
            [0x53, 0x59, 0x80, 0x03, 0x00, 0x01, 0x28, 0x58, 0x54, 0x43] 10)
          [0x53, 0x59, 0x08, 0x87, 0x00, 0x01, 0x28, 0x64, 0x54, 0x43] 10).published
        = [(Sink.movementSigns, Value.num 0x28)]
      ∧ (feed (initState 4 10 10)
          ([0x53, 0x59, 0x80, 0x03, 0x00, 0x01, 0x28, 0x58, 0x54, 0x43]
            ++ [0x53, 0x59, 0x08, 0x87, 0x00, 0x01, 0x28, 0x64, 0x54, 0x43])).published
        = [(Sink.movementSigns, Value.num 0x28)] :=
  ⟨by decide, by
    rw [(C39_shared_movement_cache (initState 4 10 10)
      [0x53, 0x59, 0x80, 0x03, 0x00, 0x01, 0x28, 0x58, 0x54, 0x43]
      [0x53, 0x59, 0x08, 0x87, 0x00, 0x01, 0x28, 0x64, 0x54, 0x43] 10 10
      (Or.inl ⟨by decide, Or.inl (by decide)⟩) (Or.inr ⟨by decide, Or.inr (by decide)⟩)
      (by decide)).2.2]
    decide, by decide⟩

/-! ## What the family decoders leave alone -/

theorem familyFrame_refl (s : State) : FamilyFrame s s := ⟨rfl, rfl, rfl⟩

theorem familyFrame_publish (s : State) (k : Sink) (v : Value) (hk : k ≠ Sink.Heartbeat) :
    FamilyFrame s (publish s k v) := by
  refine ⟨rfl, rfl, ?_⟩
  simp [notifications, publish, List.filter_append, hk]

theorem familyFrame_ite (s : State) (c : Prop) [Decidable c] (a b : State)
    (ha : c → FamilyFrame s a) (hb : ¬ c → FamilyFrame s b) :
    FamilyFrame s (if c then a else b) := by
  by_cases hc : c
  · rw [if_pos hc]
    exact ha hc
  · rw [if_neg hc]
    exact hb hc

theorem familyFrame_trans (s t u : State) (h1 : FamilyFrame s t) (h2 : FamilyFrame t u) :
    FamilyFrame s u :=
  ⟨h2.1.trans h1.1, h2.2.1.trans h1.2.1, h2.2.2.trans h1.2.2⟩

theorem familyFrame_movementSigns (s : State) (data : List Nat) :
    FamilyFrame s (movementSigns_report s data) := by
  rw [movementSigns_report_eq]
  split
  · exact familyFrame_refl s
  · refine ⟨rfl, rfl, ?_⟩
    simp [notifications, List.filter_append]

theorem familyFrame_spatial_static_value (s : State) (v : Nat) :
    FamilyFrame s (report_spatial_static_value s v) := by
  rw [report_spatial_static_value_eq]
  split
  · exact familyFrame_refl s
  · refine ⟨rfl, rfl, ?_⟩
    simp [notifications, List.filter_append]

theorem familyFrame_static_distance (s : State) (v : Nat) :
    FamilyFrame s (report_static_distance s v) := by
  rw [report_static_distance_eq]
  split
  · exact familyFrame_refl s
  · refine ⟨rfl, rfl, ?_⟩
    simp [notifications, List.filter_append]

theorem familyFrame_spatial_motion_value (s : State) (v : Nat) :
    FamilyFrame s (report_spatial_motion_value s v) := by
  rw [report_spatial_motion_value_eq]
  split
  · exact familyFrame_refl s
  · refine ⟨rfl, rfl, ?_⟩
    simp [notifications, List.filter_append]

theorem familyFrame_motion_distance (s : State) (v : Nat) :
    FamilyFrame s (report_motion_distance s v) := by
  rw [report_motion_distance_eq]
  split
  · exact familyFrame_refl s
  · refine ⟨rfl, rfl, ?_⟩
    simp [notifications, List.filter_append]

theorem familyFrame_motion_speed (s : State) (v : Nat) :
    FamilyFrame s (report_motion_speed s v) := by
  rw [report_motion_speed_eq]
  split
  · exact familyFrame_refl s
  · refine ⟨rfl, rfl, ?_⟩
    simp [notifications, List.filter_append]

theorem familyFrame_motion_trigger_time (s : State) (data : List Nat) :
    FamilyFrame s (motion_trigger_time_reply s data) := by
  rw [motion_trigger_time_reply_eq]
  split
  · exact familyFrame_refl s
  · refine ⟨rfl, rfl, ?_⟩
    simp [notifications, List.filter_append]

theorem familyFrame_move_to_rest_time (s : State) (data : List Nat) :
    FamilyFrame s (move_to_rest_time_reply s data) := by
  rw [move_to_rest_time_reply_eq]
  split
  · exact familyFrame_refl s
  · refine ⟨rfl, rfl, ?_⟩
    simp [notifications, List.filter_append]

theorem familyFrame_enter_unmanned_time (s : State) (data : List Nat) :
    FamilyFrame s (enter_unmanned_time_reply s data) := by
  rw [enter_unmanned_time_reply_eq]
  split
  · exact familyFrame_refl s
  · refine ⟨rfl, rfl, ?_⟩
    simp [notifications, List.filter_append]

theorem familyFrame_perception_boundary (s : State) (data : List Nat) :
    FamilyFrame s (perception_boundary_reply s data) := by
  unfold perception_boundary_reply
  split
  · exact familyFrame_publish _ _ _ (by decide)
  · exact familyFrame_refl s

theorem familyFrame_motion_trigger_boundary (s : State) (data : List Nat) :
    FamilyFrame s (motion_trigger_boundary_reply s data) := by
  unfold motion_trigger_boundary_reply
  split
  · exact familyFrame_publish _ _ _ (by decide)
  · exact familyFrame_refl s

theorem familyFrame_radar_report (s : State) (data : List Nat) :
    FamilyFrame s (radar_report s data) := by
  unfold radar_report
  exact familyFrame_trans _ _ _ (familyFrame_trans _ _ _ (familyFrame_trans _ _ _
    (familyFrame_trans _ _ _ (familyFrame_spatial_static_value _ _)
      (familyFrame_static_distance _ _)) (familyFrame_spatial_motion_value _ _))
    (familyFrame_motion_distance _ _)) (familyFrame_motion_speed _ _)

theorem familyFrame_work_status (s : State) (data : List Nat) :
    FamilyFrame s (R24_frame_parse_work_status s data) := by
  unfold R24_frame_parse_work_status
  repeat' first
    | intro _
    | with_reducible exact familyFrame_refl _
    | with_reducible exact familyFrame_publish _ _ _ (by decide)
    | with_reducible apply familyFrame_ite

theorem familyFrame_human (s : State) (data : List Nat) :
    FamilyFrame s (R24_frame_parse_human_information s data) := by
  unfold R24_frame_parse_human_information
  repeat' first
    | intro _
    | with_reducible exact familyFrame_refl _
    | with_reducible exact familyFrame_publish _ _ _ (by decide)
    | with_reducible exact familyFrame_movementSigns _ _
    | with_reducible apply familyFrame_ite

theorem familyFrame_detection_range (s : State) (data : List Nat) :
    FamilyFrame s (R24_frame_parse_detection_range s data) := by
  unfold R24_frame_parse_detection_range
  repeat' first
    | intro _
    | with_reducible exact familyFrame_refl _
    | with_reducible exact familyFrame_publish _ _ _ (by decide)
    | with_reducible apply familyFrame_ite

theorem familyFrame_product (s : State) (data : List Nat) :
    FamilyFrame s (R24_frame_parse_product_Information s data) := by
  unfold R24_frame_parse_product_Information
  repeat' first
    | intro _
    | with_reducible exact familyFrame_refl _
    | with_reducible apply familyFrame_ite
    | (refine ⟨rfl, rfl, ?_⟩; simp [notifications, publish, List.filter_append])

/-- Every OpenInfo branch but the output-switch one (commands 0x00 and 0x80)
leaves the dialect flag, the heartbeat flag and the heartbeat sink alone. -/
theorem familyFrame_open (s : State) (data : List Nat)
    (h00 : rd data FRAME_COMMAND_WORD_INDEX ≠ 0x00)
    (h80 : rd data FRAME_COMMAND_WORD_INDEX ≠ 0x80) :
    FamilyFrame s (R24_frame_parse_open_underlying_information s data) := by
  unfold R24_frame_parse_open_underlying_information
  repeat' first
    | with_reducible exact familyFrame_refl _
    | with_reducible exact familyFrame_publish _ _ _ (by decide)
    | with_reducible exact familyFrame_movementSigns _ _
    | with_reducible exact familyFrame_radar_report _ _
    | with_reducible exact familyFrame_motion_distance _ _
    | with_reducible exact familyFrame_motion_speed _ _
    | with_reducible exact familyFrame_perception_boundary _ _
    | with_reducible exact familyFrame_motion_trigger_boundary _ _
    | with_reducible exact familyFrame_motion_trigger_time _ _
    | with_reducible exact familyFrame_move_to_rest_time _ _
    | with_reducible exact familyFrame_enter_unmanned_time _ _
    | (intro hc; exact absurd hc h00)
    | (intro hc; exact absurd hc h80)
    | intro _
    | with_reducible apply familyFrame_ite

/-- Dispatching a frame that is neither a heartbeat reply (control 0x01,
command 0x01) nor an output-switch reply (control 0x08, command 0x00 or 0x80)
leaves the dialect flag, the heartbeat flag and the heartbeat sink alone. -/
theorem parse_familyFrame (s : State) (data : List Nat) (len : Nat)
    (hhb : ¬ (rd data FRAME_CONTROL_WORD_INDEX = 0x01
      ∧ rd data FRAME_COMMAND_WORD_INDEX = 0x01))
    (hsw : ¬ (rd data FRAME_CONTROL_WORD_INDEX = 0x08
      ∧ (rd data FRAME_COMMAND_WORD_INDEX = 0x00 ∨ rd data FRAME_COMMAND_WORD_INDEX = 0x80))) :
    FamilyFrame s (R24_parse_data_frame s data len) := by
  have hd : FamilyFrame s { s with dispatched := s.dispatched ++ [data.take len] } :=
    ⟨rfl, rfl, rfl⟩
  by_cases h1 : rd data FRAME_CONTROL_WORD_INDEX = 0x01
  · rw [parse_system s data len h1 (fun e => hhb ⟨h1, e⟩)]
    exact hd
  by_cases h2 : rd data FRAME_CONTROL_WORD_INDEX = 0x02
  · rw [parse_product s data len h2]
    exact familyFrame_trans _ _ _ hd (familyFrame_product _ _)
  by_cases h5 : rd data FRAME_CONTROL_WORD_INDEX = 0x05
  · rw [parse_work_status s data len h5]
    exact familyFrame_trans _ _ _ hd (familyFrame_work_status _ _)
  by_cases h7 : rd data FRAME_CONTROL_WORD_INDEX = 0x07
  · rw [parse_detection_range s data len h7]
    exact familyFrame_trans _ _ _ hd (familyFrame_detection_range _ _)
  by_cases h8 : rd data FRAME_CONTROL_WORD_INDEX = 0x08
  · rw [parse_open s data len h8]
    exact familyFrame_trans _ _ _ hd
      (familyFrame_open _ _ (fun e => hsw ⟨h8, Or.inl e⟩) (fun e => hsw ⟨h8, Or.inr e⟩))
  by_cases h80 : rd data FRAME_CONTROL_WORD_INDEX = 0x80
  · rw [parse_human s data len h80]
    exact familyFrame_trans _ _ _ hd (familyFrame_human _ _)
  rw [parse_unknown_control s data len (by
    intro c hm
    simp only [List.mem_cons, List.mem_singleton, List.not_mem_nil, or_false] at hm
    rcases hm with e | e | e | e | e | e <;> rw [e] <;> assumption)]
  exact hd

/-- C34. The dialect is set only by an output-information-switch reply:
dispatching any frame whose (control, command) is neither (0x08, 0x00) nor
(0x08, 0x80) leaves `s_output_info_switch_flag` unchanged, and so do a `loop`
call that receives no bytes and an `update` call. -/
theorem C34_dialect_set_only_by_switch_reply (s : State) (data : List Nat) (len : Nat)
    (h : ¬ (rd data FRAME_CONTROL_WORD_INDEX = 0x08
      ∧ (rd data FRAME_COMMAND_WORD_INDEX = 0x00 ∨ rd data FRAME_COMMAND_WORD_INDEX = 0x80))) :
    (R24_parse_data_frame s data len).s_output_info_switch_flag = s.s_output_info_switch_flag
      ∧ (loop s []).s_output_info_switch_flag = s.s_output_info_switch_flag
      ∧ (update s).s_output_info_switch_flag = s.s_output_info_switch_flag := by
  refine ⟨?_, ?_, update_flag s⟩
  · by_cases hhb : rd data FRAME_CONTROL_WORD_INDEX = 0x01
        ∧ rd data FRAME_COMMAND_WORD_INDEX = 0x01
    · rw [parse_heartbeat s data len hhb.1 hhb.2]
    · exact (parse_familyFrame s data len hhb h).1
  · show (loop_query (feed s [])).s_output_info_switch_flag = _
    rw [loop_query_flag, feed_nil]

/-- Witness of C34: the scene-mode reply `53 59 05 87 00 01 02 3B 54 43`
dispatched in the Custom dialect leaves the dialect flag at
`OUTPUT_SWTICH_ON`. -/
theorem C34_dialect_set_only_by_switch_reply_witness :
    ¬ (rd [0x53, 0x59, 0x05, 0x87, 0x00, 0x01, 0x02, 0x3B, 0x54, 0x43] FRAME_CONTROL_WORD_INDEX
          = 0x08
        ∧ (rd [0x53, 0x59, 0x05, 0x87, 0x00, 0x01, 0x02, 0x3B, 0x54, 0x43]
            FRAME_COMMAND_WORD_INDEX = 0x00
          ∨ rd [0x53, 0x59, 0x05, 0x87, 0x00, 0x01, 0x02, 0x3B, 0x54, 0x43]
            FRAME_COMMAND_WORD_INDEX = 0x80))
      ∧ (R24_parse_data_frame
          { initState 4 10 10 with s_output_info_switch_flag := OUTPUT_SWTICH_ON }
          [0x53, 0x59, 0x05, 0x87, 0x00, 0x01, 0x02, 0x3B, 0x54, 0x43]
          10).s_output_info_switch_flag = OUTPUT_SWTICH_ON :=
  ⟨by decide,
    (C34_dialect_set_only_by_switch_reply
      { initState 4 10 10 with s_output_info_switch_flag := OUTPUT_SWTICH_ON }
      [0x53, 0x59, 0x05, 0x87, 0x00, 0x01, 0x02, 0x3B, 0x54, 0x43] 10 (by decide)).1⟩

/-- A valid frame fed to an idle decoder whose lengths need not be zero:
the frame is dispatched once, the decoder is idle again and both lengths are
zero. -/
theorem feed_valid_frame_reset (s : State) (f : Nat × Nat × List Nat)
    (hidle : s.sg_recv_data_state = FRAME_IDLE)
    (hbuf : s.sg_frame_buf.length = FRAME_BUF_MAX_SIZE)
    (hn1 : 1 ≤ f.2.2.length) (hn : f.2.2.length ≤ 32) :
    (feed s (valid_frame f)).dispatched = s.dispatched ++ [valid_frame f]
      ∧ (feed s (valid_frame f)).sg_recv_data_state = FRAME_IDLE
      ∧ (feed s (valid_frame f)).sg_frame_len = 0
      ∧ (feed s (valid_frame f)).sg_data_len = 0
      ∧ (feed s (valid_frame f)).sg_frame_buf.length = FRAME_BUF_MAX_SIZE := by
  obtain ⟨h1, h2⟩ := feed_valid_frame s f.1 f.2.1 f.2.2 hidle hbuf hn1 hn
  refine ⟨h1, h2, ?_, ?_, feed_buf_length _ s hbuf⟩
  · unfold valid_frame
    rw [feed_frame s f.1 f.2.1 f.2.2 _ hidle hbuf hn1 hn]
    rfl
  · unfold valid_frame
    rw [feed_frame s f.1 f.2.1 f.2.2 _ hidle hbuf hn1 hn]
    rfl

/-- Valid frames fed back to back to an idle decoder with zero lengths. -/
theorem feed_valid_frames (fs : List (Nat × Nat × List Nat)) : ∀ (s : State),
    s.sg_recv_data_state = FRAME_IDLE →
    s.sg_frame_buf.length = FRAME_BUF_MAX_SIZE →
    s.sg_frame_len = 0 → s.sg_data_len = 0 →
    (∀ f ∈ fs, 1 ≤ f.2.2.length ∧ f.2.2.length ≤ 32) →
    (feed s (fs.map valid_frame).flatten).dispatched = s.dispatched ++ fs.map valid_frame
      ∧ (feed s (fs.map valid_frame).flatten).sg_recv_data_state = FRAME_IDLE
      ∧ (feed s (fs.map valid_frame).flatten).sg_frame_len = 0
      ∧ (feed s (fs.map valid_frame).flatten).sg_data_len = 0 := by
  induction fs with
  | nil =>
    intro s hidle _ hfl hdl _
    simp only [List.map_nil, List.flatten_nil, feed_nil, List.append_nil]
    exact ⟨trivial, hidle, hfl, hdl⟩
  | cons f fs ih =>
    intro s hidle hbuf _ _ hfs
    have hf := hfs f (List.mem_cons_self _ _)
    obtain ⟨a1, a2, a3, a4, a5⟩ := feed_valid_frame_reset s f hidle hbuf hf.1 hf.2
    obtain ⟨b1, b2, b3, b4⟩ := ih (feed s (valid_frame f)) a2 a5 a3 a4
      (fun g hg => hfs g (List.mem_cons_of_mem _ hg))
    simp only [List.map_cons, List.flatten_cons, feed_append]
    refine ⟨?_, b2, b3, b4⟩
    rw [b1, a1, List.append_assoc]
    rfl

/-- C36. Back-to-back decoding: for every finite list of valid frames, each
with a payload of 1 to 32 bytes, feeding their concatenated bytes to the
decoder in `FRAME_IDLE` dispatches exactly those frames, in order, each once
and byte for byte, and leaves the decoder in `FRAME_IDLE`; `sg_frame_len` and
`sg_data_len` are 0 afterwards (when the list is empty they are what they
were, 0 in every idle state the decoder reaches). -/
theorem C36_back_to_back_decoding (fs : List (Nat × Nat × List Nat)) (s : State)
    (hidle : s.sg_recv_data_state = FRAME_IDLE)
    (hbuf : s.sg_frame_buf.length = FRAME_BUF_MAX_SIZE)
    (hfs : ∀ f ∈ fs, 1 ≤ f.2.2.length ∧ f.2.2.length ≤ 32) :
    (feed s (fs.map valid_frame).flatten).dispatched = s.dispatched ++ fs.map valid_frame
      ∧ (feed s (fs.map valid_frame).flatten).sg_recv_data_state = FRAME_IDLE
      ∧ (fs ≠ [] ∨ (s.sg_frame_len = 0 ∧ s.sg_data_len = 0) →
          (feed s (fs.map valid_frame).flatten).sg_frame_len = 0
            ∧ (feed s (fs.map valid_frame).flatten).sg_data_len = 0) := by
  cases fs with
  | nil =>
    simp only [List.map_nil, List.flatten_nil, feed_nil, List.append_nil]
    refine ⟨trivial, hidle, ?_⟩
    rintro (h | h)
    · exact absurd rfl h
    · exact h
  | cons f fs =>
    have hf := hfs f (List.mem_cons_self _ _)
    obtain ⟨a1, a2, a3, a4, a5⟩ := feed_valid_frame_reset s f hidle hbuf hf.1 hf.2
    obtain ⟨b1, b2, b3, b4⟩ := feed_valid_frames fs (feed s (valid_frame f)) a2 a5 a3 a4
      (fun g hg => hfs g (List.mem_cons_of_mem _ hg))
    simp only [List.map_cons, List.flatten_cons, feed_append]
    refine ⟨?_, b2, fun _ => ⟨b3, b4⟩⟩
    rw [b1, a1, List.append_assoc]
    rfl

/-- Witness of C36: the heartbeat reply, the scene-mode reply and the
motion-trigger-time reply fed back to back from the initial state. -/
theorem C36_back_to_back_decoding_witness :
    (feed (initState 4 10 10)
        ([(0x01, 0x01, [0x0F]), (0x05, 0x87, [0x02]),
          (0x08, 0x8C, [0x00, 0x00, 0x00, 0x05])].map valid_frame).flatten).dispatched
        = [[0x53, 0x59, 0x01, 0x01, 0x00, 0x01, 0x0F, 0xBE, 0x54, 0x43],
            [0x53, 0x59, 0x05, 0x87, 0x00, 0x01, 0x02, 0x3B, 0x54, 0x43],
            [0x53, 0x59, 0x08, 0x8C, 0x00, 0x04, 0x00, 0x00, 0x00, 0x05, 0x49, 0x54, 0x43]] :=
  (C36_back_to_back_decoding
    [(0x01, 0x01, [0x0F]), (0x05, 0x87, [0x02]), (0x08, 0x8C, [0x00, 0x00, 0x00, 0x05])]
    (initState 4 10 10) (by decide) (by simp [initState, FRAME_BUF_MAX_SIZE])
    (by decide)).1

/-! ## String splitting lemmas -/

theorem splitOnP_run (p : Nat → Bool) : ∀ (l : List Nat),
    l.splitOnP p
      = l.takeWhile (fun c => !p c)
        :: (match l.dropWhile (fun c => !p c) with
            | [] => []
            | _ :: ys => ys.splitOnP p) := by
  intro l
  induction l with
  | nil => simp [List.splitOnP_nil]
  | cons y ys ih =>
    rw [List.splitOnP_cons]
    by_cases hy : p y = true
    · simp [hy]
    · simp only [hy, if_false, Bool.false_eq_true]
      rw [ih]
      simp [List.modifyHead, hy]

/-- The nonempty pieces between separators. -/
theorem words_nil (p : Nat → Bool) :
    (([] : List Nat).splitOnP p).filter (fun w => decide (w ≠ [])) = [] := by
  simp [List.splitOnP_nil]

theorem words_cons_sep (p : Nat → Bool) (x : Nat) (xs : List Nat) (hx : p x = true) :
    ((x :: xs).splitOnP p).filter (fun w => decide (w ≠ []))
      = (xs.splitOnP p).filter (fun w => decide (w ≠ [])) := by
  rw [List.splitOnP_cons]
  simp [hx]

theorem words_dropWhile (p : Nat → Bool) : ∀ (l : List Nat),
    ((l.dropWhile p).splitOnP p).filter (fun w => decide (w ≠ []))
      = (l.splitOnP p).filter (fun w => decide (w ≠ [])) := by
  intro l
  induction l with
  | nil => rfl
  | cons x xs ih =>
    by_cases hx : p x = true
    · rw [List.dropWhile_cons_of_pos hx, ih, words_cons_sep p x xs hx]
    · rw [List.dropWhile_cons_of_neg hx]

theorem dropWhile_head (q : Nat → Bool) : ∀ (l : List Nat) (y : Nat) (ys : List Nat),
    l.dropWhile q = y :: ys → q y = false := by
  intro l
  induction l with
  | nil => intro y ys h; simp at h
  | cons x xs ih =>
    intro y ys h
    by_cases hx : q x = true
    · rw [List.dropWhile_cons_of_pos hx] at h
      exact ih y ys h
    · rw [List.dropWhile_cons_of_neg hx] at h
      simp only [List.cons.injEq] at h
      rw [← h.1]
      simpa using hx

theorem words_run (p : Nat → Bool) (r : List Nat)
    (hr : r.takeWhile (fun c => !p c) ≠ []) :
    (r.splitOnP p).filter (fun w => decide (w ≠ []))
      = r.takeWhile (fun c => !p c)
        :: ((r.dropWhile (fun c => !p c)).splitOnP p).filter (fun w => decide (w ≠ [])) := by
  rw [splitOnP_run p r, List.filter_cons_of_pos (by simpa using hr)]
  congr 1
  cases hd : r.dropWhile (fun c => !p c) with
  | nil => simp [List.splitOnP_nil]
  | cons y ys =>
    have hy := dropWhile_head _ r y ys hd
    have hy2 : p y = true := by simpa using hy
    simp only []
    rw [words_cons_sep p y ys hy2]

theorem length_dropWhile_le (q : Nat → Bool) : ∀ (l : List Nat),
    (l.dropWhile q).length ≤ l.length := by
  intro l
  induction l with
  | nil => simp
  | cons x xs ih =>
    by_cases hx : q x = true
    · rw [List.dropWhile_cons_of_pos hx]
      simp only [List.length_cons]
      omega
    · rw [List.dropWhile_cons_of_neg hx]

/-- A failed extraction: only whitespace is left, and no word remains. -/
theorem extract_word_fail (iss : List Nat) (h : iss.dropWhile isspace = []) :
    extract_word iss = ([], [], false)
      ∧ (iss.splitOnP isspace).filter (fun w => decide (w ≠ [])) = [] := by
  constructor
  · unfold extract_word
    rw [if_pos h]
  · rw [← words_dropWhile isspace iss, h]
    exact words_nil isspace

/-- A successful extraction: the word is the first word that remains, it is
not empty, and fewer characters are left unread. -/
theorem extract_word_ok (iss : List Nat) (h : iss.dropWhile isspace ≠ []) :
    (extract_word iss).2.2 = true
      ∧ (extract_word iss).1 ≠ []
      ∧ (extract_word iss).2.1.length < iss.length
      ∧ (iss.splitOnP isspace).filter (fun w => decide (w ≠ []))
        = (extract_word iss).1
          :: ((extract_word iss).2.1.splitOnP isspace).filter (fun w => decide (w ≠ [])) := by
  have he : extract_word iss
      = ((iss.dropWhile isspace).takeWhile (fun c => !isspace c),
          (iss.dropWhile isspace).dropWhile (fun c => !isspace c), true) := by
    unfold extract_word
    rw [if_neg h]
  rw [he]
  have hne : (iss.dropWhile isspace).takeWhile (fun c => !isspace c) ≠ [] := by
    cases hd : iss.dropWhile isspace with
    | nil => exact absurd hd h
    | cons y ys =>
      have hy := dropWhile_head isspace iss y ys hd
      rw [List.takeWhile_cons_of_pos (by simp [hy])]
      simp
  refine ⟨rfl, hne, ?_, ?_⟩
  · show ((iss.dropWhile isspace).dropWhile (fun c => !isspace c)).length < iss.length
    have h1 := length_dropWhile_le isspace iss
    have h2 := congrArg List.length
      (List.takeWhile_append_dropWhile (fun c => !isspace c) (iss.dropWhile isspace))
    rw [List.length_append] at h2
    have h3 : 0 < ((iss.dropWhile isspace).takeWhile (fun c => !isspace c)).length :=
      List.length_pos.mpr hne
    omega
  · show _ = (iss.dropWhile isspace).takeWhile (fun c => !isspace c)
      :: (((iss.dropWhile isspace).dropWhile (fun c => !isspace c)).splitOnP isspace).filter
        (fun w => decide (w ≠ []))
    rw [← words_dropWhile isspace iss]
    exact words_run isspace _ hne

/-- The loop of `splitStringIntoVector` ends within `iss.length + 1`
iterations, with a nonempty `line`, and the lines then concatenate to what
was there before followed by every remaining word with its `,` and one more
`,`. -/
theorem split_loop_spec (lineLength : Int) : ∀ (fuel : Nat) (iss line : List Nat)
    (result : List (List Nat)), iss.length < fuel →
    ∃ res ln, split_loop lineLength fuel iss line result = some (res, ln) ∧ ln ≠ []
      ∧ res.flatten ++ ln
        = result.flatten ++ line
          ++ ((((iss.splitOnP isspace).filter (fun w => decide (w ≠ []))).map
              (fun w => w ++ [44])).flatten ++ [44]) := by
  intro fuel
  induction fuel with
  | zero => intro iss line result h; exact absurd h (Nat.not_lt_zero _)
  | succ fuel ih =>
    intro iss line result hlen
    by_cases hr : iss.dropWhile isspace = []
    · obtain ⟨he, hw⟩ := extract_word_fail iss hr
      refine ⟨if exceeds line [] lineLength then result ++ [line] else result,
        (if exceeds line [] lineLength then [] else line) ++ ([] ++ [44]), ?_, ?_, ?_⟩
      · simp only [split_loop, he, Bool.false_eq_true, if_false]
      · simp
      · rw [hw]
        by_cases hx : exceeds line [] lineLength = true
        · simp [hx]
        · simp [hx]
    · obtain ⟨hok, _, hlt, hw⟩ := extract_word_ok iss hr
      obtain ⟨res, ln, h1, h2, h3⟩ := ih (extract_word iss).2.1
        ((if exceeds line (extract_word iss).1 lineLength then [] else line)
          ++ ((extract_word iss).1 ++ [44]))
        (if exceeds line (extract_word iss).1 lineLength then result ++ [line] else result)
        (by omega)
      refine ⟨res, ln, ?_, h2, ?_⟩
      · simp only [split_loop, hok, if_true]
        exact h1
      · rw [h3, hw]
        by_cases hx : exceeds line (extract_word iss).1 lineLength = true
        · simp [hx]
        · simp [hx]

/-- The library call `isspace` holds of exactly the six characters the
specification lists as whitespace. -/
theorem isspace_eq_spec_whitespace : isspace = spec_whitespace := by
  funext c
  rw [Bool.eq_iff_iff]
  simp only [isspace, spec_whitespace, Bool.or_eq_true, Bool.and_eq_true, beq_iff_eq,
    decide_eq_true_eq, List.mem_cons, List.mem_singleton, List.not_mem_nil, or_false]
  omega

/-- The words the splitter extracts from the sentence with its commas
replaced are the words of the specification. -/
theorem spec_words_eq (sentence : List Nat) :
    ((replace_commas sentence).splitOnP isspace).filter (fun w => decide (w ≠ []))
      = spec_words sentence := by
  unfold spec_words replace_commas
  rw [isspace_eq_spec_whitespace]

/-- Evaluations on the sentence "ab, cd": with `lineLength` 3 the lines are
"ab," and "cd,,"; with `lineLength` 0 they are "", "ab,", "cd," and ","; with
`lineLength` -1 (a large `size_t`) there is the one line "ab,cd,,". Its words
are "ab" and "cd". The sentence "a, b" gives the one line "a,b,,", and the
words of "a,b c d" written with a tab and a line feed for the two blanks
are "a", "b", "c" and "d". -/
theorem splitStringIntoVector_examples :
    splitStringIntoVector [97, 98, 44, 32, 99, 100] 3
        = some [[97, 98, 44], [99, 100, 44, 44]]
      ∧ splitStringIntoVector [97, 98, 44, 32, 99, 100] 0
        = some [[], [97, 98, 44], [99, 100, 44], [44]]
      ∧ splitStringIntoVector [97, 98, 44, 32, 99, 100] (-1)
        = some [[97, 98, 44, 99, 100, 44, 44]]
      ∧ spec_words [97, 98, 44, 32, 99, 100] = [[97, 98], [99, 100]]
      ∧ splitStringIntoVector [] 5 = some [[44]]
      ∧ splitStringIntoVector [97, 44, 32, 98] 10 = some [[97, 44, 98, 44, 44]]
      ∧ spec_joined [97, 44, 32, 98] = [97, 44, 98, 44, 44]
      ∧ spec_words [97, 44, 98, 9, 99, 10, 100] = [[97], [98], [99], [100]]
      ∧ splitStringIntoVector [97, 44, 98, 9, 99, 10, 100] 10
        = some [[97, 44, 98, 44, 99, 44, 100, 44, 44]] := by
  decide

/-- C40. For every sentence and every `lineLength`, `splitStringIntoVector`
returns (the loop ends), and the concatenation of the lines it returns is the
sentence's words (the maximal runs of non-whitespace characters after every
`,` has been replaced by a space), in order, each followed by `,`, followed by
one more `,`; the result is never empty. -/
theorem C40_split_lines_concatenate (sentence : List Nat) (lineLength : Int) :
    ∃ lines, splitStringIntoVector sentence lineLength = some lines
      ∧ lines.flatten = spec_joined sentence
      ∧ lines.flatten
        = ((spec_words sentence).map (fun w => w ++ [44])).flatten ++ [44]
      ∧ lines ≠ [] := by
  obtain ⟨res, ln, h1, h2, h3⟩ := split_loop_spec lineLength (sentence.length + 1)
    (replace_commas sentence) [] [] (by simp [replace_commas])
  have hf : (res ++ [ln]).flatten = spec_joined sentence := by
    rw [List.flatten_append, List.flatten_singleton, h3, spec_words_eq]
    simp [spec_joined]
  refine ⟨res ++ [ln], ?_, hf, hf, by simp⟩
  unfold splitStringIntoVector
  rw [h1]
  simp [h2]

/-! ## Stores past `sg_frame_buf` -/

/-- A frame that announces a zero-length payload makes the decoder store the
next 256 bytes: the stores at 6 .. 127 fill `sg_frame_buf`, the stores at
128 .. 255 land in `sg_frame_prase_buf`, and the last six, at the wrapped
indices 0 .. 5, overwrite the header. Here the 256 bytes are 250 times `A`
followed by `53 59 02 A1 00 1F`, then the checksum `6E` of those six and the
tail; the frame dispatched is the product-model reply of announced length 31,
whose string is read from `sg_frame_prase_buf[6 .. 36]`: the three bytes
`6E 54 43` just copied, then 28 of the bytes `A` stored past `sg_frame_buf`. -/
theorem zero_length_frame_overrun :
    (feed (initState 4 10 10)
        ([0x53, 0x59, 0x02, 0xA1, 0x00, 0x00] ++ List.replicate 250 0x41
          ++ [0x53, 0x59, 0x02, 0xA1, 0x00, 0x1F] ++ [0x6E, 0x54, 0x43])).published
        = [(Sink.product_mode, Value.cstr ([0x6E, 0x54, 0x43] ++ List.replicate 28 0x41))]
      ∧ (feed (initState 4 10 10)
        ([0x53, 0x59, 0x02, 0xA1, 0x00, 0x00] ++ List.replicate 250 0x41
          ++ [0x53, 0x59, 0x02, 0xA1, 0x00, 0x1F] ++ [0x6E, 0x54, 0x43])).dispatched
        = [[0x53, 0x59, 0x02, 0xA1, 0x00, 0x1F, 0x6E, 0x54, 0x43]]
      ∧ (feed (initState 4 10 10)
        ([0x53, 0x59, 0x02, 0xA1, 0x00, 0x00]
          ++ List.replicate 250 0x41)).sg_frame_prase_buf = List.replicate 128 0x41 := by
  decide

end R24dvd
